import Mathlib

/-!
Named-map MapConfig provider (Windshaft-cartodb)

A shallow embedding of `lib/cartodb/models/mapconfig/provider/named-map-provider.js`
and a verification of its cache-key derivation, its template gate and its
memoised resolution pipeline.

Conventions of the embedding

* JavaScript values are the JSON-like trees of `JSValue`; numbers are the IEEE 754
  doubles of `JSNumber`, printed as Number::toString prints them; strings are
  sequences of Unicode scalar values.
* An asynchronous collaborator call `f(args, callback)` is a function that
  receives the call history so far and answers with `Except JSError α`
  (`callback(err)` or `callback(null, value)`); every call is appended to the
  history, so that "is never consulted" is a statement about the history.
* `step(f1, ..., fn)` runs its functions in order; a function that throws
  hands the exception to the next function as `err`, and `assert.ifError(err)`
  rethrows it, so that an error travels to the last function of the chain.
  A function that returns a value other than `undefined` hands that value to
  the next function; the last function hands it to nothing.
-/

namespace NamedMap

/-! ## JavaScript numbers -/

/-- A JavaScript number, an IEEE 754 double: its sign bit, its biased exponent of 11 bits
and its fraction of 52 bits. -/
structure JSNumber where
  negative : Bool
  exponent : Nat
  fraction : Nat
  exponent_lt : exponent < 2048
  fraction_lt : fraction < 4503599627370496
deriving DecidableEq

namespace JSNumber

/-- The double with the given bits, each field taken modulo its width. -/
def ofBits (negative : Bool) (exponent fraction : Nat) : JSNumber :=
  ⟨negative, exponent % 2048, fraction % 4503599627370496,
    Nat.mod_lt _ (by decide), Nat.mod_lt _ (by decide)⟩

/-- Whether the number is NaN. -/
def isNaN (x : JSNumber) : Bool :=
  x.exponent = 2047 && x.fraction ≠ 0

/-- Whether the number is +Infinity or -Infinity. -/
def isInfinite (x : JSNumber) : Bool :=
  x.exponent = 2047 && x.fraction = 0

/-- Whether the number is +0 or -0. -/
def isZero (x : JSNumber) : Bool :=
  x.exponent = 0 && x.fraction = 0

/-- The significand `M` of a finite number, whose magnitude is `M * 2 ^ shift / 2 ^ 1074`. -/
def significand (x : JSNumber) : Nat :=
  if x.exponent = 0 then x.fraction else 4503599627370496 + x.fraction

/-- The binary shift of a finite number, whose magnitude is `M * 2 ^ shift / 2 ^ 1074`. -/
def shift (x : JSNumber) : Nat :=
  x.exponent - 1

/-- The double nearest to a natural number, ties to the even significand; +Infinity from
`2 ^ 1024 - 2 ^ 970` on. -/
def ofNat (n : Nat) : JSNumber :=
  if n = 0 then ofBits false 0 0
  else
    let bits := (Nat.toDigits 2 n).length - 1
    if bits ≤ 52 then ofBits false (1023 + bits) (n * 2 ^ (52 - bits) - 4503599627370496)
    else
      let drop := bits - 52
      let kept := n / 2 ^ drop
      let rest := n % 2 ^ drop
      let half := 2 ^ (drop - 1)
      let rounded := if rest > half ∨ (rest = half ∧ kept % 2 = 1) then kept + 1 else kept
      let exponent := if rounded = 9007199254740992 then 1023 + bits + 1 else 1023 + bits
      if exponent ≥ 2047 then ofBits false 2047 0
      else ofBits false exponent (rounded % 4503599627370496)

/-- The double nearest to an integer. -/
def ofInt : Int → JSNumber
  | .ofNat n => ofNat n
  | .negSucc n => { ofNat (n + 1) with negative := true }

/-- The least `j`, from the given one on and within `fuel` tries, with `D ≤ V * 10 ^ j`. -/
def leadingZeros (V D : Nat) : Nat → Nat → Nat
  | 0, j => j
  | fuel + 1, j => if D ≤ V * 10 ^ j then j else leadingZeros V D fuel (j + 1)

/-- The decimal position `n` of the positive rational `V / D`:
`10 ^ (n - 1) ≤ V / D < 10 ^ n`. -/
def decimalPosition (V D : Nat) : Int :=
  if D ≤ V then ((Nat.toDigits 10 (V / D)).length : Int)
  else 1 - (leadingZeros V D 400 1 : Int)

/-- The decimal with `k` digits nearest to `V / D` among those that lie between `L / D`
and `H / D`, the bounds included when `closed`: its digits `s`, or `none` when there is no
such decimal. A decimal with `k` digits at position `n` is `s * 10 ^ (n - k)`. -/
def nearestDecimal (V L H D : Nat) (closed : Bool) (n : Int) (k : Nat) : Option Nat :=
  let A := 10 ^ (k - n).toNat
  let B := 10 ^ (n - k).toNat
  let s0 := (V * A) / (B * D)
  let s1 := s0 + 1
  let ok0 := if closed then L * A ≤ s0 * B * D else L * A < s0 * B * D
  let ok1 := if closed then s1 * B * D ≤ H * A else s1 * B * D < H * A
  let d0 := V * A - s0 * B * D
  let d1 := s1 * B * D - V * A
  if ok0 ∧ (¬ ok1 ∨ d0 < d1 ∨ (d0 = d1 ∧ s0 % 2 = 0)) then some s0
  else if ok1 then some s1
  else none

/-- The shortest decimal that lies between `L / D` and `H / D`, and among the shortest the
one nearest to `V / D`: its digits and its position, the numbers of digits being tried
from `k` on. -/
def shortestDecimal (V L H D : Nat) (closed : Bool) (n : Int) : Nat → Nat → Nat × Int
  | 0, k => ((V * 10 ^ (k - n).toNat) / (10 ^ (n - k).toNat * D), n)
  | fuel + 1, k =>
    match nearestDecimal V L H D closed n k with
    | some s => if s = 10 ^ k then (10 ^ (k - 1), n + 1) else (s, n)
    | none => shortestDecimal V L H D closed n fuel (k + 1)

/-- The integers `s` and `n` of Number::toString for a finite number that is not zero: the
decimal `s * 10 ^ (n - k)`, `k` being the number of digits of `s`, is nearer to the number
than to any other double, and `k` is as small as possible. The magnitude of the number is
`V / D`, and the decimals that are nearer to it than to any other double lie between `L / D`
and `H / D`. -/
def decimal (x : JSNumber) : Nat × Int :=
  let M := x.significand
  let unit := 2 ^ (x.shift - 1076)
  let V := 4 * M * unit
  let H := V + 2 * unit
  let L := if x.fraction = 0 ∧ 1 < x.exponent then V - unit else V - 2 * unit
  let D := 2 ^ (1076 - x.shift)
  shortestDecimal V L H D (M % 2 = 0) (decimalPosition V D) 17 1

/-- The notation of Number::toString for the digits `ds` at the position `n`. -/
def notate (ds : List Char) (n : Int) : List Char :=
  let k : Int := ds.length
  if k ≤ n ∧ n ≤ 21 then ds ++ List.replicate (n - k).toNat '0'
  else if 0 < n ∧ n ≤ 21 then ds.take n.toNat ++ '.' :: ds.drop n.toNat
  else if -6 < n ∧ n ≤ 0 then '0' :: '.' :: List.replicate (-n).toNat '0' ++ ds
  else
    let e := n - 1
    let exponent := (if e < 0 then '-' else '+') :: Nat.toDigits 10 e.natAbs
    match ds with
    | [d] => d :: 'e' :: exponent
    | d :: rest => d :: '.' :: rest ++ 'e' :: exponent
    | [] => 'e' :: exponent

/-- Embedding of Number::toString, the conversion of a number to a string. -/
def toStr (x : JSNumber) : String :=
  if x.isNaN then "NaN"
  else if x.isZero then "0"
  else if x.isInfinite then (if x.negative then "-Infinity" else "Infinity")
  else
    String.mk ((if x.negative then ['-'] else []) ++
      notate (Nat.toDigits 10 x.decimal.1) x.decimal.2)

end JSNumber

/-! ## JavaScript values -/

/-- JSON-like JavaScript values. The property list of `obj` is in enumeration order. -/
inductive JSValue where
  | undefined
  | null
  | bool (b : Bool)
  | num (x : JSNumber)
  | str (s : String)
  | arr (xs : List JSValue)
  | obj (props : List (String × JSValue))

namespace JSValue

/-- The test `v === undefined`. -/
def isUndefined : JSValue → Bool
  | undefined => true
  | _ => false

/-- JavaScript truthiness (`!!v`): `undefined`, `null`, `false`, `0`, `-0`, `NaN` and `''`
are falsy. -/
def truthy : JSValue → Bool
  | undefined => false
  | null => false
  | bool b => b
  | num x => !(x.isZero || x.isNaN)
  | str s => s != ""
  | arr _ => true
  | obj _ => true

/-- The test `_.isString(v)`. -/
def isString : JSValue → Bool
  | str _ => true
  | _ => false

mutual
/-- String conversion `'' + v`, which is what template interpolation applies. -/
def toStr : JSValue → String
  | undefined => "undefined"
  | null => "null"
  | bool b => if b then "true" else "false"
  | num x => x.toStr
  | str s => s
  | arr xs => joinElems xs
  | obj _ => "[object Object]"
termination_by structural v => v
/-- The body of `Array.prototype.join(',')`: null and undefined elements are empty. -/
def joinElems : List JSValue → String
  | [] => ""
  | x :: xs =>
    (match x with
      | undefined => ""
      | null => ""
      | v => toStr v) ++ (match xs with
      | [] => ""
      | _ :: _ => ",") ++ joinElems xs
termination_by structural xs => xs
end

end JSValue

/-- The number value of a natural number, as a numeric literal gives it. -/
abbrev JSValue.nat (n : Nat) : JSValue :=
  .num (JSNumber.ofNat n)

/-! ## JSON.stringify -/

/-- Lower-case hexadecimal digit of a number below sixteen. -/
def hexDigit (n : Nat) : Char :=
  "0123456789abcdef".toList.getD n '0'

/-- The escape of one character inside a JSON string (`QuoteJSONString`). -/
def quoteChar (c : Char) : List Char :=
  if c = '"' then ['\\', '"']
  else if c = '\\' then ['\\', '\\']
  else if c.toNat = 8 then ['\\', 'b']
  else if c.toNat = 12 then ['\\', 'f']
  else if c.toNat = 10 then ['\\', 'n']
  else if c.toNat = 13 then ['\\', 'r']
  else if c.toNat = 9 then ['\\', 't']
  else if c.toNat < 32 then
    ['\\', 'u', '0', '0', hexDigit (c.toNat / 16), hexDigit (c.toNat % 16)]
  else [c]

/-- The JSON text of a string: quoted, with the mandatory escapes. -/
def quote (s : String) : String :=
  String.mk ('"' :: (s.toList.flatMap quoteChar ++ ['"']))

namespace JSValue

mutual
/-- The result of `JSON.stringify(v)`; `none` is JavaScript's `undefined`. A number that is
not finite is written `null`. -/
def stringify : JSValue → Option String
  | undefined => none
  | null => some "null"
  | bool b => some (if b then "true" else "false")
  | num x => some (if x.isNaN || x.isInfinite then "null" else x.toStr)
  | str s => some (quote s)
  | arr xs => some ("[" ++ ",".intercalate (stringifyElems xs) ++ "]")
  | obj ps => some ("\x7b" ++ ",".intercalate (stringifyProps ps) ++ "\x7d")
termination_by structural v => v
/-- Array elements: an element without a JSON text is written `null`. -/
def stringifyElems : List JSValue → List String
  | [] => []
  | x :: xs => (stringify x).getD "null" :: stringifyElems xs
termination_by structural xs => xs
/-- Object members in enumeration order: a member without a JSON text is left out. -/
def stringifyProps : List (String × JSValue) → List String
  | [] => []
  | (k, v) :: ps =>
    match stringify v with
    | some t => (quote k ++ ":" ++ t) :: stringifyProps ps
    | none => stringifyProps ps
termination_by structural ps => ps
end

end JSValue

/-! ## UTF-8 and MD5 (`crypto.createHash('md5').update(text).digest('hex')`) -/

/-- UTF-8 bytes of one character. -/
def utf8Char (c : Char) : List Nat :=
  let n := c.toNat
  if n < 0x80 then [n]
  else if n < 0x800 then [0xC0 + n / 64, 0x80 + n % 64]
  else if n < 0x10000 then [0xE0 + n / 4096, 0x80 + n / 64 % 64, 0x80 + n % 64]
  else [0xF0 + n / 262144, 0x80 + n / 4096 % 64, 0x80 + n / 64 % 64, 0x80 + n % 64]

/-- UTF-8 bytes of a string, the encoding `hash.update` applies to a string. -/
def utf8 (s : String) : List Nat :=
  s.toList.flatMap utf8Char

namespace MD5

/-- Addition of 32-bit words. -/
def add32 (a b : Nat) : Nat := (a + b) % 2 ^ 32

/-- Bitwise complement of a 32-bit word. -/
def not32 (a : Nat) : Nat := 0xFFFFFFFF - a % 2 ^ 32

/-- Left rotation of a 32-bit word. -/
def rotl32 (x c : Nat) : Nat :=
  ((x <<< c) % 2 ^ 32) ||| ((x % 2 ^ 32) >>> (32 - c))

/-- Per-round shift amounts. -/
def shifts : List Nat :=
  [7, 12, 17, 22, 7, 12, 17, 22, 7, 12, 17, 22, 7, 12, 17, 22,
   5,  9, 14, 20, 5,  9, 14, 20, 5,  9, 14, 20, 5,  9, 14, 20,
   4, 11, 16, 23, 4, 11, 16, 23, 4, 11, 16, 23, 4, 11, 16, 23,
   6, 10, 15, 21, 6, 10, 15, 21, 6, 10, 15, 21, 6, 10, 15, 21]

/-- The constants `floor (2^32 * |sin (i + 1)|)`. -/
def sines : List Nat :=
  [0xd76aa478, 0xe8c7b756, 0x242070db, 0xc1bdceee, 0xf57c0faf, 0x4787c62a, 0xa8304613, 0xfd469501,
   0x698098d8, 0x8b44f7af, 0xffff5bb1, 0x895cd7be, 0x6b901122, 0xfd987193, 0xa679438e, 0x49b40821,
   0xf61e2562, 0xc040b340, 0x265e5a51, 0xe9b6c7aa, 0xd62f105d, 0x02441453, 0xd8a1e681, 0xe7d3fbc8,
   0x21e1cde6, 0xc33707d6, 0xf4d50d87, 0x455a14ed, 0xa9e3e905, 0xfcefa3f8, 0x676f02d9, 0x8d2a4c8a,
   0xfffa3942, 0x8771f681, 0x6d9d6122, 0xfde5380c, 0xa4beea44, 0x4bdecfa9, 0xf6bb4b60, 0xbebfbc70,
   0x289b7ec6, 0xeaa127fa, 0xd4ef3085, 0x04881d05, 0xd9d4d039, 0xe6db99e5, 0x1fa27cf8, 0xc4ac5665,
   0xf4292244, 0x432aff97, 0xab9423a7, 0xfc93a039, 0x655b59c3, 0x8f0ccc92, 0xffeff47d, 0x85845dd1,
   0x6fa87e4f, 0xfe2ce6e0, 0xa3014314, 0x4e0811a1, 0xf7537e82, 0xbd3af235, 0x2ad7d2bb, 0xeb86d391]

/-- The four chaining words. -/
structure State where
  a : Nat
  b : Nat
  c : Nat
  d : Nat

/-- Initial chaining value. -/
def init : State := ⟨0x67452301, 0xefcdab89, 0x98badcfe, 0x10325476⟩

/-- Little-endian 32-bit word of (up to) four bytes. -/
def le32 (bs : List Nat) : Nat :=
  bs.getD 0 0 + 256 * bs.getD 1 0 + 65536 * bs.getD 2 0 + 16777216 * bs.getD 3 0

/-- The first `n` little-endian words of a byte list. -/
def words : Nat → List Nat → List Nat
  | 0, _ => []
  | n + 1, bs => le32 (bs.take 4) :: words n (bs.drop 4)

/-- Round function and message index of operation `i`. -/
def mix (i b c d : Nat) : Nat × Nat :=
  if i < 16 then ((b &&& c) ||| (not32 b &&& d), i)
  else if i < 32 then ((d &&& b) ||| (not32 d &&& c), (5 * i + 1) % 16)
  else if i < 48 then (b ^^^ c ^^^ d, (3 * i + 5) % 16)
  else (c ^^^ (b ||| not32 d), (7 * i) % 16)

/-- One of the sixty-four operations on a block with message words `m`. -/
def round (m : List Nat) (s : State) (i : Nat) : State :=
  let fg := mix i s.b s.c s.d
  let f := add32 (add32 (add32 fg.1 s.a) (sines.getD i 0)) (m.getD fg.2 0)
  ⟨s.d, add32 s.b (rotl32 f (shifts.getD i 0)), s.b, s.c⟩

/-- Compression of one 64-byte block. -/
def chunk (s : State) (bs : List Nat) : State :=
  let t := (List.range 64).foldl (round (words 16 bs)) s
  ⟨add32 s.a t.a, add32 s.b t.b, add32 s.c t.c, add32 s.d t.d⟩

/-- Compression of the first `n` blocks of a byte list. -/
def chunks : Nat → State → List Nat → State
  | 0, s, _ => s
  | n + 1, s, bs => chunks n (chunk s (bs.take 64)) (bs.drop 64)

/-- The bit length as eight little-endian bytes. -/
def le64Bytes (n : Nat) : List Nat :=
  (List.range 8).map fun i => (n >>> (8 * i)) % 256

/-- Message padding: a one bit, zeros up to 56 modulo 64, then the bit length. -/
def pad (bs : List Nat) : List Nat :=
  bs ++ 0x80 :: List.replicate ((119 - bs.length % 64) % 64) 0
    ++ le64Bytes ((8 * bs.length) % 2 ^ 64)

/-- The four little-endian bytes of a 32-bit word. -/
def le32Bytes (x : Nat) : List Nat :=
  [x % 256, (x / 256) % 256, (x / 65536) % 256, (x / 16777216) % 256]

/-- The sixteen digest bytes of a byte list. -/
def digest (bs : List Nat) : List Nat :=
  let p := pad bs
  let s := chunks (p.length / 64) init p
  le32Bytes s.a ++ le32Bytes s.b ++ le32Bytes s.c ++ le32Bytes s.d

/-- The two hexadecimal digits of a byte. -/
def hexByte (b : Nat) : List Char :=
  [hexDigit (b / 16 % 16), hexDigit (b % 16)]

/-- Lower-case hexadecimal text of a byte list (`digest('hex')`). -/
def hex (bs : List Nat) : String :=
  String.mk (bs.flatMap hexByte)

end MD5

/-- A thrown or passed JavaScript error: its message and its `http_status`, if set. -/
structure JSError where
  message : String
  http_status : Option Nat
deriving DecidableEq, Repr

deriving instance DecidableEq for Except

/-- Embedding of `crypto.createHash('md5').update(data).digest('hex')`: `update` throws
a `TypeError` when its argument is `undefined`. -/
def md5Hex (data : Option String) : Except JSError String :=
  match data with
  | none => .error ⟨"Not a string or buffer", none⟩
  | some text => .ok (MD5.hex (MD5.digest (utf8 text)))

/-- The method `substring(0, n)` on a string of one-unit characters. -/
def substring0 (s : String) (n : Nat) : String :=
  String.mk (s.toList.take n)

/-- Embedding of `configHash` (named-map-provider.js, lines 236-241). -/
def configHash (config : JSValue) : Except JSError String :=
  if !config.truthy then
    .ok ""
  else
    (md5Hex config.stringify).map fun h => substring0 h 8

/-! ## Objects as records, `_.defaults`, `_.extend` -/

/-- First value stored under `key`; `undefined` when there is none. -/
def getEntry : List (String × JSValue) → String → JSValue
  | [], _ => .undefined
  | (k, v) :: es, key => if k = key then v else getEntry es key

/-- Assignment `o[key] = val`: replaces the value in place or appends a new property. -/
def setEntry : List (String × JSValue) → String → JSValue → List (String × JSValue)
  | [], key, val => [(key, val)]
  | (k, v) :: es, key, val =>
    if k = key then (k, val) :: es else (k, v) :: setEntry es key val

/-- A JavaScript object used as a record: own properties in enumeration order, each key once. -/
structure JSObj where
  entries : List (String × JSValue)
  nodup : (entries.map Prod.fst).Nodup

namespace JSObj

/-- The object literal without properties. -/
def empty : JSObj := ⟨[], List.nodup_nil⟩

/-- Property read `o[key]`. -/
def get (o : JSObj) (key : String) : JSValue := getEntry o.entries key

/-- Property write `o[key] = val`. -/
def set (o : JSObj) (key : String) (val : JSValue) : JSObj :=
  ⟨setEntry o.entries key val, by
    have keys : ∀ es : List (String × JSValue), (setEntry es key val).map Prod.fst =
        if key ∈ es.map Prod.fst then es.map Prod.fst else es.map Prod.fst ++ [key] := by
      intro es
      induction es with
      | nil => simp [setEntry]
      | cons e es ih =>
        obtain ⟨k, v⟩ := e
        by_cases hk : k = key
        · simp [setEntry, hk]
        · have hk2 : ¬ key = k := fun h => hk h.symm
          by_cases hm : key ∈ es.map Prod.fst
          · simp only [setEntry, hk, if_false, List.map_cons, ih, hm, if_true, List.mem_cons,
              or_true]
          · simp only [setEntry, hk, if_false, List.map_cons, ih, hm, List.mem_cons, hk2,
              or_self, List.cons_append]
    rw [keys]
    split
    · exact o.nodup
    · next hm =>
      rw [List.nodup_append]
      refine ⟨o.nodup, List.nodup_singleton _, ?_⟩
      intro a ha hb
      simp only [List.mem_singleton] at hb
      subst hb
      exact hm ha⟩

/-- Whether the object has an own property named `key`. -/
def has (o : JSObj) (key : String) : Bool := decide (key ∈ o.entries.map Prod.fst)

/-- The value of the object as a `JSValue`. -/
def toValue (o : JSObj) : JSValue := .obj o.entries

end JSObj

/-- One source of `_.defaults`: a property is copied when the target's is `undefined`. -/
def defaultsFrom (obj : JSObj) (source : List (String × JSValue)) : JSObj :=
  source.foldl (fun o e => if (o.get e.1).isUndefined then o.set e.1 e.2 else o) obj

/-- Embedding of underscore's `_.defaults(obj, source1, source2, ...)`. -/
def _defaults (obj : JSObj) (sources : List JSObj) : JSObj :=
  sources.foldl (fun o src => defaultsFrom o src.entries) obj

/-- One source of `_.extend`: every property is copied. -/
def extendFrom (obj : JSObj) (source : List (String × JSValue)) : JSObj :=
  source.foldl (fun o e => o.set e.1 e.2) obj

/-- Embedding of underscore's `_.extend(obj, source1, source2, ...)`. -/
def _extend (obj : JSObj) (sources : List JSObj) : JSObj :=
  sources.foldl (fun o src => extendFrom o src.entries) obj

/-! ## doT templates -/

namespace dot

/-- A piece of a compiled template: a literal character or an interpolation `{{=expr}}`. -/
inductive Seg where
  | text (c : Char)
  | interp (expr : List Char)

/-- Splits the input at the first closing `}}`: the expression and what follows it. -/
def untilClose : List Char → List Char × List Char
  | [] => ([], [])
  | [c] => ([c], [])
  | c :: d :: rest =>
    if c = '\x7d' ∧ d = '\x7d' then ([], rest)
    else ((c :: (untilClose (d :: rest)).1), (untilClose (d :: rest)).2)

/-- Compiles template text, reading at most `fuel` pieces. -/
def compile : Nat → List Char → List Seg
  | 0, _ => []
  | _ + 1, [] => []
  | fuel + 1, c :: rest =>
    match c, rest with
    | '\x7b', '\x7b' :: '=' :: body =>
      Seg.interp (untilClose body).1 :: compile fuel (untilClose body).2
    | _, _ => Seg.text c :: compile fuel rest

/-- Value of an interpolated expression; the templates of this program only read `it.name`. -/
def evalExpr (it : JSObj) : List Char → JSValue
  | 'i' :: 't' :: '.' :: name => it.get (String.mk name)
  | _ => .undefined

/-- Output of a compiled template on the values `it`. -/
def render (it : JSObj) : List Seg → String
  | [] => ""
  | Seg.text c :: segs => String.singleton c ++ render it segs
  | Seg.interp e :: segs => (evalExpr it e).toStr ++ render it segs

/-- Embedding of `dot.template(text)`: the function from values to the rendered string. -/
def template (text : String) (it : JSObj) : String :=
  render it (compile text.length text.toList)

end dot

/-! ## Data model of the provider -/

/-- A field that JavaScript may hold as `null`, as `undefined` or as a value. -/
inductive Slot (α : Type) where
  | null
  | undefined
  | value (a : α)

/-- The test `slot !== null`. -/
def Slot.notNull {α : Type} : Slot α → Bool
  | .null => false
  | _ => true

/-- The `auth` member of a template. -/
structure TemplateAuth where
  method : String
  valid_tokens : List String

/-- A stored named-map template. -/
structure Template where
  name : String
  version : String
  auth : TemplateAuth
  placeholders : JSValue
  layergroup : JSValue

/-- The `options` of a layer that this subsystem reads. -/
structure LayerOptions where
  sql : Option String
  affected_tables : Option (List String)

/-- A layer of a map configuration document. -/
structure Layer where
  options : LayerOptions

/-- A map configuration document, as instantiated from a template or enriched by the adapter. -/
structure MapConfigDocument where
  version : String
  layers : List Layer

/-- The object made by `new MapConfig(cfg, datasource)`. -/
structure MapConfig where
  cfg : MapConfigDocument
  datasource : JSValue

/-- The `db` member of the analysis configuration. -/
structure AnalysisDb where
  host : JSValue
  port : JSValue
  dbname : JSValue
  user : JSValue
  pass : JSValue

/-- The `batch` member of the analysis configuration. -/
structure AnalysisBatch where
  username : String
  apiKey : JSValue

/-- The value of `context.analysisConfiguration`. -/
structure AnalysisConfiguration where
  user : String
  db : AnalysisDb
  batch : AnalysisBatch

/-- The resolution context; `none` and `undefined` stand for a property that was never set. -/
structure Context where
  templateParams : JSValue
  analysisConfiguration : Option AnalysisConfiguration
  analysesResults : JSValue
  datasource : JSValue
  limits : JSValue

/-- The object literal `{}` as a context. -/
def Context.empty : Context :=
  ⟨.undefined, none, .undefined, .undefined, .undefined⟩

/-- The fields of a `NamedMapMapConfigProvider`; the collaborators are kept apart in `Env`. -/
structure Provider where
  owner : String
  templateName : String
  config : JSValue
  authToken : Option String
  params : JSObj
  cacheBuster : Nat
  template : Slot Template
  affectedTables : JSValue
  err : Option JSError
  mapConfig : Option MapConfig
  rendererParams : Slot JSObj
  context : Context
  analysesResults : JSValue

/-- State of a provider as the constructor leaves it, `now` being `Date.now()`. -/
def Provider.create (owner templateName : String) (config : JSValue) (authToken : Option String)
    (params : JSObj) (now : Nat) : Provider :=
  { owner := owner
    templateName := templateName
    config := config
    authToken := authToken
    params := params
    cacheBuster := now
    template := .null
    affectedTables := .undefined
    err := none
    mapConfig := none
    rendererParams := .null
    context := Context.empty
    analysesResults := .arr [] }

/-! ## Cache keys -/

/-- The template text `baseKey` (line 217). -/
def baseKey : String :=
  "\x7b\x7b=it.dbname\x7d\x7d:\x7b\x7b=it.owner\x7d\x7d:\x7b\x7b=it.templateName\x7d\x7d"

/-- The template text `rendererKey` (line 218). -/
def rendererKey : String :=
  baseKey ++ ":\x7b\x7b=it.authToken\x7d\x7d:\x7b\x7b=it.configHash\x7d\x7d:\x7b\x7b=it.format\x7d\x7d:\x7b\x7b=it.layer\x7d\x7d:\x7b\x7b=it.scale_factor\x7d\x7d"

/-- The compiled template `baseKeyTpl`. -/
def baseKeyTpl : JSObj → String := dot.template baseKey

/-- The compiled template `rendererKeyTpl`. -/
def rendererKeyTpl : JSObj → String := dot.template rendererKey

/-- The expression `this.authToken || ''`. -/
def authTokenOrEmpty (authToken : Option String) : String :=
  match authToken with
  | some t => if t ≠ "" then t else ""
  | none => ""

/-- The object literal of default template values in `createKey` (lines 225-231). -/
def keyDefaults (self : Provider) (hash : String) : JSObj :=
  ((((((JSObj.empty.set "dbname" (.str "")).set
    "owner" (.str self.owner)).set
    "templateName" (.str self.templateName)).set
    "authToken" (.str (authTokenOrEmpty self.authToken))).set
    "configHash" (.str hash)).set
    "layer" (.str "")).set
    "scale_factor" (.num (JSNumber.ofNat 1))

/-- Embedding of `NamedMapMapConfigProvider.prototype.createKey` (lines 223-234). -/
def createKey (self : Provider) (base : Bool) : Except JSError String :=
  match configHash self.config with
  | .error e => .error e
  | .ok hash =>
    let tplValues := _defaults JSObj.empty [self.params, keyDefaults self hash]
    .ok (if base then baseKeyTpl tplValues else rendererKeyTpl tplValues)

/-- Embedding of `NamedMapMapConfigProvider.prototype.getKey` (lines 192-194). -/
def getKey (self : Provider) : Except JSError String :=
  createKey self false

/-- Embedding of `NamedMapMapConfigProvider.prototype.getCacheBuster` (lines 196-198). -/
def getCacheBuster (self : Provider) : Nat :=
  self.cacheBuster

/-- Embedding of `NamedMapMapConfigProvider.prototype.reset` (lines 200-209); `now` is
the value of `Date.now()`. -/
def reset (self : Provider) (now : Nat) : Provider :=
  { self with
    template := .null
    affectedTables := .null
    err := none
    mapConfig := none
    cacheBuster := now }

/-! ## Collaborators and call history -/

/-- A call made to a collaborator, with its arguments. -/
inductive Call where
  | getTemplate (owner templateName : String)
  | isAuthorized (tpl : Template) (authToken : Option String)
  | getDatabaseParams (owner : String)
  | getUserMapKey (owner : String)
  | templateInstance (tpl : Slot Template) (templateParams : JSValue)
  | adapterGetMapConfig (owner : String) (requestMapConfig : MapConfigDocument)
      (rendererParams : JSObj) (context : Context)
  | getRenderLimits (owner : String) (apiKey : JSValue)
  | hasAffectedTables (dbname : Slot JSObj) (token : String)
  | cacheGet (dbname : Slot JSObj) (token : String)
  | cacheSet (dbname : Slot JSObj) (token : String) (affectedTables : JSValue)
  | getConnection (owner : String)
  | getAffectedTablesFromQuery (connection : JSValue) (sql : JSValue)

/-- The calls made so far, oldest first. A collaborator answers from the history it is
called in, so its answers may change from one call to the next. -/
abbrev History := List Call

/-- The collaborator `templateMaps`; `templateInstance` is its method `instance`. -/
structure TemplateMaps where
  getTemplate : History → String → String → Except JSError (Option Template)
  isAuthorized : History → Template → Option String → Except JSError JSValue
  templateInstance : History → Slot Template → JSValue → Except JSError MapConfigDocument

/-- The values that `getDatabaseParams` calls back with. -/
structure DatabaseParams where
  dbuser : JSValue
  dbpass : JSValue
  dbhost : JSValue
  dbport : JSValue
  dbname : JSValue

/-- The collaborator `pgConnection`. -/
structure PgConnection where
  getDatabaseParams : History → String → Except JSError DatabaseParams
  getConnection : History → String → Except JSError JSValue

/-- The collaborator `affectedTablesCache`; its `set` has no answer and is only recorded in
the history (`Call.cacheSet`). -/
structure AffectedTablesCache where
  hasAffectedTables : History → Slot JSObj → String → Bool
  get : History → Slot JSObj → String → JSValue

/-- The module `cartodb-query-tables`. -/
structure QueryTables where
  getAffectedTablesFromQuery : History → JSValue → JSValue → Except JSError JSValue

/-- The collaborator `metadataBackend`. -/
structure MetadataBackend where
  getUserMapKey : History → String → Except JSError JSValue

/-- The collaborator `userLimitsApi`. -/
structure UserLimitsApi where
  getRenderLimits : History → String → JSValue → Except JSError JSValue

/-- The collaborator `mapConfigAdapter`: it calls back with an error or a document, and it
may have written to the context that it was handed. -/
structure MapConfigAdapter where
  getMapConfig : History → String → MapConfigDocument → JSObj → Context →
    Except JSError MapConfigDocument × Context

/-- The collaborators a provider is constructed with, the module `QueryTables`, the built-in
`JSON.parse` (`none` when it throws) and the method `id()` of windshaft's `MapConfig`. -/
structure Env where
  templateMaps : TemplateMaps
  pgConnection : PgConnection
  metadataBackend : MetadataBackend
  userLimitsApi : UserLimitsApi
  mapConfigAdapter : MapConfigAdapter
  affectedTablesCache : AffectedTablesCache
  queryTables : QueryTables
  JSON_parse : String → Option JSValue
  mapConfigId : MapConfig → String

/-! ## getTemplate -/

/-- The arguments `(err, template)` that `getTemplate` hands to its callback. -/
structure TemplateResult where
  err : Option JSError
  template : Slot Template

/-- The error thrown by `checkExists` (lines 156-160). -/
def notFoundErr (self : Provider) : JSError :=
  { message := "Template '" ++ self.templateName ++ "' of user '" ++ self.owner ++ "' not found"
    http_status := some 404 }

/-- The error thrown when `isAuthorized` throws (lines 172-174). -/
def authorizationFailedErr : JSError :=
  { message := "Failed to authorize template", http_status := some 403 }

/-- The error thrown when `isAuthorized` answers a falsy value (lines 177-179). -/
def unauthorizedErr : JSError :=
  { message := "Unauthorized template instantiation", http_status := some 403 }

/-- Step `checkExists(err, tpl)` of `getTemplate` (lines 153-163). -/
def checkExists (self : Provider) (args : Except JSError (Option Template)) :
    Except JSError Template :=
  match args with
  | .error err => .error err
  | .ok none => .error (notFoundErr self)
  | .ok (some tpl) => .ok tpl

/-- Step `checkAuthorized(err, tpl)` of `getTemplate` (lines 164-183). -/
def checkAuthorized (env : Env) (self : Provider) (hist : History)
    (args : Except JSError Template) : Except JSError Template × History :=
  match args with
  | .error err => (.error err, hist)
  | .ok tpl =>
    match env.templateMaps.isAuthorized hist tpl self.authToken with
    | .error _ => (.error authorizationFailedErr, hist ++ [Call.isAuthorized tpl self.authToken])
    | .ok authorized =>
      if !authorized.truthy then
        (.error unauthorizedErr, hist ++ [Call.isAuthorized tpl self.authToken])
      else
        (.ok tpl, hist ++ [Call.isAuthorized tpl self.authToken])

/-- Step `cacheAndReturnTemplate(err, template)` of `getTemplate` (lines 184-188): a failed
chain leaves `err` set and `template` undefined. -/
def cacheAndReturnTemplate (self : Provider) (args : Except JSError Template) :
    TemplateResult × Provider :=
  match args with
  | .error err =>
    (⟨some err, .undefined⟩, { self with err := some err, template := .undefined })
  | .ok template =>
    (⟨none, .value template⟩, { self with err := none, template := .value template })

/-- Embedding of `NamedMapMapConfigProvider.prototype.getTemplate` (lines 142-190): the
callback arguments, the provider afterwards and the history afterwards. -/
def getTemplate (env : Env) (self : Provider) (hist : History) :
    TemplateResult × Provider × History :=
  if self.err.isSome || self.template.notNull then
    (⟨self.err, self.template⟩, self, hist)
  else
    let fetched := env.templateMaps.getTemplate hist self.owner self.templateName
    let hist1 := hist ++ [Call.getTemplate self.owner self.templateName]
    let checked := checkAuthorized env self hist1 (checkExists self fetched)
    let cached := cacheAndReturnTemplate self checked.1
    (cached.1, cached.2, checked.2)

/-! ## getMapConfig -/

/-- Embedding of `NamedMapMapConfigProvider.prototype.setDBParams` (lines 245-259): the
callback's error, if any, and the `params` object afterwards. -/
def setDBParams (env : Env) (hist : History) (cdbuser : String) (params : JSObj) :
    Except JSError Unit × JSObj × History :=
  match env.pgConnection.getDatabaseParams hist cdbuser with
  | .error err => (.error err, params, hist ++ [Call.getDatabaseParams cdbuser])
  | .ok databaseParams =>
    (.ok (),
      ((((params.set "dbuser" databaseParams.dbuser).set
        "dbpass" databaseParams.dbpass).set
        "dbhost" databaseParams.dbhost).set
        "dbport" databaseParams.dbport).set
        "dbname" databaseParams.dbname,
      hist ++ [Call.getDatabaseParams cdbuser])

/-- The provider, the history and the local variables of one run of `getMapConfig`. -/
structure Run where
  self : Provider
  hist : History
  mapConfig : Option MapConfigDocument
  rendererParams : Slot JSObj
  apiKey : JSValue
  context : Context

/-- The arguments `(err, mapConfig, rendererParams, context)` of the callback of `getMapConfig`. -/
structure MapConfigResult where
  err : Option JSError
  mapConfig : Option MapConfig
  rendererParams : Slot JSObj
  context : Context

/-- Step `getTemplate()` of `getMapConfig` (lines 70-72). -/
def stepGetTemplate (env : Env) (run : Run) : Except JSError (Slot Template) × Run :=
  let res := getTemplate env run.self run.hist
  (match res.1.err with
    | some err => .error err
    | none => .ok res.1.template,
   { run with self := res.2.1, hist := res.2.2 })

/-- Step `prepareDbParams(err, tpl)` (lines 73-81). -/
def prepareDbParams (env : Env) (args : Except JSError (Slot Template)) (run : Run) :
    Except JSError Unit × Run :=
  match args with
  | .error err => (.error err, run)
  | .ok tpl =>
    let rendererParams :=
      _extend JSObj.empty [run.self.params, JSObj.empty.set "user" (.str run.self.owner)]
    let res := setDBParams env run.hist run.self.owner rendererParams
    (res.1,
      { run with
        self := { run.self with template := tpl }
        rendererParams := .value res.2.1
        hist := res.2.2 })

/-- Step `getUserApiKey(err)` (lines 82-85). -/
def getUserApiKey (env : Env) (args : Except JSError Unit) (run : Run) :
    Except JSError JSValue × Run :=
  match args with
  | .error err => (.error err, run)
  | .ok _ =>
    (env.metadataBackend.getUserMapKey run.hist run.self.owner,
      { run with hist := run.hist ++ [Call.getUserMapKey run.self.owner] })

/-- The error thrown for a config string that is not JSON (line 96). -/
def malformedConfigErr : JSError :=
  { message := "malformed config parameter, should be a valid JSON", http_status := none }

/-- The value of `templateParams` that `prepareParams` computes (lines 91-98), or the error
it throws. -/
def templateParamsOf (env : Env) (config : JSValue) : Except JSError JSValue :=
  if config.truthy then
    match config with
    | .str text =>
      match env.JSON_parse text with
      | some templateParams => .ok templateParams
      | none => .error malformedConfigErr
    | structured => .ok structured
  else
    .ok (.obj [])

/-- Step `prepareParams(err, _apiKey)` (lines 86-101). -/
def prepareParams (env : Env) (args : Except JSError JSValue) (run : Run) :
    Except JSError JSValue × Run :=
  match args with
  | .error err => (.error err, run)
  | .ok _apiKey => (templateParamsOf env run.self.config, { run with apiKey := _apiKey })

/-- Step `instantiateTemplate(err, templateParams)` (lines 102-106). -/
def instantiateTemplate (env : Env) (args : Except JSError JSValue) (run : Run) :
    Except JSError MapConfigDocument × Run :=
  match args with
  | .error err => (.error err, run)
  | .ok templateParams =>
    (env.templateMaps.templateInstance run.hist run.self.template templateParams,
      { run with
        context := { run.context with templateParams := templateParams }
        hist := run.hist ++ [Call.templateInstance run.self.template templateParams] })

/-- The error of reading a property of a `rendererParams` that is not an object. -/
def notAnObjectErr : JSError :=
  { message := "Cannot read property 'dbhost' of undefined", http_status := none }

/-- Step `prepareAdapterMapConfig(err, requestMapConfig)` (lines 107-124). -/
def prepareAdapterMapConfig (env : Env) (args : Except JSError MapConfigDocument) (run : Run) :
    Except JSError MapConfigDocument × Run :=
  match args with
  | .error err => (.error err, run)
  | .ok requestMapConfig =>
    match run.rendererParams with
    | .value rendererParams =>
      let context := { run.context with
        analysisConfiguration := some
          { user := run.self.owner
            db :=
              { host := rendererParams.get "dbhost"
                port := rendererParams.get "dbport"
                dbname := rendererParams.get "dbname"
                user := rendererParams.get "dbuser"
                pass := rendererParams.get "dbpassword" }
            batch := { username := run.self.owner, apiKey := run.apiKey } } }
      let res := env.mapConfigAdapter.getMapConfig run.hist run.self.owner requestMapConfig
        rendererParams context
      (res.1,
        { run with
          context := res.2
          hist := run.hist ++
            [Call.adapterGetMapConfig run.self.owner requestMapConfig rendererParams context] })
    | _ => (.error notAnObjectErr, run)

/-- Step `prepareContextLimits(err, _mapConfig)` (lines 125-129). -/
def prepareContextLimits (env : Env) (args : Except JSError MapConfigDocument) (run : Run) :
    Except JSError JSValue × Run :=
  match args with
  | .error err => (.error err, run)
  | .ok _mapConfig =>
    (env.userLimitsApi.getRenderLimits run.hist run.self.owner (run.self.params.get "api_key"),
      { run with
        mapConfig := some _mapConfig
        hist := run.hist ++
          [Call.getRenderLimits run.self.owner (run.self.params.get "api_key")] })

/-- The expression `a || b`. -/
def jsOr (a b : JSValue) : JSValue :=
  if a.truthy then a else b

/-- Step `cacheAndReturnMapConfig(err, renderLimits)` (lines 130-138). -/
def cacheAndReturnMapConfig (args : Except JSError JSValue) (run : Run) :
    MapConfigResult × Provider × History :=
  let err : Option JSError :=
    match args with
    | .error e => some e
    | .ok _ => none
  let renderLimits : JSValue :=
    match args with
    | .error _ => .undefined
    | .ok limits => limits
  let context := { run.context with limits := jsOr renderLimits (.obj []) }
  let self := { run.self with
    err := err
    mapConfig := run.mapConfig.map fun cfg => MapConfig.mk cfg run.context.datasource
    analysesResults := jsOr run.context.analysesResults (.arr [])
    rendererParams := run.rendererParams
    context := context }
  (⟨self.err, self.mapConfig, self.rendererParams, self.context⟩, self, run.hist)

/-- Embedding of `NamedMapMapConfigProvider.prototype.getMapConfig` (lines 56-140): the
callback arguments, the provider afterwards and the history afterwards. -/
def getMapConfig (env : Env) (self : Provider) (hist : History) :
    MapConfigResult × Provider × History :=
  if self.err.isSome || self.mapConfig.isSome then
    (⟨self.err, self.mapConfig, self.rendererParams, self.context⟩, self, hist)
  else
    let run0 : Run :=
      { self := self, hist := hist, mapConfig := none, rendererParams := .undefined,
        apiKey := .undefined, context := Context.empty }
    let s1 := stepGetTemplate env run0
    let s2 := prepareDbParams env s1.1 s1.2
    let s3 := getUserApiKey env s2.1 s2.2
    let s4 := prepareParams env s3.1 s3.2
    let s5 := instantiateTemplate env s4.1 s4.2
    let s6 := prepareAdapterMapConfig env s5.1 s5.2
    let s7 := prepareContextLimits env s6.1 s6.2
    cacheAndReturnMapConfig s7.1 s7.2

/-! ## getAffectedTables -/

/-- The arguments `(err, affectedTables)` of the callback of `getAffectedTables`; a missing
second argument is `undefined`. -/
structure AffectedTablesResult where
  err : Option JSError
  affectedTables : JSValue

/-- The statement that stands for a declared affected table (line 292). -/
def limit0 (table : String) : String :=
  "SELECT * FROM " ++ table ++ " LIMIT 0"

/-- What one layer pushes on `queries` (lines 289-294): its `options.sql`, defined or not,
then one statement per declared affected table. -/
def layerQueries (layer : Layer) : List (Option String) :=
  layer.options.sql ::
    (match layer.options.affected_tables with
      | some tables => tables.map fun table => some (limit0 table)
      | none => [])

/-- The array `queries` after the loop over the layers (lines 286-295). -/
def collectQueries (layers : List Layer) : List (Option String) :=
  layers.flatMap layerQueries

/-- The method `join(';')` on an array of strings and undefined entries. -/
def joinQueries : List (Option String) → String
  | [] => ""
  | [q] => q.getD ""
  | q :: r :: rest => q.getD "" ++ ";" ++ joinQueries (r :: rest)

/-- The constant `sql` (line 297); `none` is `null`. -/
def combinedSql (layers : List Layer) : Option String :=
  if (collectQueries layers).length ≠ 0 then some (joinQueries (collectQueries layers)) else none

/-- The error of calling `id()` on a `mapConfig` that is null. -/
def nullMapConfigErr : JSError :=
  { message := "Cannot read property 'id' of null", http_status := none }

/-- The callback handed to `getAffectedTables`, as far as the method observes it: the value
the callback returns for the arguments it is called with. A callback that throws is outside
the embedding. -/
abbrev AffectedTablesCallback := AffectedTablesResult → JSValue

/-- The inner chain of step `getAffectedTables(err, sql)` (lines 307-316): the connection
is acquired and handed to the introspection query together with `sql`, which is whatever
value step `getSql` handed on. -/
def queryAffectedTables (env : Env) (self : Provider) (hist : History) (sql : JSValue) :
    Except JSError JSValue × History :=
  match env.pgConnection.getConnection hist self.owner with
  | .error err => (.error err, hist ++ [Call.getConnection self.owner])
  | .ok connection =>
    (env.queryTables.getAffectedTablesFromQuery (hist ++ [Call.getConnection self.owner])
        connection sql,
      hist ++ [Call.getConnection self.owner] ++
        [Call.getAffectedTablesFromQuery connection sql])

/-- Step `finish(err, affectedTables)` (lines 318-326): the arguments it calls the callback
with. It is the last function of the chain, so what the callback returns is handed to
nothing. -/
def finishAffectedTables (self : Provider) (hist : History) (dbname : Slot JSObj)
    (token : String) (args : Except JSError JSValue) :
    AffectedTablesResult × Provider × History :=
  match args with
  | .error err => (⟨some err, .undefined⟩, self, hist)
  | .ok affectedTables =>
    (⟨none, affectedTables⟩, self, hist ++ [Call.cacheSet dbname token affectedTables])

/-- The steps `getAffectedTables(err, sql)` and `finish` (lines 305-326) for the value `sql`
that step `getSql` returned. -/
def queryAndFinish (env : Env) (self : Provider) (hist : History) (dbname : Slot JSObj)
    (token : String) (sql : JSValue) : AffectedTablesResult × Provider × History :=
  finishAffectedTables self (queryAffectedTables env self hist sql).2 dbname token
    (queryAffectedTables env self hist sql).1

/-- A `return callback(...)` inside step `getSql` (lines 283 and 300): the callback is called
with `args`, and `step` looks at what the function returns. When the callback returns
`undefined` the chain ends there; any other value is handed to the next function as
`(undefined, value)`, so the chain goes on with that value as `sql`, and `finish` calls the
callback a second time. The result lists the arguments of the callback, call by call. -/
def returnCallback (env : Env) (self : Provider) (hist : History) (dbname : Slot JSObj)
    (token : String) (callback : AffectedTablesCallback) (args : AffectedTablesResult) :
    List AffectedTablesResult × Provider × History :=
  if (callback args).isUndefined then ([args], self, hist)
  else
    ([args, (queryAndFinish env self hist dbname token (callback args)).1],
      (queryAndFinish env self hist dbname token (callback args)).2.1,
      (queryAndFinish env self hist dbname token (callback args)).2.2)

/-- Embedding of `NamedMapMapConfigProvider.prototype.getAffectedTables` (lines 265-328):
the arguments of every call of the callback in order, the provider afterwards and the
history afterwards. -/
def getAffectedTables (env : Env) (self : Provider) (callback : AffectedTablesCallback)
    (hist : History) : List AffectedTablesResult × Provider × History :=
  let resolved := getMapConfig env self hist
  let self1 := resolved.2.1
  let hist1 := resolved.2.2
  match resolved.1.err with
  | some err => ([⟨some err, .undefined⟩], self1, hist1)
  | none =>
    match resolved.1.mapConfig with
    | none => ([⟨some nullMapConfigErr, .undefined⟩], self1, hist1)
    | some mapConfig =>
      let dbname := self1.rendererParams
      let token := env.mapConfigId mapConfig
      if env.affectedTablesCache.hasAffectedTables hist1 dbname token then
        returnCallback env self1
          (hist1 ++ [Call.hasAffectedTables dbname token] ++ [Call.cacheGet dbname token])
          dbname token callback
          ⟨none, env.affectedTablesCache.get (hist1 ++ [Call.hasAffectedTables dbname token])
            dbname token⟩
      else
        match combinedSql mapConfig.cfg.layers with
        | none =>
          returnCallback env self1 (hist1 ++ [Call.hasAffectedTables dbname token])
            dbname token callback ⟨none, .undefined⟩
        | some sql =>
          if sql = "" then
            returnCallback env self1 (hist1 ++ [Call.hasAffectedTables dbname token])
              dbname token callback ⟨none, .undefined⟩
          else
            ([(queryAndFinish env self1 (hist1 ++ [Call.hasAffectedTables dbname token])
                dbname token (.str sql)).1],
              (queryAndFinish env self1 (hist1 ++ [Call.hasAffectedTables dbname token])
                dbname token (.str sql)).2.1,
              (queryAndFinish env self1 (hist1 ++ [Call.hasAffectedTables dbname token])
                dbname token (.str sql)).2.2)

/-! ## Authorization policy -/

/-- Modelled from the spec: `templateMaps.isAuthorized(template, authToken)`, which lives in
`lib/cartodb/backends/template_maps`, a file that is not among the sources. Spec 4.3: policy
`open` is always authorized; policy `token` is authorized iff `authToken` is present in
`template.auth.valid_tokens`; any other policy is rejected. -/
def isAuthorized (template : Template) (authToken : Option String) : Bool :=
  if template.auth.method = "open" then true
  else if template.auth.method = "token" then
    match authToken with
    | some token => decide (token ∈ template.auth.valid_tokens)
    | none => false
  else false

/-- The collaborator `templateMaps` whose `isAuthorized` is the policy of the spec. -/
def withPolicy (tm : TemplateMaps) : TemplateMaps :=
  { tm with isAuthorized := fun _ template authToken => .ok (.bool (isAuthorized template authToken)) }

/-! ## Reading aids for the statements -/

/-- Text of the request parameter `key` inside a key: `dflt` when the parameter is absent
or undefined, its string conversion otherwise. -/
def paramText (params : JSObj) (key dflt : String) : String :=
  if (params.get key).isUndefined then dflt else (params.get key).toStr

/-- The characters of lower-case hexadecimal text. -/
def hexAlphabet : List Char := "0123456789abcdef".toList

/-- The local variables of `getMapConfig` when the chain starts (lines 61-67). -/
def startRun (self : Provider) (hist : History) : Run :=
  { self := self, hist := hist, mapConfig := none, rendererParams := .undefined,
    apiKey := .undefined, context := Context.empty }

/-- What step `getTemplate` hands on, and the run after it. -/
def afterGetTemplate (env : Env) (self : Provider) (hist : History) :
    Except JSError (Slot Template) × Run :=
  stepGetTemplate env (startRun self hist)

/-- What step `prepareDbParams` hands on, and the run after it. -/
def afterPrepareDbParams (env : Env) (self : Provider) (hist : History) :
    Except JSError Unit × Run :=
  prepareDbParams env (afterGetTemplate env self hist).1 (afterGetTemplate env self hist).2

/-- What step `getUserApiKey` hands on, and the run after it. -/
def afterGetUserApiKey (env : Env) (self : Provider) (hist : History) :
    Except JSError JSValue × Run :=
  getUserApiKey env (afterPrepareDbParams env self hist).1 (afterPrepareDbParams env self hist).2

/-- What step `prepareParams` hands on, and the run after it. -/
def afterPrepareParams (env : Env) (self : Provider) (hist : History) :
    Except JSError JSValue × Run :=
  prepareParams env (afterGetUserApiKey env self hist).1 (afterGetUserApiKey env self hist).2

/-- What step `instantiateTemplate` hands on, and the run after it. -/
def afterInstantiateTemplate (env : Env) (self : Provider) (hist : History) :
    Except JSError MapConfigDocument × Run :=
  instantiateTemplate env (afterPrepareParams env self hist).1 (afterPrepareParams env self hist).2

/-- What step `prepareAdapterMapConfig` hands on, and the run after it. -/
def afterPrepareAdapterMapConfig (env : Env) (self : Provider) (hist : History) :
    Except JSError MapConfigDocument × Run :=
  prepareAdapterMapConfig env (afterInstantiateTemplate env self hist).1
    (afterInstantiateTemplate env self hist).2

/-- What step `prepareContextLimits` hands on, and the run after it. -/
def afterPrepareContextLimits (env : Env) (self : Provider) (hist : History) :
    Except JSError JSValue × Run :=
  prepareContextLimits env (afterPrepareAdapterMapConfig env self hist).1
    (afterPrepareAdapterMapConfig env self hist).2

/-- The object `rendererParams` of a resolution in which `getDatabaseParams` answered
`db` (lines 77-79 and 251-255). -/
def resolvedParams (self : Provider) (db : DatabaseParams) : JSObj :=
  ((((( _extend JSObj.empty [self.params, JSObj.empty.set "user" (.str self.owner)]).set
    "dbuser" db.dbuser).set
    "dbpass" db.dbpass).set
    "dbhost" db.dbhost).set
    "dbport" db.dbport).set
    "dbname" db.dbname

/-- The context that `prepareAdapterMapConfig` hands to the adapter (lines 104-122). -/
def adapterContext (self : Provider) (rendererParams : JSObj) (apiKey templateParams : JSValue) :
    Context :=
  { Context.empty with
    templateParams := templateParams
    analysisConfiguration := some
      { user := self.owner
        db :=
          { host := rendererParams.get "dbhost"
            port := rendererParams.get "dbport"
            dbname := rendererParams.get "dbname"
            user := rendererParams.get "dbuser"
            pass := rendererParams.get "dbpassword" }
        batch := { username := self.owner, apiKey := apiKey } } }

/-- The seven collaborator calls of a resolution in which every step succeeds, in order. -/
def successCalls (self : Provider) (tpl : Template) (db : DatabaseParams)
    (apiKey templateParams : JSValue) (doc : MapConfigDocument) : List Call :=
  [Call.getTemplate self.owner self.templateName,
   Call.isAuthorized tpl self.authToken,
   Call.getDatabaseParams self.owner,
   Call.getUserMapKey self.owner,
   Call.templateInstance (.value tpl) templateParams,
   Call.adapterGetMapConfig self.owner doc (resolvedParams self db)
     (adapterContext self (resolvedParams self db) apiKey templateParams),
   Call.getRenderLimits self.owner (self.params.get "api_key")]

/-- Every collaborator succeeds in a resolution that starts from `hist`: what each one
answers in the history it is called in, and the value that the config parses to. -/
structure Answers (env : Env) (provider : Provider) (hist : History) (tpl : Template)
    (authorized : JSValue) (db : DatabaseParams) (apiKey templateParams : JSValue)
    (doc out : MapConfigDocument) (context : Context) (limits : JSValue) : Prop where
  store : env.templateMaps.getTemplate hist provider.owner provider.templateName = .ok (some tpl)
  authorize : env.templateMaps.isAuthorized
    (hist ++ [Call.getTemplate provider.owner provider.templateName]) tpl provider.authToken = .ok authorized
  truthy : authorized.truthy = true
  database : env.pgConnection.getDatabaseParams
    (hist ++ [Call.getTemplate provider.owner provider.templateName] ++
      [Call.isAuthorized tpl provider.authToken]) provider.owner = .ok db
  key : env.metadataBackend.getUserMapKey
    (hist ++ [Call.getTemplate provider.owner provider.templateName] ++
      [Call.isAuthorized tpl provider.authToken] ++ [Call.getDatabaseParams provider.owner])
    provider.owner = .ok apiKey
  parsed : templateParamsOf env provider.config = .ok templateParams
  instantiated : env.templateMaps.templateInstance
    (hist ++ [Call.getTemplate provider.owner provider.templateName] ++
      [Call.isAuthorized tpl provider.authToken] ++ [Call.getDatabaseParams provider.owner] ++
      [Call.getUserMapKey provider.owner])
    (.value tpl) templateParams = .ok doc
  adapted : env.mapConfigAdapter.getMapConfig
    (hist ++ [Call.getTemplate provider.owner provider.templateName] ++
      [Call.isAuthorized tpl provider.authToken] ++ [Call.getDatabaseParams provider.owner] ++
      [Call.getUserMapKey provider.owner] ++ [Call.templateInstance (.value tpl) templateParams])
    provider.owner doc (resolvedParams provider db)
    (adapterContext provider (resolvedParams provider db) apiKey templateParams) = (.ok out, context)
  limited : env.userLimitsApi.getRenderLimits
    (hist ++ [Call.getTemplate provider.owner provider.templateName] ++
      [Call.isAuthorized tpl provider.authToken] ++ [Call.getDatabaseParams provider.owner] ++
      [Call.getUserMapKey provider.owner] ++ [Call.templateInstance (.value tpl) templateParams] ++
      [Call.adapterGetMapConfig provider.owner doc (resolvedParams provider db)
        (adapterContext provider (resolvedParams provider db) apiKey templateParams)])
    provider.owner (provider.params.get "api_key") = .ok limits

/-- A resolution on a provider with nothing memoized in which every collaborator succeeds. -/
structure Succeeds (env : Env) (provider : Provider) (hist : History) (tpl : Template)
    (authorized : JSValue) (db : DatabaseParams) (apiKey templateParams : JSValue)
    (doc out : MapConfigDocument) (context : Context) (limits : JSValue) : Prop where
  err_none : provider.err = none
  template_null : provider.template = .null
  mapConfig_none : provider.mapConfig = none
  answers : Answers env provider hist tpl authorized db apiKey templateParams doc out context
    limits

/-- The position of a collaborator in the order of the steps that call it: the template
store 1, authorization 2, database parameters 3, API key 4, template instance 5, adapter 6,
render limits 7, and the collaborators of `getAffectedTables` after them. -/
def Call.step : Call → Nat
  | .getTemplate _ _ => 1
  | .isAuthorized _ _ => 2
  | .getDatabaseParams _ => 3
  | .getUserMapKey _ => 4
  | .templateInstance _ _ => 5
  | .adapterGetMapConfig _ _ _ _ => 6
  | .getRenderLimits _ _ => 7
  | .hasAffectedTables _ _ => 8
  | .cacheGet _ _ => 9
  | .getConnection _ => 10
  | .getAffectedTablesFromQuery _ _ => 11
  | .cacheSet _ _ _ => 12

/-- The history `after` extends `before` by calls to collaborators of step `n` at most. -/
def AddsUpTo (n : Nat) (before after : History) : Prop :=
  ∃ added, after = before ++ added ∧ ∀ call ∈ added, call.step ≤ n

/-- The provider that a successful resolution leaves (lines 75 and 131-136). -/
def resolvedProvider (self : Provider) (tpl : Template) (db : DatabaseParams)
    (out : MapConfigDocument) (context : Context) (limits : JSValue) : Provider :=
  { self with
    err := none
    template := .value tpl
    mapConfig := some ⟨out, context.datasource⟩
    analysesResults := jsOr context.analysesResults (.arr [])
    rendererParams := .value (resolvedParams self db)
    context := { context with limits := jsOr limits (.obj []) } }

/-- The resolution fails fast: the callback receives the error `e` and a null MapConfig,
and the history ends as the failing step left it (`stepHist`), which holds calls to
collaborators of step `n` at most. -/
def FailedAt (env : Env) (self : Provider) (hist : History) (e : JSError) (stepHist : History)
    (n : Nat) : Prop :=
  (getMapConfig env self hist).1.err = some e ∧
    (getMapConfig env self hist).1.mapConfig = none ∧
    (getMapConfig env self hist).2.2 = stepHist ∧
    AddsUpTo n hist stepHist

/-- A later call on a provider, with the collaborators as they are at that time. -/
inductive LaterCall where
  | getMapConfig (env : Env)
  | getTemplate (env : Env)

/-- The provider and the history after one later call. -/
def runLater (state : Provider × History) : LaterCall → Provider × History
  | .getMapConfig env => (getMapConfig env state.1 state.2).2
  | .getTemplate env => (getTemplate env state.1 state.2).2

/-- Whether a call is `templateMaps.getTemplate` or `templateMaps.isAuthorized`. -/
def Call.isTemplateLookup : Call → Bool
  | .getTemplate _ _ => true
  | .isAuthorized _ _ => true
  | _ => false

/-- The history `after` extends `before` by calls that are neither
`templateMaps.getTemplate` nor `templateMaps.isAuthorized`. -/
def AddsNoLookup (before after : History) : Prop :=
  ∃ added, after = before ++ added ∧ ∀ call ∈ added, call.isTemplateLookup = false

/-- Whether a later call is a `getTemplate` call. -/
def LaterCall.isGetTemplate : LaterCall → Bool
  | .getTemplate _ => true
  | .getMapConfig _ => false

/-! ## Example values -/

/-- Request parameters `{dbname: 'db', format: 'png', layer: 5}`. -/
def exampleParams : JSObj :=
  ((JSObj.empty.set "dbname" (.str "db")).set "format" (.str "png")).set "layer" (.nat 5)

/-- A fresh provider of owner `u1` for template `t1` with config `{x: 1}` and no auth token. -/
def exampleProvider : Provider :=
  Provider.create "u1" "t1" (.obj [("x", .nat 1)]) none exampleParams 1000

/-- Request parameters `{owner: 'other'}`: a request that names an owner of its own. -/
def ownerParams : JSObj :=
  JSObj.empty.set "owner" (.str "other")

/-- The config `{x: n}`. -/
def configX (n : Int) : JSValue :=
  .obj [("x", .num (JSNumber.ofInt n))]

/-- A stored template with token authentication and the valid tokens `valid1`, `valid2`. -/
def exampleTemplate : Template :=
  { name := "t1", version := "0.0.1", auth := ⟨"token", ["valid1", "valid2"]⟩,
    placeholders := .obj [], layergroup := .obj [] }

/-- A document with the single layer `select 1`. -/
def exampleDoc : MapConfigDocument :=
  { version := "1.0.0", layers := [⟨⟨some "select 1", none⟩⟩] }

/-- Connection parameters of the owner `u1`. -/
def exampleDb : DatabaseParams :=
  { dbuser := .str "user_u1", dbpass := .str "secret", dbhost := .str "10.0.0.1",
    dbport := .nat 5432, dbname := .str "db_u1" }

/-- Whether a call is a `set` of the affected-tables cache. -/
def Call.isCacheSet : Call → Bool
  | .cacheSet _ _ _ => true
  | _ => false

/-- The value of the last `set` of the affected-tables cache in a history. -/
def lastCacheSet : History → JSValue
  | [] => .undefined
  | call :: rest =>
    match lastCacheSet rest, call with
    | .undefined, .cacheSet _ _ value => value
    | later, _ => later

/-- Collaborators that all succeed: the store knows template `t1` of `u1`, authorization
follows the policy of the spec, and the affected-tables cache holds what was last set. -/
def exampleEnv : Env :=
  { templateMaps := withPolicy
      { getTemplate := fun _ owner name =>
          if owner = "u1" ∧ name = "t1" then .ok (some exampleTemplate) else .ok none
        isAuthorized := fun _ _ _ => .ok .undefined
        templateInstance := fun _ _ _ => .ok exampleDoc }
    pgConnection :=
      { getDatabaseParams := fun _ _ => .ok exampleDb
        getConnection := fun _ _ => .ok (.str "connection") }
    metadataBackend := { getUserMapKey := fun _ _ => .ok (.str "1234") }
    userLimitsApi := { getRenderLimits := fun _ _ _ => .ok (.obj [("timeout", .nat 5)]) }
    mapConfigAdapter :=
      { getMapConfig := fun _ _ doc _ context =>
          (.ok doc, { context with datasource := .obj [("ds", .nat 1)] }) }
    affectedTablesCache :=
      { hasAffectedTables := fun hist _ _ => hist.any Call.isCacheSet
        get := fun hist _ _ => lastCacheSet hist }
    queryTables :=
      { getAffectedTablesFromQuery := fun _ _ sql => .ok (.arr [.str "public.t", sql]) }
    JSON_parse := fun text => if text = "\x7b\"x\":1\x7d" then some (configX 1) else none
    mapConfigId := fun _ => "token1" }

/-- Collaborators in which every call fails or throws; used to show that a call is not made. -/
def failingEnv : Env :=
  { templateMaps :=
      { getTemplate := fun _ _ _ => .error ⟨"store down", none⟩
        isAuthorized := fun _ _ _ => .error ⟨"boom", none⟩
        templateInstance := fun _ _ _ => .error ⟨"cannot instantiate", none⟩ }
    pgConnection :=
      { getDatabaseParams := fun _ _ => .error ⟨"name not found", none⟩
        getConnection := fun _ _ => .error ⟨"no connection", none⟩ }
    metadataBackend := { getUserMapKey := fun _ _ => .error ⟨"no key", none⟩ }
    userLimitsApi := { getRenderLimits := fun _ _ _ => .error ⟨"no limits", none⟩ }
    mapConfigAdapter :=
      { getMapConfig := fun _ _ _ _ context => (.error ⟨"adapter failed", none⟩, context) }
    affectedTablesCache :=
      { hasAffectedTables := fun _ _ _ => false
        get := fun _ _ _ => .undefined }
    queryTables := { getAffectedTablesFromQuery := fun _ _ _ => .error ⟨"query failed", none⟩ }
    JSON_parse := fun _ => none
    mapConfigId := fun _ => "token1" }

/-- A fresh provider of `u1` for template `t1` with the valid auth token `valid1`. -/
def authProvider : Provider :=
  Provider.create "u1" "t1" (configX 1) (some "valid1") exampleParams 1000

/-- A fresh provider of `u1` for a template that the store does not have. -/
def missingProvider : Provider :=
  Provider.create "u1" "missing" (configX 1) (some "valid1") exampleParams 1000

/-- Collaborators as in `exampleEnv`, except that `getDatabaseParams` fails. -/
def dbFailingEnv : Env :=
  { exampleEnv with pgConnection := failingEnv.pgConnection }

/-- A fresh provider whose config is the JSON text of `{x: 1}`. -/
def jsonProvider : Provider :=
  Provider.create "u1" "t1" (.str "\x7b\"x\":1\x7d") (some "valid1") exampleParams 1000

/-- A fresh provider whose config is a string that is not JSON. -/
def malformedProvider : Provider :=
  Provider.create "u1" "t1" (.str "not json") (some "valid1") exampleParams 1000

/-- A document with an http layer, which has no sql, followed by a layer with sql, as in
the acceptance test `can use an http layer`. -/
def httpDoc : MapConfigDocument :=
  { version := "1.3.0",
    layers := [⟨⟨none, none⟩⟩, ⟨⟨some "select * from test_table_private_1", none⟩⟩] }

/-- A document with two http layers and no other layer. -/
def twoHttpDoc : MapConfigDocument :=
  { version := "1.3.0", layers := [⟨⟨none, none⟩⟩, ⟨⟨none, none⟩⟩] }

/-- Collaborators as in `exampleEnv`, with an adapter that answers the document `doc`. -/
def envWithDoc (doc : MapConfigDocument) : Env :=
  { exampleEnv with
    mapConfigAdapter :=
      { getMapConfig := fun _ _ _ _ context =>
          (.ok doc, { context with datasource := .obj [("ds", .nat 1)] }) } }

/-- The calls that `getAffectedTables` itself makes after the MapConfig is resolved:
the history after it, without the history that `getMapConfig` left. -/
def affectedTablesCalls (env : Env) (self : Provider) (callback : AffectedTablesCallback)
    (hist : History) : List Call :=
  (getAffectedTables env self callback hist).2.2.drop (getMapConfig env self hist).2.2.length

/-- Collaborators as in `exampleEnv`, with an affected-tables cache that holds an entry. -/
def hitEnv : Env :=
  { exampleEnv with
    affectedTablesCache :=
      { hasAffectedTables := fun _ _ _ => true
        get := fun _ _ _ => .arr [.str "public.cached"] } }

/-- The history in which `getAffectedTables` acquires the connection on a cache miss: the
history of the resolution followed by the `hasAffectedTables` call. -/
def missHist (env : Env) (self : Provider) (hist : History) (mapConfig : MapConfig) : History :=
  (getMapConfig env self hist).2.2 ++
    [Call.hasAffectedTables (getMapConfig env self hist).2.1.rendererParams
      (env.mapConfigId mapConfig)]

/-- The history in which `getAffectedTables` returns from a cache hit: the history of the
resolution followed by the `hasAffectedTables` call and the `get` call. -/
def hitHist (env : Env) (self : Provider) (hist : History) (mapConfig : MapConfig) : History :=
  (getMapConfig env self hist).2.2 ++
    [Call.hasAffectedTables (getMapConfig env self hist).2.1.rendererParams
      (env.mapConfigId mapConfig),
     Call.cacheGet (getMapConfig env self hist).2.1.rendererParams (env.mapConfigId mapConfig)]

/-- The arguments `(null, affectedTables)` that the callback is called with on a cache hit. -/
def cachedResult (env : Env) (self : Provider) (hist : History) (mapConfig : MapConfig) :
    AffectedTablesResult :=
  ⟨none, env.affectedTablesCache.get (missHist env self hist mapConfig)
    (getMapConfig env self hist).2.1.rendererParams (env.mapConfigId mapConfig)⟩

/-- A cache hit: the MapConfig is resolved without error and the cache has an entry for
it. -/
structure Hit (env : Env) (provider : Provider) (hist : History) (mapConfig : MapConfig) :
    Prop where
  err_none : (getMapConfig env provider hist).1.err = none
  resolved : (getMapConfig env provider hist).1.mapConfig = some mapConfig
  present : env.affectedTablesCache.hasAffectedTables (getMapConfig env provider hist).2.2
    (getMapConfig env provider hist).2.1.rendererParams (env.mapConfigId mapConfig) = true

/-- A cache miss with something to query: the MapConfig is resolved without error, the
cache has no entry for it, and the combined SQL `sql` is not empty. -/
structure Miss (env : Env) (provider : Provider) (hist : History) (mapConfig : MapConfig)
    (sql : String) : Prop where
  err_none : (getMapConfig env provider hist).1.err = none
  resolved : (getMapConfig env provider hist).1.mapConfig = some mapConfig
  absent : env.affectedTablesCache.hasAffectedTables (getMapConfig env provider hist).2.2
    (getMapConfig env provider hist).2.1.rendererParams (env.mapConfigId mapConfig) = false
  combined : combinedSql mapConfig.cfg.layers = some sql
  nonempty : sql ≠ ""

/-- The entries that one layer adds to the combined query: its sql, or the empty string
when it has none, then one `LIMIT 0` statement per declared affected table. -/
def layerEntries (layer : Layer) : List String :=
  layer.options.sql.getD "" :: (layer.options.affected_tables.getD []).map limit0

/-! ## Strings: indexOf -/

/-- Whether the characters `pat` stand at the start of the characters `s`. -/
def startsWithChars : List Char → List Char → Bool
  | _, [] => true
  | [], _ :: _ => false
  | c :: s, d :: pat => c == d && startsWithChars s pat

/-- The method `indexOf` counted from position `i`: the first position at which `pat`
stands, or -1. -/
def indexOfFrom (pat : List Char) : List Char → Nat → Int
  | [], i => if startsWithChars [] pat then (i : Int) else -1
  | c :: s, i => if startsWithChars (c :: s) pat then (i : Int) else indexOfFrom pat s (i + 1)

/-- The method `String.prototype.indexOf`. -/
def indexOf (s pat : String) : Int :=
  indexOfFrom pat.toList s.toList 0

/-! ## dbConnSetupMiddleware (middleware/context/db-conn-setup.js) -/

/-- The object `global.environment.postgres`. -/
structure PostgresEnvironment where
  user : JSValue
  password : JSValue
  host : JSValue
  port : JSValue

/-- What the middleware hands to `next` (its first argument) and the object `res.locals.db`
afterwards. -/
structure MiddlewareResult where
  err : Option JSError
  db : JSObj

/-- Embedding of `dbConnSetupMiddleware` (db-conn-setup.js, lines 3-32). The collaborator
`setDBConn user db` answers with the error it calls back with, if any, and with the object
`db` as it has filled it. -/
def dbConnSetupMiddleware (setDBConn : String → JSObj → Option JSError × JSObj)
    (postgres : PostgresEnvironment) (user : String) : MiddlewareResult :=
  match setDBConn user JSObj.empty with
  | (some err, db) =>
    if err.message ≠ "" ∧ (-1 : Int) ≠ indexOf err.message "name not found" then
      ⟨some { err with http_status := some 404 }, db⟩
    else
      ⟨some err, db⟩
  | (none, db) =>
    ⟨none, _defaults db
      [(((JSObj.empty.set "dbuser" postgres.user).set
        "dbpassword" postgres.password).set
        "dbhost" postgres.host).set
        "dbport" postgres.port]⟩

/-! ## Regular expressions of this program -/

/-- Line terminators, which `.` does not match. -/
def isLineTerminator (c : Char) : Bool :=
  c.toNat = 10 || c.toNat = 13 || c.toNat = 0x2028 || c.toNat = 0x2029

/-- The characters that have a meaning of their own in a regular expression. -/
def isMetaChar (c : Char) : Bool :=
  c ∈ ['\\', '^', '$', '.', '|', '?', '*', '+', '(', ')', '[', ']', '\x7b', '\x7d']

/-- An atom of the embedded fragment of regular expressions: one given character, or `.`. -/
inductive Atom where
  | chr (c : Char)
  | any

/-- Whether an atom matches a character. -/
def Atom.accepts : Atom → Char → Bool
  | .chr c, d => c == d
  | .any, d => !isLineTerminator d

/-- An atom, possibly followed by `*`. -/
structure Piece where
  atom : Atom
  star : Bool

/-- The piece of an atom that no `*` follows. -/
def Piece.once (a : Atom) : Piece := ⟨a, false⟩

/-- Reads the pieces of a pattern, `pending` being the atom read last, which a `*` may still
follow; `none` for a pattern outside the fragment (characters, `.`, and `*` after either). -/
def readPieces (pending : Option Atom) : List Char → Option (List Piece)
  | [] => some (pending.toList.map Piece.once)
  | c :: rest =>
    if c = '*' then
      match pending with
      | some a => (readPieces none rest).map fun ps => ⟨a, true⟩ :: ps
      | none => none
    else if c = '.' then
      (readPieces (some .any) rest).map fun ps => pending.toList.map Piece.once ++ ps
    else if isMetaChar c then none
    else
      (readPieces (some (.chr c)) rest).map fun ps => pending.toList.map Piece.once ++ ps

/-- A compiled regular expression of the fragment: whether it starts with `^`, and its
pieces. -/
structure Regex where
  anchored : Bool
  pieces : List Piece

/-- Embedding of `new RegExp(source)` for the fragment; `none` outside of it. -/
def compileRegex (source : List Char) : Option Regex :=
  match source with
  | '^' :: rest => (readPieces none rest).map fun ps => ⟨true, ps⟩
  | _ => (readPieces none source).map fun ps => ⟨false, ps⟩

/-- Matching `atom*` followed by what `k` matches, the longest run first. -/
def matchStar (k : List Char → Bool) (a : Atom) : List Char → Bool
  | [] => k []
  | c :: t => (a.accepts c && matchStar k a t) || k (c :: t)

/-- Whether the pieces match at the start of the input. -/
def matchPieces : List Piece → List Char → Bool
  | [], _ => true
  | ⟨a, true⟩ :: ps, s => matchStar (matchPieces ps) a s
  | ⟨a, false⟩ :: ps, s =>
    match s with
    | c :: t => a.accepts c && matchPieces ps t
    | [] => false

/-- Whether the pieces match at some position of the input. -/
def searchPieces (ps : List Piece) : List Char → Bool
  | [] => matchPieces ps []
  | c :: t => matchPieces ps (c :: t) || searchPieces ps t

/-- Whether `input.match(regex)` finds a match. -/
def Regex.test (r : Regex) (input : List Char) : Bool :=
  if r.anchored then matchPieces r.pieces input else searchPieces r.pieces input

/-- Embedding of `NamedMapMapConfigProvider.prototype.filter` (lines 211-214): the
truthiness of `key && key.match(regex)`; `none` when the pattern made from the base key is
outside the embedded fragment of regular expressions. -/
def filter (self : Provider) (key : Option String) : Except JSError (Option Bool) :=
  match createKey self true with
  | .error e => .error e
  | .ok base =>
    match compileRegex ("^" ++ base ++ ".*").toList with
    | none => .ok none
    | some regex =>
      .ok (some
        (match key with
          | some k => k ≠ "" && regex.test k.toList
          | none => false))

/-! ## MapController (controllers/map.js) -/

/-- The characters of the literal part ` in style 'layer` of the mapnik pattern. -/
def styleLiteral : List Char := " in style 'layer".toList

/-- The class `[0-9]`. -/
def isDigitChar (c : Char) : Bool :=
  48 ≤ c.toNat && c.toNat ≤ 57

/-- Matching ` in style 'layer([0-9]+)'` at the start of the input: the digits of the
group. The group takes the whole run of digits; a shorter run is followed by a digit and
not by the quote. -/
def matchStyleTail (t : List Char) : Option (List Char) :=
  if startsWithChars t styleLiteral then
    match (t.drop styleLiteral.length).takeWhile isDigitChar,
      (t.drop styleLiteral.length).dropWhile isDigitChar with
    | d :: ds, '\'' :: _ => some (d :: ds)
    | _, _ => none
  else none

/-- Matching `(.*)` with at most `k` characters, the longest first, followed by the rest of
the pattern: the two groups. -/
def tryLengths (s : List Char) : Nat → Option (List Char × List Char)
  | 0 => (matchStyleTail s).map fun digits => ([], digits)
  | k + 1 =>
    match matchStyleTail (s.drop (k + 1)) with
    | some digits => some (s.take (k + 1), digits)
    | none => tryLengths s k

/-- The number of characters that `.*` can take at the start of the input. -/
def lineLength (s : List Char) : Nat :=
  (s.takeWhile fun c => !isLineTerminator c).length

/-- Embedding of `errMsg.match("(.*) in style 'layer([0-9]+)'")`: the groups 1 and 2 of
the first match, the start positions being tried from left to right. -/
def matchStyle : List Char → Option (List Char × List Char)
  | [] => tryLengths [] 0
  | c :: t =>
    match tryLengths (c :: t) (lineLength (c :: t)) with
    | some groups => some groups
    | none => matchStyle t

/-- The message text `err.message ? ('' + err.message) : ('' + err)` (lines 53 and 184);
an error without message text converts to its name, `Error`. -/
def errMsgOf (err : JSError) : String :=
  if err.message ≠ "" then "" ++ err.message else "Error"

/-- The rewrite of mapnik parsing errors (lines 187-191). -/
def rewriteStyleError (errMsg : String) : String :=
  match matchStyle errMsg.toList with
  | some (text, layer) => "style" ++ String.mk layer ++ ": " ++ String.mk text
  | none => errMsg

/-- What `sendError` is called with: the `errors` array of the body and the status code. -/
structure ErrorResponse where
  errors : List String
  statusCode : Nat

/-- The error branch of `finish` in `MapController.prototype.attributes` (lines 51-55);
`findStatusCode` is the method of the app. -/
def attributesError (findStatusCode : JSError → Nat) (err : JSError) : ErrorResponse :=
  ⟨[errMsgOf err], findStatusCode err⟩

/-- The error branch of `finish` in `MapController.prototype.create` (lines 86-89). -/
def createError (findStatusCode : JSError → Nat) (err : JSError) : ErrorResponse :=
  ⟨[err.message], findStatusCode err⟩

/-- The error branch of `MapController.prototype.finalizeGetTileOrGrid` (lines 182-195). -/
def finalizeGetTileOrGrid (findStatusCode : JSError → Nat) (err : JSError) : ErrorResponse :=
  ⟨["" ++ rewriteStyleError (errMsgOf err)], findStatusCode err⟩

/-- The text `t` begins with the part ` in style 'layer<N>'` of a mapnik parsing error, `N`
being one or more decimal digits. -/
def StyleOccurrence (t : List Char) : Prop :=
  ∃ digits rest, digits ≠ [] ∧ (∀ c ∈ digits, isDigitChar c = true) ∧
    t = styleLiteral ++ digits ++ '\'' :: rest

/-! ## Lemmas on records -/

theorem JSValue.isUndefined_iff (v : JSValue) : v.isUndefined = true ↔ v = .undefined := by
  cases v <;> simp [JSValue.isUndefined]

theorem getEntry_setEntry (es : List (String × JSValue)) (key : String) (val : JSValue)
    (k : String) :
    getEntry (setEntry es key val) k = if key = k then val else getEntry es k := by
  induction es with
  | nil => simp [setEntry, getEntry]
  | cons e es ih =>
    obtain ⟨k0, v0⟩ := e
    by_cases h0 : k0 = key
    · subst h0
      by_cases h1 : k0 = k <;> simp [setEntry, getEntry, h1]
    · by_cases h1 : k0 = k
      · subst h1
        have h2 : ¬ key = k0 := fun h => h0 h.symm
        simp [setEntry, getEntry, h0, h2]
      · simp [setEntry, getEntry, h0, h1, ih]

theorem getEntry_of_not_mem (es : List (String × JSValue)) (k : String)
    (h : k ∉ es.map Prod.fst) : getEntry es k = .undefined := by
  induction es with
  | nil => rfl
  | cons e es ih =>
    obtain ⟨k0, v0⟩ := e
    simp only [List.map_cons, List.mem_cons, not_or] at h
    have h2 : ¬ k0 = k := fun h3 => h.1 h3.symm
    simp [getEntry, h2, ih h.2]

theorem JSObj.get_set (o : JSObj) (key : String) (val : JSValue) (k : String) :
    (o.set key val).get k = if key = k then val else o.get k :=
  getEntry_setEntry o.entries key val k

theorem JSObj.get_empty (k : String) : JSObj.empty.get k = .undefined := rfl

theorem JSObj.get_of_has_eq_false (o : JSObj) (k : String) (h : o.has k = false) :
    o.get k = .undefined := by
  apply getEntry_of_not_mem
  simpa [JSObj.has] using h

theorem get_defaultsFrom (src : List (String × JSValue)) (hnd : (src.map Prod.fst).Nodup)
    (o : JSObj) (k : String) :
    (defaultsFrom o src).get k = if (o.get k).isUndefined then getEntry src k else o.get k := by
  induction src generalizing o with
  | nil =>
    simp only [defaultsFrom, List.foldl_nil, getEntry]
    split
    · next h => exact (JSValue.isUndefined_iff _).1 h
    · rfl
  | cons e es ih =>
    obtain ⟨k0, v0⟩ := e
    simp only [List.map_cons, List.nodup_cons] at hnd
    have step : defaultsFrom o ((k0, v0) :: es) =
        defaultsFrom (if (o.get k0).isUndefined then o.set k0 v0 else o) es := rfl
    rw [step, ih hnd.2]
    by_cases hk : k0 = k
    · subst hk
      by_cases hu : (o.get k0).isUndefined = true
      · simp only [hu, if_true, JSObj.get_set, getEntry]
        by_cases hv : v0.isUndefined = true
        · simp only [hv, if_true]
          rw [getEntry_of_not_mem es k0 hnd.1]
          exact ((JSValue.isUndefined_iff _).1 hv).symm
        · simp [hv]
      · simp [hu]
    · by_cases hu : (o.get k0).isUndefined = true
      · simp [hu, JSObj.get_set, hk, getEntry]
      · simp [hu, getEntry, hk]

theorem get_defaults_two (a b : JSObj) (k : String) :
    (_defaults JSObj.empty [a, b]).get k =
      if (a.get k).isUndefined then b.get k else a.get k := by
  simp only [_defaults, List.foldl_cons, List.foldl_nil]
  rw [get_defaultsFrom b.entries b.nodup, get_defaultsFrom a.entries a.nodup]
  simp only [JSObj.get_empty, JSValue.isUndefined, if_true]
  rfl

/-! ## Lemmas on the key templates -/

theorem baseKeyTpl_eq (it : JSObj) :
    baseKeyTpl it =
      (it.get "dbname").toStr ++ ":" ++ (it.get "owner").toStr ++ ":"
        ++ (it.get "templateName").toStr := by
  have hc : dot.compile baseKey.length baseKey.toList =
      [.interp "it.dbname".toList, .text ':', .interp "it.owner".toList, .text ':',
        .interp "it.templateName".toList] := by rfl
  have hs : String.singleton ':' = ":" := rfl
  show dot.render it (dot.compile baseKey.length baseKey.toList) = _
  rw [hc]
  simp only [dot.render, dot.evalExpr, hs, String.append_assoc, String.append_empty]
  rfl

set_option maxRecDepth 100000 in
theorem rendererKeyTpl_eq (it : JSObj) :
    rendererKeyTpl it =
      (it.get "dbname").toStr ++ ":" ++ (it.get "owner").toStr ++ ":"
        ++ (it.get "templateName").toStr ++ ":" ++ (it.get "authToken").toStr ++ ":"
        ++ (it.get "configHash").toStr ++ ":" ++ (it.get "format").toStr ++ ":"
        ++ (it.get "layer").toStr ++ ":" ++ (it.get "scale_factor").toStr := by
  have hc : dot.compile rendererKey.length rendererKey.toList =
      [.interp "it.dbname".toList, .text ':', .interp "it.owner".toList, .text ':',
        .interp "it.templateName".toList, .text ':', .interp "it.authToken".toList, .text ':',
        .interp "it.configHash".toList, .text ':', .interp "it.format".toList, .text ':',
        .interp "it.layer".toList, .text ':', .interp "it.scale_factor".toList] := by rfl
  have hs : String.singleton ':' = ":" := rfl
  show dot.render it (dot.compile rendererKey.length rendererKey.toList) = _
  rw [hc]
  simp only [dot.render, dot.evalExpr, hs, String.append_assoc, String.append_empty]
  rfl

theorem stringify_of_truthy (config : JSValue) (ht : config.truthy = true) :
    ∃ text, config.stringify = some text := by
  cases config <;> simp [JSValue.truthy, JSValue.stringify] at ht ⊢

theorem configHash_of_truthy (config : JSValue) (ht : config.truthy = true) :
    ∃ text, config.stringify = some text ∧
      configHash config = .ok (substring0 (MD5.hex (MD5.digest (utf8 text))) 8) := by
  obtain ⟨text, hs⟩ := stringify_of_truthy config ht
  exact ⟨text, hs, by simp [configHash, ht, hs, md5Hex, Except.map]⟩

theorem configHash_of_falsy (config : JSValue) (ht : config.truthy = false) :
    configHash config = .ok "" := by
  simp [configHash, ht]

theorem configHash_ok (config : JSValue) : ∃ hash, configHash config = .ok hash := by
  by_cases ht : config.truthy = true
  · obtain ⟨text, _, h⟩ := configHash_of_truthy config ht
    exact ⟨_, h⟩
  · exact ⟨"", configHash_of_falsy config (by simpa using ht)⟩


/-! ## Number::toString on sample numbers -/

theorem toStr_small_integers :
    (JSNumber.ofNat 1).toStr = "1" ∧ (JSNumber.ofNat 5432).toStr = "5432" ∧
      (JSNumber.ofInt (-3)).toStr = "-3" ∧ (JSNumber.ofNat 0).toStr = "0" ∧
      (JSNumber.ofBits true 0 0).toStr = "0" := by
  decide!

theorem toStr_large_integers :
    (JSNumber.ofNat 123456789012345678901).toStr = "123456789012345680000" ∧
      (JSNumber.ofNat (10 ^ 21)).toStr = "1e+21" ∧
      (JSNumber.ofNat (10 ^ 23)).toStr = "1e+23" ∧
      (JSNumber.ofNat 9007199254740993).toStr = "9007199254740992" ∧
      (JSNumber.ofNat (2 ^ 1024)).toStr = "Infinity" := by
  decide!

theorem toStr_fractions :
    (JSNumber.ofBits false 1022 0).toStr = "0.5" ∧
      (JSNumber.ofBits true 1019 2702159776422298).toStr = "-0.1" ∧
      (JSNumber.ofBits false 1021 1501199875790165).toStr = "0.3333333333333333" ∧
      (JSNumber.ofBits false 1003 218766855499149).toStr = "0.000001" ∧
      (JSNumber.ofBits false 999 3052186745220936).toStr = "1e-7" ∧
      (JSNumber.ofBits false 0 1).toStr = "5e-324" ∧
      (JSNumber.ofBits false 2046 4503599627370495).toStr = "1.7976931348623157e+308" := by
  decide!

theorem toStr_not_finite :
    (JSNumber.ofBits false 2047 1).toStr = "NaN" ∧
      (JSNumber.ofBits false 2047 0).toStr = "Infinity" ∧
      (JSNumber.ofBits true 2047 0).toStr = "-Infinity" ∧
      (JSValue.num (JSNumber.ofBits false 2047 1)).stringify = some "null" ∧
      (JSValue.num (JSNumber.ofBits true 2047 0)).stringify = some "null" ∧
      (JSValue.num (JSNumber.ofBits false 2047 1)).truthy = false := by
  decide!
/-! ## Cache keys: C1 -/

theorem tplValues_get (self : Provider) (hash key : String) :
    (_defaults JSObj.empty [self.params, keyDefaults self hash]).get key =
      if (self.params.get key).isUndefined then (keyDefaults self hash).get key
      else self.params.get key :=
  get_defaults_two _ _ _

theorem authTokenOrEmpty_eq (authToken : Option String) :
    authTokenOrEmpty authToken = authToken.getD "" := by
  cases authToken with
  | none => rfl
  | some t =>
    by_cases h : t = ""
    · simp [authTokenOrEmpty, h]
    · simp [authTokenOrEmpty, h]

theorem JSValue.toStr_str (s : String) : (JSValue.str s).toStr = s := by
  simp [JSValue.toStr]

theorem JSValue.toStr_one : (JSValue.nat 1).toStr = "1" := by decide

theorem JSValue.isUndefined_undefined : JSValue.undefined.isUndefined = true := rfl

theorem keyDefaults_get (self : Provider) (hash : String) :
    (keyDefaults self hash).get "dbname" = .str "" ∧
    (keyDefaults self hash).get "owner" = .str self.owner ∧
    (keyDefaults self hash).get "templateName" = .str self.templateName ∧
    (keyDefaults self hash).get "authToken" = .str (self.authToken.getD "") ∧
    (keyDefaults self hash).get "configHash" = .str hash ∧
    (keyDefaults self hash).get "format" = .undefined ∧
    (keyDefaults self hash).get "layer" = .str "" ∧
    (keyDefaults self hash).get "scale_factor" = .nat 1 := by
  simp [keyDefaults, JSObj.get_set, JSObj.get_empty, authTokenOrEmpty_eq]

theorem tplText (self : Provider) (hash key : String) :
    ((_defaults JSObj.empty [self.params, keyDefaults self hash]).get key).toStr =
      if (self.params.get key).isUndefined then ((keyDefaults self hash).get key).toStr
      else (self.params.get key).toStr := by
  rw [tplValues_get]
  split <;> rfl

theorem tplText_format (self : Provider) (hash : String) :
    ((_defaults JSObj.empty [self.params, keyDefaults self hash]).get "format").toStr =
      (self.params.get "format").toStr := by
  rw [tplText]
  split
  · next h =>
    rw [(keyDefaults_get self hash).2.2.2.2.2.1, (JSValue.isUndefined_iff _).1 h]
  · rfl

theorem createKey_base_eq (self : Provider) (hash : String)
    (hh : configHash self.config = .ok hash)
    (h1 : self.params.get "owner" = .undefined)
    (h2 : self.params.get "templateName" = .undefined) :
    createKey self true =
      .ok (paramText self.params "dbname" "" ++ ":" ++ self.owner ++ ":" ++ self.templateName) := by
  obtain ⟨d1, d2, d3, -⟩ := keyDefaults_get self hash
  simp only [createKey, hh, if_true, baseKeyTpl_eq, tplText, h1, h2, d1, d2, d3,
    JSValue.isUndefined_undefined, JSValue.toStr_str, paramText]

theorem getKey_eq (self : Provider) (hash : String)
    (hh : configHash self.config = .ok hash)
    (h1 : self.params.get "owner" = .undefined)
    (h2 : self.params.get "templateName" = .undefined)
    (h3 : self.params.get "authToken" = .undefined)
    (h4 : self.params.get "configHash" = .undefined) :
    getKey self =
      .ok (paramText self.params "dbname" "" ++ ":" ++ self.owner ++ ":" ++ self.templateName
        ++ ":" ++ self.authToken.getD "" ++ ":" ++ hash ++ ":"
        ++ (self.params.get "format").toStr ++ ":" ++ paramText self.params "layer" "" ++ ":"
        ++ paramText self.params "scale_factor" "1") := by
  obtain ⟨d1, d2, d3, d4, d5, -, d7, d8⟩ := keyDefaults_get self hash
  simp only [getKey, createKey, hh, rendererKeyTpl_eq, tplText_format]
  simp only [tplText, h1, h2, h3, h4, d1, d2, d3, d4, d5, d7, d8,
    JSValue.isUndefined_undefined, JSValue.toStr_str, JSValue.toStr_one, paramText, if_true]
  rfl

/-- C1. For every provider whose params carry no entry named owner, templateName, authToken
or configHash, `createKey(true)` is `dbname:owner:templateName` and `getKey()` is that base
key followed by `:authToken:configHash(config):format:layer:scale_factor`; dbname, format,
layer and scale_factor are read from params, dbname and layer are empty when absent,
scale_factor is 1 when absent, and authToken is empty when none was supplied. -/
theorem createKey_format (self : Provider)
    (h1 : self.params.has "owner" = false)
    (h2 : self.params.has "templateName" = false)
    (h3 : self.params.has "authToken" = false)
    (h4 : self.params.has "configHash" = false) :
    ∃ hash, configHash self.config = .ok hash ∧
      createKey self true =
        .ok (paramText self.params "dbname" "" ++ ":" ++ self.owner ++ ":"
          ++ self.templateName) ∧
      getKey self = createKey self false ∧
      getKey self =
        .ok (paramText self.params "dbname" "" ++ ":" ++ self.owner ++ ":"
          ++ self.templateName ++ ":" ++ self.authToken.getD "" ++ ":" ++ hash ++ ":"
          ++ (self.params.get "format").toStr ++ ":" ++ paramText self.params "layer" "" ++ ":"
          ++ paramText self.params "scale_factor" "1") := by
  obtain ⟨hash, hh⟩ := configHash_ok self.config
  have g1 := JSObj.get_of_has_eq_false _ _ h1
  have g2 := JSObj.get_of_has_eq_false _ _ h2
  have g3 := JSObj.get_of_has_eq_false _ _ h3
  have g4 := JSObj.get_of_has_eq_false _ _ h4
  exact ⟨hash, hh, createKey_base_eq self hash hh g1 g2, rfl, getKey_eq self hash hh g1 g2 g3 g4⟩

theorem createKey_format_witness :
    (exampleProvider.params.has "owner" = false ∧
      exampleProvider.params.has "templateName" = false ∧
      exampleProvider.params.has "authToken" = false ∧
      exampleProvider.params.has "configHash" = false) ∧
    ∃ hash, configHash exampleProvider.config = .ok hash ∧
      createKey exampleProvider true =
        .ok (paramText exampleProvider.params "dbname" "" ++ ":" ++ exampleProvider.owner ++ ":"
          ++ exampleProvider.templateName) ∧
      getKey exampleProvider = createKey exampleProvider false ∧
      getKey exampleProvider =
        .ok (paramText exampleProvider.params "dbname" "" ++ ":" ++ exampleProvider.owner ++ ":"
          ++ exampleProvider.templateName ++ ":" ++ exampleProvider.authToken.getD "" ++ ":"
          ++ hash ++ ":" ++ (exampleProvider.params.get "format").toStr ++ ":"
          ++ paramText exampleProvider.params "layer" "" ++ ":"
          ++ paramText exampleProvider.params "scale_factor" "1") :=
  ⟨by decide, createKey_format exampleProvider (by decide) (by decide) (by decide) (by decide)⟩

theorem getKey_example : getKey exampleProvider = .ok "db:u1:t1::ac3ef48c:png:5:1" := by
  decide!

theorem getKey_exponent_example :
    getKey (Provider.create "u1" "t1" .null none
      ((JSObj.empty.set "layer" (.num (JSNumber.ofNat (10 ^ 21)))).set "scale_factor"
        (.num (JSNumber.ofInt (-3)))) 0) = .ok ":u1:t1:::undefined:1e+21:-3" := by
  decide!

theorem getKey_fraction_example :
    getKey (Provider.create "u1" "t1" .null none
      ((JSObj.empty.set "layer" (.num (JSNumber.ofBits false 1022 0))).set "scale_factor"
        (.num (JSNumber.ofBits false 1023 2251799813685248))) 0) =
      .ok ":u1:t1:::undefined:0.5:1.5" := by
  decide!

/-! ## Cache keys: C2 -/

theorem str_append_left_cancel (a x y : String) (h : a ++ x = a ++ y) : x = y := by
  have hd := congrArg String.data h
  simp only [String.data_append] at hd
  exact String.ext (List.append_cancel_left hd)

theorem str_append_right_cancel (x y b : String) (h : x ++ b = y ++ b) : x = y := by
  have hd := congrArg String.data h
  simp only [String.data_append] at hd
  exact String.ext (List.append_cancel_right hd)

theorem getKey_general (self : Provider) (hash : String)
    (hh : configHash self.config = .ok hash) :
    getKey self =
      .ok (paramText self.params "dbname" "" ++ (":"
        ++ (paramText self.params "owner" self.owner ++ (":"
        ++ (paramText self.params "templateName" self.templateName ++ (":"
        ++ (paramText self.params "authToken" (self.authToken.getD "") ++ (":"
        ++ (paramText self.params "configHash" hash ++ (":"
        ++ ((self.params.get "format").toStr ++ (":"
        ++ (paramText self.params "layer" "" ++ (":"
        ++ paramText self.params "scale_factor" "1")))))))))))))) := by
  obtain ⟨d1, d2, d3, d4, d5, -, d7, d8⟩ := keyDefaults_get self hash
  simp only [getKey, createKey, hh, rendererKeyTpl_eq, tplText_format]
  simp only [tplText, d1, d2, d3, d4, d5, d7, d8, JSValue.toStr_str, JSValue.toStr_one,
    paramText, String.append_assoc]
  rfl

theorem paramText_of_undefined (params : JSObj) (key dflt : String)
    (h : params.get key = .undefined) : paramText params key dflt = dflt := by
  simp [paramText, h, JSValue.isUndefined_undefined]

theorem getKey_owner_ne (p : Provider) (o : String) (h : p.params.has "owner" = false)
    (hne : o ≠ p.owner) : getKey { p with owner := o } ≠ getKey p := by
  obtain ⟨hash, hh⟩ := configHash_ok p.config
  have hq : configHash ({ p with owner := o } : Provider).config = .ok hash := hh
  have g := JSObj.get_of_has_eq_false _ _ h
  rw [getKey_general _ hash hq, getKey_general p hash hh]
  simp only [paramText_of_undefined _ "owner" _ g]
  intro heq
  injection heq with heq
  exact hne (str_append_right_cancel _ _ _
    (str_append_left_cancel _ _ _ (str_append_left_cancel _ _ _ heq)))

theorem getKey_templateName_ne (p : Provider) (t : String)
    (h : p.params.has "templateName" = false) (hne : t ≠ p.templateName) :
    getKey { p with templateName := t } ≠ getKey p := by
  obtain ⟨hash, hh⟩ := configHash_ok p.config
  have hq : configHash ({ p with templateName := t } : Provider).config = .ok hash := hh
  have g := JSObj.get_of_has_eq_false _ _ h
  rw [getKey_general _ hash hq, getKey_general p hash hh]
  simp only [paramText_of_undefined _ "templateName" _ g]
  intro heq
  injection heq with heq
  exact hne (str_append_right_cancel _ _ _
    (str_append_left_cancel _ _ _ (str_append_left_cancel _ _ _
      (str_append_left_cancel _ _ _ (str_append_left_cancel _ _ _ heq)))))

theorem getKey_authToken_ne (p : Provider) (a : Option String)
    (h : p.params.has "authToken" = false) (hne : a.getD "" ≠ p.authToken.getD "") :
    getKey { p with authToken := a } ≠ getKey p := by
  obtain ⟨hash, hh⟩ := configHash_ok p.config
  have hq : configHash ({ p with authToken := a } : Provider).config = .ok hash := hh
  have g := JSObj.get_of_has_eq_false _ _ h
  rw [getKey_general _ hash hq, getKey_general p hash hh]
  simp only [paramText_of_undefined _ "authToken" _ g]
  intro heq
  injection heq with heq
  exact hne (str_append_right_cancel _ _ _
    (str_append_left_cancel _ _ _ (str_append_left_cancel _ _ _
      (str_append_left_cancel _ _ _ (str_append_left_cancel _ _ _
        (str_append_left_cancel _ _ _ (str_append_left_cancel _ _ _ heq)))))))

theorem getKey_config_ne_iff (p : Provider) (c : JSValue)
    (h : p.params.has "configHash" = false) :
    getKey { p with config := c } ≠ getKey p ↔ configHash c ≠ configHash p.config := by
  obtain ⟨hash, hh⟩ := configHash_ok p.config
  obtain ⟨hash2, hh2⟩ := configHash_ok c
  have hq : configHash ({ p with config := c } : Provider).config = .ok hash2 := hh2
  have g := JSObj.get_of_has_eq_false _ _ h
  rw [getKey_general _ hash2 hq, getKey_general p hash hh, hh, hh2]
  simp only [paramText_of_undefined _ "configHash" _ g]
  constructor
  · intro hne heq
    injection heq with heq
    exact hne (by rw [heq])
  · intro hne heq
    injection heq with heq
    apply hne
    congr 1
    exact str_append_right_cancel _ _ _
      (str_append_left_cancel _ _ _ (str_append_left_cancel _ _ _
        (str_append_left_cancel _ _ _ (str_append_left_cancel _ _ _
          (str_append_left_cancel _ _ _ (str_append_left_cancel _ _ _
            (str_append_left_cancel _ _ _ (str_append_left_cancel _ _ _ heq))))))))

theorem paramText_congr (a b : JSObj) (key dflt : String) (h : a.get key = b.get key) :
    paramText a key dflt = paramText b key dflt := by
  simp only [paramText, h]

theorem getKey_layer_ne (p : Provider) (params : JSObj)
    (hsame : ∀ k, k ≠ "layer" → params.get k = p.params.get k)
    (hne : paramText params "layer" "" ≠ paramText p.params "layer" "") :
    getKey { p with params := params } ≠ getKey p := by
  obtain ⟨hash, hh⟩ := configHash_ok p.config
  have hq : configHash ({ p with params := params } : Provider).config = .ok hash := hh
  rw [getKey_general _ hash hq, getKey_general p hash hh]
  simp only [paramText_congr params p.params "dbname" _ (hsame _ (by decide)),
    paramText_congr params p.params "owner" _ (hsame _ (by decide)),
    paramText_congr params p.params "templateName" _ (hsame _ (by decide)),
    paramText_congr params p.params "authToken" _ (hsame _ (by decide)),
    paramText_congr params p.params "configHash" _ (hsame _ (by decide)),
    paramText_congr params p.params "scale_factor" _ (hsame _ (by decide)),
    hsame "format" (by decide)]
  intro heq
  injection heq with heq
  exact hne (str_append_right_cancel _ _ _
    (str_append_left_cancel _ _ _ (str_append_left_cancel _ _ _
      (str_append_left_cancel _ _ _ (str_append_left_cancel _ _ _
        (str_append_left_cancel _ _ _ (str_append_left_cancel _ _ _
          (str_append_left_cancel _ _ _ (str_append_left_cancel _ _ _
            (str_append_left_cancel _ _ _ (str_append_left_cancel _ _ _
              (str_append_left_cancel _ _ _ (str_append_left_cancel _ _ _ heq)))))))))))))

theorem getKey_scale_factor_ne (p : Provider) (params : JSObj)
    (hsame : ∀ k, k ≠ "scale_factor" → params.get k = p.params.get k)
    (hne : paramText params "scale_factor" "1" ≠ paramText p.params "scale_factor" "1") :
    getKey { p with params := params } ≠ getKey p := by
  obtain ⟨hash, hh⟩ := configHash_ok p.config
  have hq : configHash ({ p with params := params } : Provider).config = .ok hash := hh
  rw [getKey_general _ hash hq, getKey_general p hash hh]
  simp only [paramText_congr params p.params "dbname" _ (hsame _ (by decide)),
    paramText_congr params p.params "owner" _ (hsame _ (by decide)),
    paramText_congr params p.params "templateName" _ (hsame _ (by decide)),
    paramText_congr params p.params "authToken" _ (hsame _ (by decide)),
    paramText_congr params p.params "configHash" _ (hsame _ (by decide)),
    paramText_congr params p.params "layer" _ (hsame _ (by decide)),
    hsame "format" (by decide)]
  intro heq
  injection heq with heq
  exact hne
    (str_append_left_cancel _ _ _ (str_append_left_cancel _ _ _
      (str_append_left_cancel _ _ _ (str_append_left_cancel _ _ _
        (str_append_left_cancel _ _ _ (str_append_left_cancel _ _ _
          (str_append_left_cancel _ _ _ (str_append_left_cancel _ _ _
            (str_append_left_cancel _ _ _ (str_append_left_cancel _ _ _
              (str_append_left_cancel _ _ _ (str_append_left_cancel _ _ _
                (str_append_left_cancel _ _ _ (str_append_left_cancel _ _ _ heq))))))))))))))

theorem configHash_34405 : configHash (configX 34405) = .ok "df25bbd2" := by decide!

theorem configHash_50383 : configHash (configX 50383) = .ok "df25bbd2" := by decide!

theorem configHash_x1 : configHash (configX 1) = .ok "ac3ef48c" := by decide!

theorem configHash_x2 : configHash (configX 2) = .ok "dd9ee0a7" := by decide!

theorem getKey_of_hash_eq (p q : Provider) (hash : String)
    (hp : configHash p.config = .ok hash) (hq : configHash q.config = .ok hash)
    (h1 : q.params = p.params) (h2 : q.owner = p.owner) (h3 : q.templateName = p.templateName)
    (h4 : q.authToken = p.authToken) : getKey q = getKey p := by
  rw [getKey_general q hash hq, getKey_general p hash hp, h1, h2, h3, h4]

/-- C2, as stated, fails: the configs `{x: 34405}` and `{x: 50383}` differ and neither is
empty, yet the two providers that differ only in them share their full key, because both
configs have the truncated digest `df25bbd2`; two providers that differ only in owner share
their key when the request params carry an `owner` entry; and the layers `1` and `'1'`
print the same text, as do the layers `1e21` and `'1e+21'`. -/
theorem getKey_single_field_counterexample :
    (configX 34405 ≠ configX 50383 ∧
      getKey (Provider.create "u1" "t1" (configX 34405) none JSObj.empty 0) =
        getKey (Provider.create "u1" "t1" (configX 50383) none JSObj.empty 0)) ∧
    ("u1" ≠ "u2" ∧
      getKey (Provider.create "u1" "t1" (configX 1) none ownerParams 0) =
        getKey (Provider.create "u2" "t1" (configX 1) none ownerParams 0)) ∧
    (JSValue.nat 1 ≠ JSValue.str "1" ∧
      getKey (Provider.create "u1" "t1" (configX 1) none
          (JSObj.empty.set "layer" (.nat 1)) 0) =
        getKey (Provider.create "u1" "t1" (configX 1) none
          (JSObj.empty.set "layer" (.str "1")) 0)) ∧
    (JSValue.nat (10 ^ 21) ≠ JSValue.str "1e+21" ∧
      getKey (Provider.create "u1" "t1" (configX 1) none
          (JSObj.empty.set "layer" (.nat (10 ^ 21))) 0) =
        getKey (Provider.create "u1" "t1" (configX 1) none
          (JSObj.empty.set "layer" (.str "1e+21")) 0)) := by
  refine ⟨⟨by simp only [configX, ne_eq, JSValue.obj.injEq, List.cons.injEq, Prod.mk.injEq,
    JSValue.num.injEq, and_true, true_and]; decide!, ?_⟩, ⟨by decide, ?_⟩, ⟨by simp, ?_⟩,
    ⟨by simp, ?_⟩⟩
  · exact getKey_of_hash_eq _ _ _ configHash_50383 configHash_34405 rfl rfl rfl rfl
  · rw [getKey_general _ _ configHash_x1,
      getKey_general (Provider.create "u2" "t1" (configX 1) none ownerParams 0) _ configHash_x1]
    rfl
  · rw [getKey_general _ _ configHash_x1,
      getKey_general (Provider.create "u1" "t1" (configX 1) none
        (JSObj.empty.set "layer" (.str "1")) 0) _ configHash_x1]
    rfl
  · rw [getKey_general _ _ configHash_x1,
      getKey_general (Provider.create "u1" "t1" (configX 1) none
        (JSObj.empty.set "layer" (.str "1e+21")) 0) _ configHash_x1]
    decide!

/-- C2, amended. Two providers that differ in exactly one field have different full keys
in these cases: the owner, the template name or the effective auth token (`authToken || ''`)
differs and params carries no entry of that name; the layer or the scale factor differs in
the text it prints after defaulting (`''` and `1`); for the config, when params carries no
configHash entry, the keys differ exactly when the truncated config hashes differ, which is
the case for `{x: 1}` and `{x: 2}`. -/
theorem getKey_single_field :
    (∀ (p : Provider) (o : String), p.params.has "owner" = false → o ≠ p.owner →
      getKey { p with owner := o } ≠ getKey p) ∧
    (∀ (p : Provider) (t : String), p.params.has "templateName" = false → t ≠ p.templateName →
      getKey { p with templateName := t } ≠ getKey p) ∧
    (∀ (p : Provider) (a : Option String), p.params.has "authToken" = false →
      a.getD "" ≠ p.authToken.getD "" → getKey { p with authToken := a } ≠ getKey p) ∧
    (∀ (p : Provider) (c : JSValue), p.params.has "configHash" = false →
      (getKey { p with config := c } ≠ getKey p ↔ configHash c ≠ configHash p.config)) ∧
    (∀ (p : Provider) (params : JSObj),
      (∀ k, k ≠ "layer" → params.get k = p.params.get k) →
      paramText params "layer" "" ≠ paramText p.params "layer" "" →
      getKey { p with params := params } ≠ getKey p) ∧
    (∀ (p : Provider) (params : JSObj),
      (∀ k, k ≠ "scale_factor" → params.get k = p.params.get k) →
      paramText params "scale_factor" "1" ≠ paramText p.params "scale_factor" "1" →
      getKey { p with params := params } ≠ getKey p) ∧
    (∀ p : Provider, p.params.has "configHash" = false →
      getKey { p with config := configX 1 } ≠ getKey { p with config := configX 2 }) := by
  refine ⟨getKey_owner_ne, getKey_templateName_ne, getKey_authToken_ne, getKey_config_ne_iff,
    getKey_layer_ne, getKey_scale_factor_ne, ?_⟩
  intro p h
  have hx : configHash (configX 1) ≠ configHash (configX 2) := by
    rw [configHash_x1, configHash_x2]
    decide
  exact (getKey_config_ne_iff { p with config := configX 2 } (configX 1) h).2 hx

theorem getKey_single_field_witness :
    getKey (Provider.create "u1" "t1" (configX 1) (some "") JSObj.empty 0) ≠
      getKey (Provider.create "u1" "t1" (configX 2) (some "") JSObj.empty 0) ∧
    getKey (Provider.create "u1" "t1" (configX 1) none exampleParams 0) ≠
      getKey (Provider.create "u2" "t1" (configX 1) none exampleParams 0) :=
  ⟨getKey_single_field.2.2.2.2.2.2 (Provider.create "u1" "t1" (configX 2) (some "") JSObj.empty 0)
      (by decide),
    fun h => getKey_single_field.1 (Provider.create "u1" "t1" (configX 1) none exampleParams 0)
      "u2" (by decide) (by decide) h.symm⟩

/-! ## Cache keys: C3 -/

theorem createKey_congr (p q : Provider) (base : Bool) (h1 : p.owner = q.owner)
    (h2 : p.templateName = q.templateName) (h3 : p.authToken = q.authToken)
    (h4 : p.config = q.config) (h5 : p.params = q.params) :
    createKey p base = createKey q base := by
  simp only [createKey, keyDefaults, h1, h2, h3, h4, h5]

/-- C3. Key derivation is a function of (owner, templateName, authToken, config, params)
alone: two providers that agree on these fields have the same `getKey()` and the same
`createKey(true)` whatever their cacheBuster and memoized fields are, and `reset()` changes
neither key. -/
theorem key_pure (p q : Provider) (now : Nat) (h1 : p.owner = q.owner)
    (h2 : p.templateName = q.templateName) (h3 : p.authToken = q.authToken)
    (h4 : p.config = q.config) (h5 : p.params = q.params) :
    getKey p = getKey q ∧ createKey p true = createKey q true ∧
      getKey (reset p now) = getKey p ∧ createKey (reset p now) true = createKey p true :=
  ⟨createKey_congr p q false h1 h2 h3 h4 h5, createKey_congr p q true h1 h2 h3 h4 h5, rfl, rfl⟩

theorem key_pure_witness :
    (exampleProvider.owner = (reset exampleProvider 2000).owner ∧
      exampleProvider.cacheBuster = 1000 ∧ (reset exampleProvider 2000).cacheBuster = 2000) ∧
    (getKey exampleProvider = getKey (reset exampleProvider 2000) ∧
      createKey exampleProvider true = createKey (reset exampleProvider 2000) true ∧
      getKey (reset exampleProvider 7) = getKey exampleProvider ∧
      createKey (reset exampleProvider 7) true = createKey exampleProvider true) :=
  ⟨⟨rfl, rfl, rfl⟩, key_pure exampleProvider (reset exampleProvider 2000) 7 rfl rfl rfl rfl rfl⟩

/-! ## Config hash: C4, C5, C6 -/

theorem hexDigit_mem (n : Nat) (h : n < 16) : hexDigit n ∈ hexAlphabet := by
  interval_cases n <;> decide

theorem hexByte_mem (b : Nat) : ∀ c ∈ MD5.hexByte b, c ∈ hexAlphabet := by
  intro c hc
  simp only [MD5.hexByte, List.mem_cons, List.mem_singleton, List.not_mem_nil, or_false] at hc
  rcases hc with rfl | rfl
  · exact hexDigit_mem _ (Nat.mod_lt _ (by decide))
  · exact hexDigit_mem _ (Nat.mod_lt _ (by decide))

theorem hex_mem (bs : List Nat) : ∀ c ∈ (MD5.hex bs).toList, c ∈ hexAlphabet := by
  intro c hc
  have h : (MD5.hex bs).toList = bs.flatMap MD5.hexByte := rfl
  rw [h, List.mem_flatMap] at hc
  obtain ⟨b, -, hb⟩ := hc
  exact hexByte_mem b c hb

theorem hex_length (bs : List Nat) : (MD5.hex bs).toList.length = 2 * bs.length := by
  induction bs with
  | nil => rfl
  | cons b bs ih =>
    have h : (MD5.hex (b :: bs)).toList = MD5.hexByte b ++ (MD5.hex bs).toList := rfl
    rw [h, List.length_append, ih]
    simp only [MD5.hexByte, List.length_cons, List.length_nil]
    omega

theorem digest_length (bs : List Nat) : (MD5.digest bs).length = 16 := by
  simp [MD5.digest, MD5.le32Bytes]

theorem truncated_length (bs : List Nat) :
    (substring0 (MD5.hex (MD5.digest bs)) 8).length = 8 := by
  simp only [substring0, String.length, List.length_take, hex_length, digest_length]
  rfl

theorem truncated_mem (bs : List Nat) :
    ∀ c ∈ (substring0 (MD5.hex (MD5.digest bs)) 8).toList, c ∈ hexAlphabet := by
  intro c hc
  exact hex_mem _ c (List.mem_of_mem_take hc)

theorem md5_empty : MD5.hex (MD5.digest (utf8 "")) = "d41d8cd98f00b204e9800998ecf8427e" := by
  decide!

theorem md5_abc : MD5.hex (MD5.digest (utf8 "abc")) = "900150983cd24fb0d6963f7d28e17f72" := by
  decide!

theorem md5_two_blocks :
    MD5.hex (MD5.digest (utf8
      "12345678901234567890123456789012345678901234567890123456789012345678901234567890")) =
      "57edf4a22be3c955ac49da2e2107b67a" := by
  decide!

theorem configHash_empty_object : configHash (.obj []) = .ok "99914b93" := by decide!

theorem configHash_empty_array : configHash (.arr []) = .ok "d7517139" := by decide!

/-- C4, as stated, fails: the empty object and the empty array are empty configs, yet their
config hash is not the empty string; `{}` is hashed to `99914b93` and `[]` to `d7517139`. -/
theorem configHash_empty_counterexample :
    configHash (.obj []) = .ok "99914b93" ∧ configHash (.obj []) ≠ .ok "" ∧
    configHash (.arr []) = .ok "d7517139" ∧ configHash (.arr []) ≠ .ok "" := by
  rw [configHash_empty_object, configHash_empty_array]
  exact ⟨rfl, by decide, rfl, by decide⟩

/-- C4, amended. `configHash(config)` is the empty string exactly when config is falsy:
null, undefined, `''`, `0`, `NaN` or `false`. For every other config, an empty object or an
empty array included, it is the first 8 hexadecimal characters of the MD5 digest of
`JSON.stringify(config)`. Its result has length 0 or 8, consists of hexadecimal digits only,
and is the same for the same config. -/
theorem configHash_spec (config : JSValue) :
    configHash .null = .ok "" ∧ configHash .undefined = .ok "" ∧
    configHash (.str "") = .ok "" ∧ configHash (.nat 0) = .ok "" ∧
    configHash (.bool false) = .ok "" ∧
    (configHash config = .ok "" ↔ config.truthy = false) ∧
    (config.truthy = true → ∃ text, config.stringify = some text ∧
      configHash config = .ok (String.mk ((MD5.hex (MD5.digest (utf8 text))).toList.take 8)) ∧
      (String.mk ((MD5.hex (MD5.digest (utf8 text))).toList.take 8)).length = 8) ∧
    (∀ ps, ∃ text, (JSValue.obj ps).stringify = some text ∧
      configHash (.obj ps) =
        .ok (String.mk ((MD5.hex (MD5.digest (utf8 text))).toList.take 8))) ∧
    (∀ xs, ∃ text, (JSValue.arr xs).stringify = some text ∧
      configHash (.arr xs) =
        .ok (String.mk ((MD5.hex (MD5.digest (utf8 text))).toList.take 8))) ∧
    (∃ hash, configHash config = .ok hash ∧ (hash.length = 0 ∨ hash.length = 8) ∧
      ∀ c ∈ hash.toList, c ∈ hexAlphabet) ∧
    (∀ other, other = config → configHash other = configHash config) := by
  refine ⟨rfl, rfl, rfl, rfl, rfl, ⟨?_, configHash_of_falsy config⟩, ?_,
    fun ps => configHash_of_truthy (.obj ps) rfl, fun xs => configHash_of_truthy (.arr xs) rfl,
    ?_, ?_⟩
  · intro h
    by_contra ht
    obtain ⟨text, -, h2⟩ := configHash_of_truthy config (by simpa using ht)
    rw [h2] at h
    injection h with h
    have hl := truncated_length (utf8 text)
    rw [h] at hl
    exact absurd hl (by decide)
  · intro ht
    obtain ⟨text, h1, h2⟩ := configHash_of_truthy config ht
    exact ⟨text, h1, h2, truncated_length _⟩
  · by_cases ht : config.truthy = true
    · obtain ⟨text, -, h⟩ := configHash_of_truthy config ht
      exact ⟨_, h, Or.inr (truncated_length _), truncated_mem _⟩
    · refine ⟨"", configHash_of_falsy config (by simpa using ht), Or.inl rfl, ?_⟩
      intro c hc
      simp at hc
  · intro other h
    rw [h]

theorem configHash_ab : configHash (.obj [("a", .nat 1), ("b", .nat 2)]) = .ok "608de49a" := by
  decide!

theorem configHash_ba : configHash (.obj [("b", .nat 2), ("a", .nat 1)]) = .ok "9915965e" := by
  decide!

theorem configHash_not_json : configHash (.str "not json") = .ok "2f4aecc2" := by decide!

/-- C5, as stated, fails: the config `'not json'`, a non-empty string that is not valid
JSON, does not degrade to the empty hash; it is hashed to `2f4aecc2`. -/
theorem configHash_malformed_counterexample :
    configHash (.str "not json") = .ok "2f4aecc2" ∧
      configHash (.str "not json") ≠ .ok "" := by
  rw [configHash_not_json]
  exact ⟨rfl, by decide⟩

/-- C5, amended. `configHash` has no failure mode: for every config value it returns a
string and does not raise. It never parses its argument, so a malformed config is not
degraded: every truthy config, a string that is not valid JSON included, gets the 8
hexadecimal characters of the MD5 digest of its `JSON.stringify` text, and the empty hash is
returned exactly for the falsy configs. -/
theorem configHash_total (config : JSValue) :
    (∃ hash, configHash config = .ok hash) ∧
    (configHash config = .ok "" ↔ config.truthy = false) ∧
    (∀ s : String, s ≠ "" → ∃ hash, hash.length = 8 ∧ configHash (.str s) = .ok hash ∧
      hash = String.mk ((MD5.hex (MD5.digest (utf8 (quote s)))).toList.take 8)) := by
  refine ⟨configHash_ok config, ⟨?_, configHash_of_falsy config⟩, ?_⟩
  · intro h
    by_contra ht
    obtain ⟨text, -, h2⟩ := configHash_of_truthy config (by simpa using ht)
    rw [h2] at h
    injection h with h
    have hl := truncated_length (utf8 text)
    rw [h] at hl
    exact absurd hl (by decide)
  · intro s hs
    have ht : (JSValue.str s).truthy = true := by simp [JSValue.truthy, hs]
    obtain ⟨text, h1, h2⟩ := configHash_of_truthy _ ht
    have h3 : text = quote s := by
      simp only [JSValue.stringify, Option.some.injEq] at h1
      exact h1.symm
    subst h3
    exact ⟨_, truncated_length _, h2, rfl⟩

/-- C6, as stated, fails: `{a:1,b:2}` and `{b:2,a:1}` have the same members and values in a
different order, yet their config hashes are `608de49a` and `9915965e`, and the full keys
of two providers that differ only in the order of these members differ. -/
theorem configHash_order_counterexample :
    configHash (.obj [("a", .nat 1), ("b", .nat 2)]) = .ok "608de49a" ∧
    configHash (.obj [("b", .nat 2), ("a", .nat 1)]) = .ok "9915965e" ∧
    getKey (Provider.create "u1" "t1" (.obj [("a", .nat 1), ("b", .nat 2)]) none
        JSObj.empty 0) = .ok ":u1:t1::608de49a:undefined::1" ∧
    getKey (Provider.create "u1" "t1" (.obj [("b", .nat 2), ("a", .nat 1)]) none
        JSObj.empty 0) = .ok ":u1:t1::9915965e:undefined::1" := by
  refine ⟨configHash_ab, configHash_ba, ?_, ?_⟩
  · rw [getKey_general _ _ configHash_ab]
    rfl
  · rw [getKey_general _ _ configHash_ba]
    rfl

/-- C6, amended. `configHash` is computed over `JSON.stringify(config)`, which writes the
members in the object's own enumeration order and is not canonical: two config objects with
the same `JSON.stringify` text (the same members in the same order) have the same config
hash and the same cache keys; nothing is promised for a different member order. -/
theorem configHash_of_stringify_eq (ps qs : List (String × JSValue)) (p : Provider)
    (h : (JSValue.obj ps).stringify = (JSValue.obj qs).stringify) :
    configHash (.obj ps) = configHash (.obj qs) ∧
      getKey { p with config := .obj ps } = getKey { p with config := .obj qs } ∧
      createKey { p with config := .obj ps } true =
        createKey { p with config := .obj qs } true := by
  have hc : configHash (.obj ps) = configHash (.obj qs) := by
    simp only [configHash, JSValue.truthy, h]
  refine ⟨hc, ?_, ?_⟩
  · simp only [getKey, createKey, hc, keyDefaults]
  · simp only [createKey, hc, keyDefaults]

theorem configHash_of_stringify_eq_witness :
    (JSValue.obj [("a", .nat 1), ("u", .undefined)]).stringify =
        (JSValue.obj [("a", .nat 1)]).stringify ∧
    (configHash (.obj [("a", .nat 1), ("u", .undefined)]) = configHash (.obj [("a", .nat 1)]) ∧
      getKey { exampleProvider with config := .obj [("a", .nat 1), ("u", .undefined)] } =
        getKey { exampleProvider with config := .obj [("a", .nat 1)] } ∧
      createKey { exampleProvider with config := .obj [("a", .nat 1), ("u", .undefined)] } true =
        createKey { exampleProvider with config := .obj [("a", .nat 1)] } true) :=
  ⟨by decide, configHash_of_stringify_eq _ _ exampleProvider (by decide)⟩

/-! ## getTemplate: C7, C8, C9 -/

theorem getTemplate_run (env : Env) (self : Provider) (hist : History)
    (h1 : self.err = none) (h2 : self.template = .null) :
    getTemplate env self hist =
      ((cacheAndReturnTemplate self
          (checkAuthorized env self (hist ++ [Call.getTemplate self.owner self.templateName])
            (checkExists self
              (env.templateMaps.getTemplate hist self.owner self.templateName))).1).1,
        (cacheAndReturnTemplate self
          (checkAuthorized env self (hist ++ [Call.getTemplate self.owner self.templateName])
            (checkExists self
              (env.templateMaps.getTemplate hist self.owner self.templateName))).1).2,
        (checkAuthorized env self (hist ++ [Call.getTemplate self.owner self.templateName])
          (checkExists self
            (env.templateMaps.getTemplate hist self.owner self.templateName))).2) := by
  simp [getTemplate, h1, h2, Slot.notNull]

/-- C7. When the template store returns no template for (owner, templateName) and no error,
`getTemplate` calls back with an error whose `http_status` is 404 and whose message is
`Template '<templateName>' of user '<owner>' not found`, with no template, and the history
gains the store call only: `templateMaps.isAuthorized` is not consulted. -/
theorem getTemplate_not_found (env : Env) (self : Provider) (hist : History)
    (h1 : self.err = none) (h2 : self.template = .null)
    (h3 : env.templateMaps.getTemplate hist self.owner self.templateName = .ok none) :
    (getTemplate env self hist).1 =
        ⟨some ⟨"Template '" ++ self.templateName ++ "' of user '" ++ self.owner ++ "' not found",
          some 404⟩, .undefined⟩ ∧
      (getTemplate env self hist).2.2 = hist ++ [Call.getTemplate self.owner self.templateName] ∧
      ∀ tpl authToken, Call.isAuthorized tpl authToken ∉
        [Call.getTemplate self.owner self.templateName] := by
  rw [getTemplate_run env self hist h1 h2, h3]
  refine ⟨rfl, rfl, ?_⟩
  intro tpl authToken h
  simp at h

/-- C8. When the template store returns a template, `getTemplate` succeeds with exactly
that template if and only if `templateMaps.isAuthorized(template, authToken)` returns a
truthy value; a falsy value gives the error `Unauthorized template instantiation` with
`http_status` 403, and a throwing `isAuthorized` gives `Failed to authorize template` with
`http_status` 403, whatever the exception was. -/
theorem getTemplate_authorized (env : Env) (self : Provider) (hist : History) (tpl : Template)
    (h1 : self.err = none) (h2 : self.template = .null)
    (h3 : env.templateMaps.getTemplate hist self.owner self.templateName = .ok (some tpl)) :
    ((getTemplate env self hist).1 = ⟨none, .value tpl⟩ ↔
      ∃ v, env.templateMaps.isAuthorized
        (hist ++ [Call.getTemplate self.owner self.templateName]) tpl self.authToken = .ok v ∧
        v.truthy = true) ∧
    (∀ v, env.templateMaps.isAuthorized
        (hist ++ [Call.getTemplate self.owner self.templateName]) tpl self.authToken = .ok v →
      v.truthy = false →
      (getTemplate env self hist).1 =
        ⟨some ⟨"Unauthorized template instantiation", some 403⟩, .undefined⟩) ∧
    (∀ e, env.templateMaps.isAuthorized
        (hist ++ [Call.getTemplate self.owner self.templateName]) tpl self.authToken = .error e →
      (getTemplate env self hist).1 =
        ⟨some ⟨"Failed to authorize template", some 403⟩, .undefined⟩) := by
  rw [getTemplate_run env self hist h1 h2, h3]
  simp only [checkExists, checkAuthorized]
  cases hA : env.templateMaps.isAuthorized
      (hist ++ [Call.getTemplate self.owner self.templateName]) tpl self.authToken with
  | error e =>
    refine ⟨⟨fun h => ?_, fun h => ?_⟩, fun v h => ?_, fun e2 _ => rfl⟩
    · simp [cacheAndReturnTemplate] at h
    · obtain ⟨v, hv, -⟩ := h
      cases hv
    · cases h
  | ok v =>
    by_cases hv : v.truthy = true
    · refine ⟨⟨fun _ => ⟨v, rfl, hv⟩, fun _ => ?_⟩, fun v2 h hf => ?_, fun e h => ?_⟩
      · simp [hv, cacheAndReturnTemplate]
      · injection h with h
        subst h
        rw [hv] at hf
        cases hf
      · cases h
    · have hf : v.truthy = false := by simpa using hv
      refine ⟨⟨fun h => ?_, fun h => ?_⟩, fun v2 _ _ => ?_, fun e h => ?_⟩
      · simp [hf, cacheAndReturnTemplate] at h
      · obtain ⟨v2, h2, h3⟩ := h
        injection h2 with h2
        subst h2
        rw [hf] at h3
        cases h3
      · simp [hf, cacheAndReturnTemplate, unauthorizedErr]
      · cases h

theorem getTemplate_not_found_witness :
    (missingProvider.err = none ∧ missingProvider.template = .null ∧
      exampleEnv.templateMaps.getTemplate [] missingProvider.owner missingProvider.templateName =
        .ok none) ∧
    (getTemplate exampleEnv missingProvider []).1 =
      ⟨some ⟨"Template 'missing' of user 'u1' not found", some 404⟩, .undefined⟩ ∧
    (getTemplate exampleEnv missingProvider []).2.2 = [Call.getTemplate "u1" "missing"] :=
  ⟨⟨rfl, rfl, rfl⟩,
    (getTemplate_not_found exampleEnv missingProvider [] rfl rfl rfl).1,
    (getTemplate_not_found exampleEnv missingProvider [] rfl rfl rfl).2.1⟩

theorem getTemplate_authorized_witness :
    (authProvider.err = none ∧ authProvider.template = .null ∧
      exampleEnv.templateMaps.getTemplate [] authProvider.owner authProvider.templateName =
        .ok (some exampleTemplate)) ∧
    ((getTemplate exampleEnv authProvider []).1 = ⟨none, .value exampleTemplate⟩ ↔
      ∃ v, exampleEnv.templateMaps.isAuthorized
        ([] ++ [Call.getTemplate authProvider.owner authProvider.templateName])
        exampleTemplate authProvider.authToken = .ok v ∧ v.truthy = true) ∧
    (getTemplate exampleEnv authProvider []).1 = ⟨none, .value exampleTemplate⟩ ∧
    (getTemplate exampleEnv exampleProvider []).1 =
      ⟨some ⟨"Unauthorized template instantiation", some 403⟩, .undefined⟩ ∧
    (getTemplate { exampleEnv with templateMaps :=
        { exampleEnv.templateMaps with isAuthorized := failingEnv.templateMaps.isAuthorized } }
      authProvider []).1 = ⟨some ⟨"Failed to authorize template", some 403⟩, .undefined⟩ :=
  ⟨⟨rfl, rfl, rfl⟩,
    (getTemplate_authorized exampleEnv authProvider [] exampleTemplate rfl rfl rfl).1,
    ((getTemplate_authorized exampleEnv authProvider [] exampleTemplate rfl rfl rfl).1).2
      ⟨.bool true, rfl, rfl⟩,
    (getTemplate_authorized exampleEnv exampleProvider [] exampleTemplate rfl rfl rfl).2.1
      (.bool false) rfl rfl,
    (getTemplate_authorized _ authProvider [] exampleTemplate rfl rfl rfl).2.2
      ⟨"boom", none⟩ rfl⟩

theorem isAuthorized_token (template : Template) (authToken : Option String)
    (h : template.auth.method = "token") :
    isAuthorized template authToken = true ↔
      ∃ token, authToken = some token ∧ token ∈ template.auth.valid_tokens := by
  cases authToken with
  | none => simp [isAuthorized, h]
  | some token => simp [isAuthorized, h]

theorem getTemplate_withPolicy (env : Env) (self : Provider) (hist : History) (tpl : Template)
    (h1 : self.err = none) (h2 : self.template = .null)
    (h3 : env.templateMaps.getTemplate hist self.owner self.templateName = .ok (some tpl)) :
    (getTemplate { env with templateMaps := withPolicy env.templateMaps } self hist).1 =
      if isAuthorized tpl self.authToken then ⟨none, .value tpl⟩
      else ⟨some ⟨"Unauthorized template instantiation", some 403⟩, .undefined⟩ := by
  have h3b : ({ env with templateMaps := withPolicy env.templateMaps } : Env).templateMaps.getTemplate
      hist self.owner self.templateName = .ok (some tpl) := h3
  obtain ⟨ha, hb, -⟩ := getTemplate_authorized
    { env with templateMaps := withPolicy env.templateMaps } self hist tpl h1 h2 h3b
  by_cases hp : isAuthorized tpl self.authToken = true
  · rw [if_pos hp]
    exact ha.2 ⟨.bool true, by simp [withPolicy, hp], rfl⟩
  · rw [if_neg hp]
    have hf : isAuthorized tpl self.authToken = false := by simpa using hp
    exact hb (.bool false) (by simp [withPolicy, hf]) rfl

/-- C9. Authorization policy of the gate: a template with auth method `open` is authorized
for every auth token, none included; a template with method `token` is authorized exactly
when the supplied auth token is one of its `valid_tokens`, so a missing token is rejected,
and so is the empty token unless it is listed; a token-method template without valid tokens
never authorizes; and `getTemplate` under this policy succeeds exactly when it authorizes. -/
theorem isAuthorized_policy (template : Template) (authToken : Option String) :
    (template.auth.method = "open" → isAuthorized template authToken = true) ∧
    (template.auth.method = "token" →
      (isAuthorized template authToken = true ↔
        ∃ token, authToken = some token ∧ token ∈ template.auth.valid_tokens)) ∧
    (template.auth.method = "token" → isAuthorized template none = false) ∧
    (template.auth.method = "token" → "" ∉ template.auth.valid_tokens →
      isAuthorized template (some "") = false) ∧
    (template.auth.method = "token" → template.auth.valid_tokens = [] →
      isAuthorized template authToken = false) ∧
    (∀ (env : Env) (self : Provider) (hist : History), self.err = none → self.template = .null →
      env.templateMaps.getTemplate hist self.owner self.templateName = .ok (some template) →
      (getTemplate { env with templateMaps := withPolicy env.templateMaps } self hist).1 =
        if isAuthorized template self.authToken then ⟨none, .value template⟩
        else ⟨some ⟨"Unauthorized template instantiation", some 403⟩, .undefined⟩) := by
  refine ⟨fun h => by simp [isAuthorized, h], isAuthorized_token template authToken,
    fun h => by simp [isAuthorized, h], fun h hn => by simp [isAuthorized, h, hn],
    fun h he => ?_, fun env self hist h1 h2 h3 => getTemplate_withPolicy env self hist template h1 h2 h3⟩
  cases authToken with
  | none => simp [isAuthorized, h]
  | some token => simp [isAuthorized, h, he]

theorem isAuthorized_policy_witness :
    (isAuthorized exampleTemplate (some "valid2") = true ↔
      ∃ token, some "valid2" = some token ∧ token ∈ exampleTemplate.auth.valid_tokens) ∧
    isAuthorized exampleTemplate (some "valid2") = true ∧
    isAuthorized exampleTemplate none = false ∧
    isAuthorized exampleTemplate (some "") = false ∧
    isAuthorized { exampleTemplate with auth := ⟨"token", []⟩ } (some "valid2") = false ∧
    isAuthorized { exampleTemplate with auth := ⟨"open", []⟩ } none = true :=
  ⟨(isAuthorized_policy exampleTemplate (some "valid2")).2.1 rfl,
    ((isAuthorized_policy exampleTemplate (some "valid2")).2.1 rfl).2 ⟨"valid2", rfl, by decide⟩,
    (isAuthorized_policy exampleTemplate none).2.2.1 rfl,
    (isAuthorized_policy exampleTemplate none).2.2.2.1 rfl (by decide),
    (isAuthorized_policy { exampleTemplate with auth := ⟨"token", []⟩ } (some "valid2")).2.2.2.2.1
      rfl rfl,
    (isAuthorized_policy { exampleTemplate with auth := ⟨"open", []⟩ } none).1 rfl⟩

/-! ## Memoization lemmas -/

theorem getMapConfig_memo (env : Env) (self : Provider) (hist : History)
    (h : (self.err.isSome || self.mapConfig.isSome) = true) :
    getMapConfig env self hist =
      (⟨self.err, self.mapConfig, self.rendererParams, self.context⟩, self, hist) := by
  simp only [getMapConfig, h, if_true]

theorem getTemplate_memo (env : Env) (self : Provider) (hist : History)
    (h : (self.err.isSome || self.template.notNull) = true) :
    getTemplate env self hist = (⟨self.err, self.template⟩, self, hist) := by
  simp only [getTemplate, h, if_true]

theorem getTemplate_settled (env : Env) (self : Provider) (hist : History) :
    ((getTemplate env self hist).2.1.err.isSome ||
        (getTemplate env self hist).2.1.template.notNull) = true ∧
      (getTemplate env self hist).1 =
        ⟨(getTemplate env self hist).2.1.err, (getTemplate env self hist).2.1.template⟩ := by
  by_cases h : (self.err.isSome || self.template.notNull) = true
  · rw [getTemplate_memo env self hist h]
    exact ⟨h, rfl⟩
  · simp only [getTemplate, h, if_false]
    generalize (checkAuthorized env self (hist ++ [Call.getTemplate self.owner self.templateName])
      (checkExists self (env.templateMaps.getTemplate hist self.owner self.templateName))).1 = r
    cases r <;> simp [cacheAndReturnTemplate, Slot.notNull]

theorem getTemplate_ok_notNull (env : Env) (self : Provider) (hist : History)
    (h : (getTemplate env self hist).1.err = none) :
    (getTemplate env self hist).1.template.notNull = true := by
  obtain ⟨h1, h2⟩ := getTemplate_settled env self hist
  rw [h2] at h ⊢
  simp only at h ⊢
  rw [h] at h1
  simpa using h1

theorem prepareContextLimits_settled (env : Env) (args : Except JSError MapConfigDocument)
    (run : Run) :
    (∃ e, (prepareContextLimits env args run).1 = .error e) ∨
      (prepareContextLimits env args run).2.mapConfig.isSome = true := by
  cases args with
  | error e => exact Or.inl ⟨e, rfl⟩
  | ok doc => exact Or.inr rfl

theorem cacheAndReturnMapConfig_fst (args : Except JSError JSValue) (run : Run) :
    (cacheAndReturnMapConfig args run).1 =
      ⟨(cacheAndReturnMapConfig args run).2.1.err,
        (cacheAndReturnMapConfig args run).2.1.mapConfig,
        (cacheAndReturnMapConfig args run).2.1.rendererParams,
        (cacheAndReturnMapConfig args run).2.1.context⟩ := rfl

theorem cacheAndReturnMapConfig_settled (args : Except JSError JSValue) (run : Run)
    (h : (∃ e, args = .error e) ∨ run.mapConfig.isSome = true) :
    ((cacheAndReturnMapConfig args run).2.1.err.isSome ||
      (cacheAndReturnMapConfig args run).2.1.mapConfig.isSome) = true := by
  rcases h with ⟨e, rfl⟩ | h
  · simp [cacheAndReturnMapConfig]
  · cases hm : run.mapConfig with
    | none => rw [hm] at h; cases h
    | some cfg => simp [cacheAndReturnMapConfig, hm]

theorem getMapConfig_settled (env : Env) (self : Provider) (hist : History) :
    ((getMapConfig env self hist).2.1.err.isSome ||
        (getMapConfig env self hist).2.1.mapConfig.isSome) = true ∧
      (getMapConfig env self hist).1 =
        ⟨(getMapConfig env self hist).2.1.err, (getMapConfig env self hist).2.1.mapConfig,
          (getMapConfig env self hist).2.1.rendererParams,
          (getMapConfig env self hist).2.1.context⟩ := by
  by_cases h : (self.err.isSome || self.mapConfig.isSome) = true
  · rw [getMapConfig_memo env self hist h]
    exact ⟨h, rfl⟩
  · simp only [getMapConfig, h, if_false]
    exact ⟨cacheAndReturnMapConfig_settled _ _ (prepareContextLimits_settled env _ _),
      cacheAndReturnMapConfig_fst _ _⟩

theorem getMapConfig_again (env env2 : Env) (self : Provider) (hist : History) :
    getMapConfig env2 (getMapConfig env self hist).2.1 (getMapConfig env self hist).2.2 =
      getMapConfig env self hist := by
  obtain ⟨h1, h2⟩ := getMapConfig_settled env self hist
  rw [getMapConfig_memo env2 _ _ h1, ← h2]

theorem getTemplate_again (env env2 : Env) (self : Provider) (hist : History) :
    getTemplate env2 (getTemplate env self hist).2.1 (getTemplate env self hist).2.2 =
      getTemplate env self hist := by
  obtain ⟨h1, h2⟩ := getTemplate_settled env self hist
  rw [getTemplate_memo env2 _ _ h1, ← h2]

/-! ## The chain of getMapConfig, step by step -/

theorem getMapConfig_run (env : Env) (self : Provider) (hist : History)
    (h1 : self.err = none) (h2 : self.mapConfig = none) :
    getMapConfig env self hist =
      cacheAndReturnMapConfig (afterPrepareContextLimits env self hist).1
        (afterPrepareContextLimits env self hist).2 := by
  simp only [getMapConfig, h1, h2, Option.isSome_none, Bool.or_self, Bool.false_eq_true, if_false]
  rfl

theorem afterGetTemplate_ok {env : Env} {self : Provider} {hist : History} {tpl : Template}
    {authorized : JSValue} {db : DatabaseParams} {apiKey templateParams : JSValue}
    {doc out : MapConfigDocument} {context : Context} {limits : JSValue}
    (h : Succeeds env self hist tpl authorized db apiKey templateParams doc out context limits) :
    afterGetTemplate env self hist =
      (.ok (.value tpl),
        { startRun self hist with
          self := { self with err := none, template := .value tpl }
          hist := hist ++ [Call.getTemplate self.owner self.templateName] ++
            [Call.isAuthorized tpl self.authToken] }) := by
  simp only [afterGetTemplate, stepGetTemplate, startRun,
    getTemplate_run env self hist h.err_none h.template_null, h.answers.store,
    checkExists, checkAuthorized, h.answers.authorize, h.answers.truthy, cacheAndReturnTemplate]
  rfl

theorem afterPrepareDbParams_ok {env : Env} {self : Provider} {hist : History} {tpl : Template}
    {authorized : JSValue} {db : DatabaseParams} {apiKey templateParams : JSValue}
    {doc out : MapConfigDocument} {context : Context} {limits : JSValue}
    (h : Succeeds env self hist tpl authorized db apiKey templateParams doc out context limits) :
    afterPrepareDbParams env self hist =
      (.ok (),
        { startRun self hist with
          self := { self with err := none, template := .value tpl }
          rendererParams := .value (resolvedParams self db)
          hist := hist ++ [Call.getTemplate self.owner self.templateName] ++
            [Call.isAuthorized tpl self.authToken] ++ [Call.getDatabaseParams self.owner] }) := by
  simp only [afterPrepareDbParams, afterGetTemplate_ok h, prepareDbParams, setDBParams, startRun,
    h.answers.database]
  rfl

theorem afterGetUserApiKey_ok {env : Env} {self : Provider} {hist : History} {tpl : Template}
    {authorized : JSValue} {db : DatabaseParams} {apiKey templateParams : JSValue}
    {doc out : MapConfigDocument} {context : Context} {limits : JSValue}
    (h : Succeeds env self hist tpl authorized db apiKey templateParams doc out context limits) :
    afterGetUserApiKey env self hist =
      (.ok apiKey,
        { startRun self hist with
          self := { self with err := none, template := .value tpl }
          rendererParams := .value (resolvedParams self db)
          hist := hist ++ [Call.getTemplate self.owner self.templateName] ++
            [Call.isAuthorized tpl self.authToken] ++ [Call.getDatabaseParams self.owner] ++
            [Call.getUserMapKey self.owner] }) := by
  simp only [afterGetUserApiKey, afterPrepareDbParams_ok h, getUserApiKey, startRun, h.answers.key]

theorem afterPrepareParams_ok {env : Env} {self : Provider} {hist : History} {tpl : Template}
    {authorized : JSValue} {db : DatabaseParams} {apiKey templateParams : JSValue}
    {doc out : MapConfigDocument} {context : Context} {limits : JSValue}
    (h : Succeeds env self hist tpl authorized db apiKey templateParams doc out context limits) :
    afterPrepareParams env self hist =
      (.ok templateParams,
        { startRun self hist with
          self := { self with err := none, template := .value tpl }
          rendererParams := .value (resolvedParams self db)
          apiKey := apiKey
          hist := hist ++ [Call.getTemplate self.owner self.templateName] ++
            [Call.isAuthorized tpl self.authToken] ++ [Call.getDatabaseParams self.owner] ++
            [Call.getUserMapKey self.owner] }) := by
  simp only [afterPrepareParams, afterGetUserApiKey_ok h, prepareParams, startRun, h.answers.parsed]

theorem afterInstantiateTemplate_ok {env : Env} {self : Provider} {hist : History}
    {tpl : Template} {authorized : JSValue} {db : DatabaseParams}
    {apiKey templateParams : JSValue} {doc out : MapConfigDocument} {context : Context}
    {limits : JSValue}
    (h : Succeeds env self hist tpl authorized db apiKey templateParams doc out context limits) :
    afterInstantiateTemplate env self hist =
      (.ok doc,
        { startRun self hist with
          self := { self with err := none, template := .value tpl }
          rendererParams := .value (resolvedParams self db)
          apiKey := apiKey
          context := { Context.empty with templateParams := templateParams }
          hist := hist ++ [Call.getTemplate self.owner self.templateName] ++
            [Call.isAuthorized tpl self.authToken] ++ [Call.getDatabaseParams self.owner] ++
            [Call.getUserMapKey self.owner] ++
            [Call.templateInstance (.value tpl) templateParams] }) := by
  simp only [afterInstantiateTemplate, afterPrepareParams_ok h, instantiateTemplate, startRun,
    h.answers.instantiated]

theorem afterPrepareAdapterMapConfig_ok {env : Env} {self : Provider} {hist : History}
    {tpl : Template} {authorized : JSValue} {db : DatabaseParams}
    {apiKey templateParams : JSValue} {doc out : MapConfigDocument} {context : Context}
    {limits : JSValue}
    (h : Succeeds env self hist tpl authorized db apiKey templateParams doc out context limits) :
    afterPrepareAdapterMapConfig env self hist =
      (.ok out,
        { startRun self hist with
          self := { self with err := none, template := .value tpl }
          rendererParams := .value (resolvedParams self db)
          apiKey := apiKey
          context := context
          hist := hist ++ [Call.getTemplate self.owner self.templateName] ++
            [Call.isAuthorized tpl self.authToken] ++ [Call.getDatabaseParams self.owner] ++
            [Call.getUserMapKey self.owner] ++
            [Call.templateInstance (.value tpl) templateParams] ++
            [Call.adapterGetMapConfig self.owner doc (resolvedParams self db)
              (adapterContext self (resolvedParams self db) apiKey templateParams)] }) := by
  have ha := h.answers.adapted
  simp only [adapterContext] at ha
  simp only [afterPrepareAdapterMapConfig, afterInstantiateTemplate_ok h,
    prepareAdapterMapConfig, startRun, adapterContext, ha]

theorem afterPrepareContextLimits_ok {env : Env} {self : Provider} {hist : History}
    {tpl : Template} {authorized : JSValue} {db : DatabaseParams}
    {apiKey templateParams : JSValue} {doc out : MapConfigDocument} {context : Context}
    {limits : JSValue}
    (h : Succeeds env self hist tpl authorized db apiKey templateParams doc out context limits) :
    afterPrepareContextLimits env self hist =
      (.ok limits,
        { startRun self hist with
          self := { self with err := none, template := .value tpl }
          mapConfig := some out
          rendererParams := .value (resolvedParams self db)
          apiKey := apiKey
          context := context
          hist := hist ++ successCalls self tpl db apiKey templateParams doc }) := by
  have hl := h.answers.limited
  simp only [adapterContext] at hl
  simp only [afterPrepareContextLimits, afterPrepareAdapterMapConfig_ok h,
    prepareContextLimits, startRun, adapterContext, hl]
  simp [successCalls, adapterContext]

theorem getMapConfig_success {env : Env} {self : Provider} {hist : History}
    {tpl : Template} {authorized : JSValue} {db : DatabaseParams}
    {apiKey templateParams : JSValue} {doc out : MapConfigDocument} {context : Context}
    {limits : JSValue}
    (h : Succeeds env self hist tpl authorized db apiKey templateParams doc out context limits) :
    getMapConfig env self hist =
      (⟨none, some ⟨out, context.datasource⟩, .value (resolvedParams self db),
          { context with limits := jsOr limits (.obj []) }⟩,
        resolvedProvider self tpl db out context limits,
        hist ++ successCalls self tpl db apiKey templateParams doc) := by
  rw [getMapConfig_run env self hist h.err_none h.mapConfig_none, afterPrepareContextLimits_ok h]
  rfl

/-! ## The chain of getMapConfig: errors travel to the last step -/

theorem getUserApiKey_self (env : Env) (args : Except JSError Unit) (run : Run) :
    (getUserApiKey env args run).2.self = run.self ∧
      (getUserApiKey env args run).2.mapConfig = run.mapConfig := by
  cases args <;> exact ⟨rfl, rfl⟩

theorem prepareParams_self (env : Env) (args : Except JSError JSValue) (run : Run) :
    (prepareParams env args run).2.self = run.self ∧
      (prepareParams env args run).2.mapConfig = run.mapConfig ∧
      (prepareParams env args run).2.hist = run.hist := by
  cases args <;> exact ⟨rfl, rfl, rfl⟩

theorem instantiateTemplate_self (env : Env) (args : Except JSError JSValue) (run : Run) :
    (instantiateTemplate env args run).2.self = run.self ∧
      (instantiateTemplate env args run).2.mapConfig = run.mapConfig := by
  cases args <;> exact ⟨rfl, rfl⟩

theorem prepareAdapterMapConfig_self (env : Env) (args : Except JSError MapConfigDocument)
    (run : Run) :
    (prepareAdapterMapConfig env args run).2.self = run.self ∧
      (prepareAdapterMapConfig env args run).2.mapConfig = run.mapConfig := by
  cases args with
  | error e => exact ⟨rfl, rfl⟩
  | ok doc =>
    simp only [prepareAdapterMapConfig]
    cases run.rendererParams <;> exact ⟨rfl, rfl⟩

theorem prepareContextLimits_self (env : Env) (args : Except JSError MapConfigDocument)
    (run : Run) : (prepareContextLimits env args run).2.self = run.self := by
  cases args <;> rfl

theorem prepareDbParams_mapConfig (env : Env) (args : Except JSError (Slot Template))
    (run : Run) : (prepareDbParams env args run).2.mapConfig = run.mapConfig := by
  cases args <;> rfl

theorem prepareDbParams_template (env : Env) (tpl : Slot Template) (run : Run) :
    (prepareDbParams env (.ok tpl) run).2.self.template = tpl := rfl

theorem prepareDbParams_err (env : Env) (args : Except JSError (Slot Template)) (run : Run) :
    (prepareDbParams env args run).2.self.err = run.self.err := by
  cases args <;> rfl

theorem afterPrepareAdapterMapConfig_mapConfig (env : Env) (self : Provider) (hist : History) :
    (afterPrepareAdapterMapConfig env self hist).2.mapConfig = none := by
  simp only [afterPrepareAdapterMapConfig, afterInstantiateTemplate, afterPrepareParams,
    afterGetUserApiKey, afterPrepareDbParams,
    (prepareAdapterMapConfig_self _ _ _).2, (instantiateTemplate_self _ _ _).2,
    (prepareParams_self _ _ _).2.1, (getUserApiKey_self _ _ _).2, prepareDbParams_mapConfig]
  rfl

theorem afterPrepareContextLimits_self (env : Env) (self : Provider) (hist : History) :
    (afterPrepareContextLimits env self hist).2.self =
      (afterPrepareDbParams env self hist).2.self := by
  simp only [afterPrepareContextLimits, afterPrepareAdapterMapConfig, afterInstantiateTemplate,
    afterPrepareParams, afterGetUserApiKey, prepareContextLimits_self,
    (prepareAdapterMapConfig_self _ _ _).1, (instantiateTemplate_self _ _ _).1,
    (prepareParams_self _ _ _).1, (getUserApiKey_self _ _ _).1]

theorem chain_error_adapter (env : Env) (self : Provider) (hist : History) (e : JSError)
    (h : (afterPrepareAdapterMapConfig env self hist).1 = .error e) :
    afterPrepareContextLimits env self hist =
      (.error e, (afterPrepareAdapterMapConfig env self hist).2) := by
  simp only [afterPrepareContextLimits, h, prepareContextLimits]

theorem chain_error_instantiate (env : Env) (self : Provider) (hist : History) (e : JSError)
    (h : (afterInstantiateTemplate env self hist).1 = .error e) :
    afterPrepareContextLimits env self hist =
      (.error e, (afterInstantiateTemplate env self hist).2) := by
  have h2 : afterPrepareAdapterMapConfig env self hist =
      (.error e, (afterInstantiateTemplate env self hist).2) := by
    simp only [afterPrepareAdapterMapConfig, h, prepareAdapterMapConfig]
  rw [chain_error_adapter env self hist e (by rw [h2]), h2]

theorem chain_error_params (env : Env) (self : Provider) (hist : History) (e : JSError)
    (h : (afterPrepareParams env self hist).1 = .error e) :
    afterPrepareContextLimits env self hist =
      (.error e, (afterPrepareParams env self hist).2) := by
  have h2 : afterInstantiateTemplate env self hist =
      (.error e, (afterPrepareParams env self hist).2) := by
    simp only [afterInstantiateTemplate, h, instantiateTemplate]
  rw [chain_error_instantiate env self hist e (by rw [h2]), h2]

theorem chain_error_apiKey (env : Env) (self : Provider) (hist : History) (e : JSError)
    (h : (afterGetUserApiKey env self hist).1 = .error e) :
    afterPrepareContextLimits env self hist =
      (.error e, (afterGetUserApiKey env self hist).2) := by
  have h2 : afterPrepareParams env self hist =
      (.error e, (afterGetUserApiKey env self hist).2) := by
    simp only [afterPrepareParams, h, prepareParams]
  rw [chain_error_params env self hist e (by rw [h2]), h2]

theorem chain_error_dbParams (env : Env) (self : Provider) (hist : History) (e : JSError)
    (h : (afterPrepareDbParams env self hist).1 = .error e) :
    afterPrepareContextLimits env self hist =
      (.error e, (afterPrepareDbParams env self hist).2) := by
  have h2 : afterGetUserApiKey env self hist =
      (.error e, (afterPrepareDbParams env self hist).2) := by
    simp only [afterGetUserApiKey, h, getUserApiKey]
  rw [chain_error_apiKey env self hist e (by rw [h2]), h2]

theorem chain_error_template (env : Env) (self : Provider) (hist : History) (e : JSError)
    (h : (afterGetTemplate env self hist).1 = .error e) :
    afterPrepareContextLimits env self hist =
      (.error e, (afterGetTemplate env self hist).2) := by
  have h2 : afterPrepareDbParams env self hist =
      (.error e, (afterGetTemplate env self hist).2) := by
    simp only [afterPrepareDbParams, h, prepareDbParams]
  rw [chain_error_dbParams env self hist e (by rw [h2]), h2]

theorem afterGetTemplate_fst (env : Env) (self : Provider) (hist : History) :
    (afterGetTemplate env self hist).1 =
      (match (getTemplate env self hist).1.err with
        | some err => .error err
        | none => .ok (getTemplate env self hist).1.template) ∧
    (afterGetTemplate env self hist).2.self = (getTemplate env self hist).2.1 ∧
    (afterGetTemplate env self hist).2.hist = (getTemplate env self hist).2.2 ∧
    (afterGetTemplate env self hist).2.mapConfig = none :=
  ⟨rfl, rfl, rfl, rfl⟩

/-- What a failed chain leaves: the error, no MapConfig, and the history of the failing
step. -/
theorem failed_chain (env : Env) (self : Provider) (hist : History) (e : JSError) (run : Run)
    (h1 : self.err = none) (h2 : self.mapConfig = none)
    (hc : afterPrepareContextLimits env self hist = (.error e, run))
    (hm : run.mapConfig = none) :
    (getMapConfig env self hist).1.err = some e ∧
      (getMapConfig env self hist).1.mapConfig = none ∧
      (getMapConfig env self hist).2.1.err = some e ∧
      (getMapConfig env self hist).2.1.mapConfig = none ∧
      (getMapConfig env self hist).2.2 = run.hist := by
  rw [getMapConfig_run env self hist h1 h2, hc]
  simp [cacheAndReturnMapConfig, hm]

/-! ## Memoization: C10 -/

theorem cacheAndReturnMapConfig_template (args : Except JSError JSValue) (run : Run) :
    (cacheAndReturnMapConfig args run).2.1.template = run.self.template ∧
      (cacheAndReturnMapConfig args run).2.1.err =
        (match args with
          | .error e => some e
          | .ok _ => none) := ⟨rfl, rfl⟩

theorem getMapConfig_template_settled (env : Env) (self : Provider) (hist : History)
    (hinv : self.mapConfig.isSome = true → (self.err.isSome || self.template.notNull) = true) :
    ((getMapConfig env self hist).2.1.err.isSome ||
      (getMapConfig env self hist).2.1.template.notNull) = true := by
  by_cases h : (self.err.isSome || self.mapConfig.isSome) = true
  · rw [getMapConfig_memo env self hist h]
    show (self.err.isSome || self.template.notNull) = true
    cases he : self.err.isSome with
    | true => rfl
    | false =>
      rw [he] at h
      have h3 := hinv (by simpa using h)
      rw [he] at h3
      exact h3
  · have h1 : self.err = none := by
      cases he : self.err with
      | none => rfl
      | some e => simp [he] at h
    have h2 : self.mapConfig = none := by
      cases hm : self.mapConfig with
      | none => rfl
      | some m => simp [hm] at h
    rw [getMapConfig_run env self hist h1 h2, (cacheAndReturnMapConfig_template _ _).1,
      (cacheAndReturnMapConfig_template _ _).2, afterPrepareContextLimits_self]
    obtain ⟨f1, -, -, -⟩ := afterGetTemplate_fst env self hist
    cases hE : (getTemplate env self hist).1.err with
    | some e =>
      rw [hE] at f1
      rw [chain_error_template env self hist e f1]
      rfl
    | none =>
      rw [hE] at f1
      have hn := getTemplate_ok_notNull env self hist hE
      simp only [afterPrepareDbParams, f1, prepareDbParams_template, hn, Bool.or_true]

theorem runLater_fixed (state : Provider × History) (call : LaterCall)
    (h1 : (state.1.err.isSome || state.1.mapConfig.isSome) = true)
    (h2 : (state.1.err.isSome || state.1.template.notNull) = true) :
    runLater state call = state := by
  cases call with
  | getMapConfig env => simp only [runLater, getMapConfig_memo env _ _ h1]
  | getTemplate env => simp only [runLater, getTemplate_memo env _ _ h2]

theorem foldl_runLater_fixed (later : List LaterCall) (state : Provider × History)
    (h1 : (state.1.err.isSome || state.1.mapConfig.isSome) = true)
    (h2 : (state.1.err.isSome || state.1.template.notNull) = true) :
    later.foldl runLater state = state := by
  induction later with
  | nil => rfl
  | cons call rest ih => rw [List.foldl_cons, runLater_fixed state call h1 h2, ih]

/-- C10. After `getMapConfig` has completed once on a provider, with a MapConfig or with
an error, either `err` is set or `mapConfig` is non-null, and every later `getMapConfig` call,
absent `reset()` and whatever `getMapConfig` and `getTemplate` calls came in between, calls
back with the same (err, mapConfig, rendererParams, context) and leaves the history of
collaborator calls as the first call left it. The provider starts in a state that the
methods can produce: a memoized MapConfig comes with its template. -/
theorem getMapConfig_memoized (env : Env) (self : Provider) (hist : History)
    (later : List LaterCall) (env2 : Env)
    (hinv : self.mapConfig.isSome = true → (self.err.isSome || self.template.notNull) = true) :
    ((getMapConfig env self hist).1.err.isSome = true ∨
      (getMapConfig env self hist).1.mapConfig.isSome = true) ∧
    later.foldl runLater (getMapConfig env self hist).2 = (getMapConfig env self hist).2 ∧
    getMapConfig env2 (later.foldl runLater (getMapConfig env self hist).2).1
      (later.foldl runLater (getMapConfig env self hist).2).2 = getMapConfig env self hist := by
  obtain ⟨h1, h2⟩ := getMapConfig_settled env self hist
  have h3 := getMapConfig_template_settled env self hist hinv
  have hf := foldl_runLater_fixed later (getMapConfig env self hist).2 h1 h3
  refine ⟨?_, hf, ?_⟩
  · rw [h2]
    simpa using h1
  · rw [hf]
    exact getMapConfig_again env env2 self hist

theorem exampleSucceeds :
    Succeeds exampleEnv authProvider [] exampleTemplate (.bool true) exampleDb (.str "1234")
      (configX 1) exampleDoc exampleDoc
      { adapterContext authProvider (resolvedParams authProvider exampleDb) (.str "1234")
          (configX 1) with datasource := .obj [("ds", .nat 1)] }
      (.obj [("timeout", .nat 5)]) :=
  ⟨rfl, rfl, rfl, ⟨rfl, rfl, rfl, rfl, rfl, rfl, rfl, rfl, rfl⟩⟩

theorem getMapConfig_memoized_witness :
    (authProvider.mapConfig.isSome = true →
      (authProvider.err.isSome || authProvider.template.notNull) = true) ∧
    (getMapConfig exampleEnv authProvider []).1.mapConfig.isSome = true ∧
    getMapConfig failingEnv
      ([LaterCall.getTemplate failingEnv, LaterCall.getMapConfig failingEnv].foldl runLater
        (getMapConfig exampleEnv authProvider []).2).1
      ([LaterCall.getTemplate failingEnv, LaterCall.getMapConfig failingEnv].foldl runLater
        (getMapConfig exampleEnv authProvider []).2).2 = getMapConfig exampleEnv authProvider [] :=
  ⟨by decide,
    (by rw [getMapConfig_success exampleSucceeds]; rfl),
    (getMapConfig_memoized exampleEnv authProvider []
      [LaterCall.getTemplate failingEnv, LaterCall.getMapConfig failingEnv] failingEnv
      (by decide)).2.2⟩
/-! ## Reset and the order of the steps: C12, C13, C14 -/

/-- C12. After `reset()` nothing is memoized, whatever the previous resolution left, and
the next `getMapConfig` call runs the whole chain again: when every step succeeds it calls
`templateMaps.getTemplate`, `isAuthorized`, `getDatabaseParams`, `getUserMapKey`,
`templateMaps.instance`, the adapter and `getRenderLimits` once each. -/
theorem getMapConfig_after_reset (env : Env) (self : Provider) (hist : History) (now : Nat)
    (tpl : Template) (authorized : JSValue) (db : DatabaseParams)
    (apiKey templateParams : JSValue) (doc out : MapConfigDocument) (context : Context)
    (limits : JSValue)
    (h : Answers env (reset self now) hist tpl authorized db apiKey templateParams doc out
      context limits) :
    ((reset self now).err = none ∧ (reset self now).template = .null ∧
      (reset self now).mapConfig = none) ∧
    (getMapConfig env (reset self now) hist).2.2 =
      hist ++
        [Call.getTemplate self.owner self.templateName,
         Call.isAuthorized tpl self.authToken,
         Call.getDatabaseParams self.owner,
         Call.getUserMapKey self.owner,
         Call.templateInstance (.value tpl) templateParams,
         Call.adapterGetMapConfig self.owner doc (resolvedParams self db)
           (adapterContext self (resolvedParams self db) apiKey templateParams),
         Call.getRenderLimits self.owner (self.params.get "api_key")] ∧
    (getMapConfig env (reset self now) hist).1 =
      ⟨none, some ⟨out, context.datasource⟩, .value (resolvedParams self db),
        { context with limits := jsOr limits (.obj []) }⟩ := by
  have hs : Succeeds env (reset self now) hist tpl authorized db apiKey templateParams doc out
      context limits := ⟨rfl, rfl, rfl, h⟩
  rw [getMapConfig_success hs]
  exact ⟨⟨rfl, rfl, rfl⟩, rfl, rfl⟩

theorem getMapConfig_after_reset_witness :
    Answers exampleEnv (reset (getMapConfig failingEnv authProvider []).2.1 2000)
      [Call.getTemplate "u1" "t1"] exampleTemplate (.bool true) exampleDb (.str "1234")
      (configX 1) exampleDoc exampleDoc
      { adapterContext authProvider (resolvedParams authProvider exampleDb) (.str "1234")
          (configX 1) with datasource := .obj [("ds", .nat 1)] }
      (.obj [("timeout", .nat 5)]) ∧
    (getMapConfig failingEnv authProvider []).1.err = some ⟨"store down", none⟩ ∧
    (getMapConfig exampleEnv (reset (getMapConfig failingEnv authProvider []).2.1 2000)
        [Call.getTemplate "u1" "t1"]).2.2 =
      [Call.getTemplate "u1" "t1"] ++
        [Call.getTemplate "u1" "t1",
         Call.isAuthorized exampleTemplate (some "valid1"),
         Call.getDatabaseParams "u1",
         Call.getUserMapKey "u1",
         Call.templateInstance (.value exampleTemplate) (configX 1),
         Call.adapterGetMapConfig "u1" exampleDoc (resolvedParams authProvider exampleDb)
           (adapterContext authProvider (resolvedParams authProvider exampleDb) (.str "1234")
             (configX 1)),
         Call.getRenderLimits "u1" .undefined] :=
  ⟨⟨rfl, rfl, rfl, rfl, rfl, rfl, rfl, rfl, rfl⟩, rfl,
    (getMapConfig_after_reset exampleEnv (getMapConfig failingEnv authProvider []).2.1
      [Call.getTemplate "u1" "t1"] 2000 exampleTemplate (.bool true) exampleDb (.str "1234")
      (configX 1) exampleDoc exampleDoc _ (.obj [("timeout", .nat 5)])
      ⟨rfl, rfl, rfl, rfl, rfl, rfl, rfl, rfl, rfl⟩).2.1⟩

/-- C13, as stated, fails: after a successful resolution `reset()` leaves `rendererParams`
and `context` as the resolution set them; they are not cleared. -/
theorem reset_counterexample :
    (reset (getMapConfig exampleEnv authProvider []).2.1 2000).rendererParams =
      .value (resolvedParams authProvider exampleDb) ∧
    (reset (getMapConfig exampleEnv authProvider []).2.1 2000).context.limits =
      .obj [("timeout", .nat 5)] ∧
    (reset (getMapConfig exampleEnv authProvider []).2.1 2000).context.datasource =
      .obj [("ds", .nat 1)] ∧
    authProvider.rendererParams = .null ∧ authProvider.context.limits = .undefined := by
  rw [getMapConfig_success exampleSucceeds]
  exact ⟨rfl, rfl, rfl, rfl, rfl⟩

/-- C13, amended. `reset()` sets `template`, `err` and `mapConfig` (and `affectedTables`)
to null and takes a new cache buster; it leaves `rendererParams`, `context` and
`analysesResults` as they are, and it leaves owner, templateName, config, authToken and
params unchanged. -/
theorem reset_frame (self : Provider) (now : Nat) :
    ((reset self now).template = .null ∧ (reset self now).err = none ∧
      (reset self now).mapConfig = none ∧ (reset self now).affectedTables = .null ∧
      (reset self now).cacheBuster = now) ∧
    ((reset self now).rendererParams = self.rendererParams ∧
      (reset self now).context = self.context ∧
      (reset self now).analysesResults = self.analysesResults) ∧
    ((reset self now).owner = self.owner ∧ (reset self now).templateName = self.templateName ∧
      (reset self now).config = self.config ∧ (reset self now).authToken = self.authToken ∧
      (reset self now).params = self.params) :=
  ⟨⟨rfl, rfl, rfl, rfl, rfl⟩, ⟨rfl, rfl, rfl⟩, ⟨rfl, rfl, rfl, rfl, rfl⟩⟩

/-- C14. On a first resolution in which every collaborator succeeds, `getMapConfig` calls
the collaborators in this order, each exactly once: `templateMaps.getTemplate`,
`templateMaps.isAuthorized`, `getDatabaseParams`, `getUserMapKey`, `templateMaps.instance`,
`mapConfigAdapter.getMapConfig`, `getRenderLimits`; `instance` receives the fetched template
and the parsed config, and the adapter receives the owner, the document returned by
`instance`, rendererParams and the context. -/
theorem getMapConfig_order (env : Env) (self : Provider) (hist : History)
    (tpl : Template) (authorized : JSValue) (db : DatabaseParams)
    (apiKey templateParams : JSValue) (doc out : MapConfigDocument) (context : Context)
    (limits : JSValue)
    (h : Succeeds env self hist tpl authorized db apiKey templateParams doc out context limits) :
    (getMapConfig env self hist).2.2 =
      hist ++
        [Call.getTemplate self.owner self.templateName,
         Call.isAuthorized tpl self.authToken,
         Call.getDatabaseParams self.owner,
         Call.getUserMapKey self.owner,
         Call.templateInstance (.value tpl) templateParams,
         Call.adapterGetMapConfig self.owner doc (resolvedParams self db)
           (adapterContext self (resolvedParams self db) apiKey templateParams),
         Call.getRenderLimits self.owner (self.params.get "api_key")] ∧
    templateParamsOf env self.config = .ok templateParams ∧
    (adapterContext self (resolvedParams self db) apiKey templateParams).templateParams =
      templateParams := by
  rw [getMapConfig_success h]
  exact ⟨rfl, h.answers.parsed, rfl⟩

theorem getMapConfig_order_witness :
    (getMapConfig exampleEnv authProvider []).2.2 =
      [] ++
        [Call.getTemplate "u1" "t1",
         Call.isAuthorized exampleTemplate (some "valid1"),
         Call.getDatabaseParams "u1",
         Call.getUserMapKey "u1",
         Call.templateInstance (.value exampleTemplate) (configX 1),
         Call.adapterGetMapConfig "u1" exampleDoc (resolvedParams authProvider exampleDb)
           (adapterContext authProvider (resolvedParams authProvider exampleDb) (.str "1234")
             (configX 1)),
         Call.getRenderLimits "u1" .undefined] :=
  (getMapConfig_order exampleEnv authProvider [] exampleTemplate (.bool true) exampleDb
    (.str "1234") (configX 1) exampleDoc exampleDoc _ (.obj [("timeout", .nat 5)])
    exampleSucceeds).1

/-! ## Memoization of the template: C11 -/

theorem addsNoLookup_refl (hist : History) : AddsNoLookup hist hist :=
  ⟨[], by simp, by simp⟩

theorem addsNoLookup_snoc {a b : History} (h : AddsNoLookup a b) (call : Call)
    (hc : call.isTemplateLookup = false) : AddsNoLookup a (b ++ [call]) := by
  obtain ⟨added, rfl, hs⟩ := h
  refine ⟨added ++ [call], by simp, ?_⟩
  intro c hmem
  rcases List.mem_append.1 hmem with hmem | hmem
  · exact hs c hmem
  · rw [List.mem_singleton.1 hmem]
    exact hc

theorem addsNoLookup_trans {a b c : History} (h1 : AddsNoLookup a b) (h2 : AddsNoLookup b c) :
    AddsNoLookup a c := by
  obtain ⟨added1, rfl, hs1⟩ := h1
  obtain ⟨added2, rfl, hs2⟩ := h2
  refine ⟨added1 ++ added2, by simp, ?_⟩
  intro call hc
  rcases List.mem_append.1 hc with hc | hc
  · exact hs1 call hc
  · exact hs2 call hc

theorem prepareDbParams_noLookup (env : Env) (args : Except JSError (Slot Template))
    (run : Run) : AddsNoLookup run.hist (prepareDbParams env args run).2.hist := by
  cases args with
  | error e => exact addsNoLookup_refl run.hist
  | ok tpl =>
    simp only [prepareDbParams, setDBParams]
    cases env.pgConnection.getDatabaseParams run.hist run.self.owner <;>
      exact addsNoLookup_snoc (addsNoLookup_refl run.hist) _ rfl

theorem getUserApiKey_noLookup (env : Env) (args : Except JSError Unit) (run : Run) :
    AddsNoLookup run.hist (getUserApiKey env args run).2.hist := by
  cases args with
  | error e => exact addsNoLookup_refl run.hist
  | ok u => exact addsNoLookup_snoc (addsNoLookup_refl run.hist) _ rfl

theorem instantiateTemplate_noLookup (env : Env) (args : Except JSError JSValue) (run : Run) :
    AddsNoLookup run.hist (instantiateTemplate env args run).2.hist := by
  cases args with
  | error e => exact addsNoLookup_refl run.hist
  | ok v => exact addsNoLookup_snoc (addsNoLookup_refl run.hist) _ rfl

theorem prepareAdapterMapConfig_noLookup (env : Env) (args : Except JSError MapConfigDocument)
    (run : Run) : AddsNoLookup run.hist (prepareAdapterMapConfig env args run).2.hist := by
  cases args with
  | error e => exact addsNoLookup_refl run.hist
  | ok doc =>
    simp only [prepareAdapterMapConfig]
    cases run.rendererParams with
    | null => exact addsNoLookup_refl run.hist
    | undefined => exact addsNoLookup_refl run.hist
    | value rp => exact addsNoLookup_snoc (addsNoLookup_refl run.hist) _ rfl

theorem prepareContextLimits_noLookup (env : Env) (args : Except JSError MapConfigDocument)
    (run : Run) : AddsNoLookup run.hist (prepareContextLimits env args run).2.hist := by
  cases args with
  | error e => exact addsNoLookup_refl run.hist
  | ok doc => exact addsNoLookup_snoc (addsNoLookup_refl run.hist) _ rfl

theorem chain_noLookup (env : Env) (self : Provider) (hist : History) :
    AddsNoLookup (afterGetTemplate env self hist).2.hist
      (afterPrepareContextLimits env self hist).2.hist := by
  have h4 : (afterPrepareParams env self hist).2.hist =
      (afterGetUserApiKey env self hist).2.hist := by
    simp only [afterPrepareParams, (prepareParams_self _ _ _).2.2]
  have s1 := prepareDbParams_noLookup env (afterGetTemplate env self hist).1
    (afterGetTemplate env self hist).2
  have s2 := getUserApiKey_noLookup env (afterPrepareDbParams env self hist).1
    (afterPrepareDbParams env self hist).2
  have s3 := instantiateTemplate_noLookup env (afterPrepareParams env self hist).1
    (afterPrepareParams env self hist).2
  rw [h4] at s3
  have s4 := prepareAdapterMapConfig_noLookup env (afterInstantiateTemplate env self hist).1
    (afterInstantiateTemplate env self hist).2
  have s5 := prepareContextLimits_noLookup env (afterPrepareAdapterMapConfig env self hist).1
    (afterPrepareAdapterMapConfig env self hist).2
  exact addsNoLookup_trans (addsNoLookup_trans (addsNoLookup_trans
    (addsNoLookup_trans s1 s2) s3) s4) s5

/-- What a `getMapConfig` call does to a provider whose template is settled: the template
stays, no template lookup is made, and a memoized error keeps everything as it is. -/
theorem getMapConfig_keeps_template (env : Env) (self : Provider) (hist : History)
    (hg : (self.err.isSome || self.template.notNull) = true) :
    (getMapConfig env self hist).2.1.template = self.template ∧
    ((getMapConfig env self hist).2.1.err.isSome ||
      (getMapConfig env self hist).2.1.template.notNull) = true ∧
    AddsNoLookup hist (getMapConfig env self hist).2.2 ∧
    (self.err.isSome = true → (getMapConfig env self hist).2 = (self, hist)) ∧
    (getMapConfig env self hist).1.err = (getMapConfig env self hist).2.1.err := by
  by_cases h : (self.err.isSome || self.mapConfig.isSome) = true
  · rw [getMapConfig_memo env self hist h]
    exact ⟨rfl, hg, addsNoLookup_refl hist, fun _ => rfl, rfl⟩
  · have h1 : self.err = none := by
      cases he : self.err with
      | none => rfl
      | some e => simp [he] at h
    have h2 : self.mapConfig = none := by
      cases hm : self.mapConfig with
      | none => rfl
      | some m => simp [hm] at h
    have hn : self.template.notNull = true := by
      rw [h1] at hg
      simpa using hg
    have hmemo := getTemplate_memo env self hist hg
    have hself : (afterPrepareDbParams env self hist).2.self.template = self.template := by
      simp only [afterPrepareDbParams, afterGetTemplate, stepGetTemplate, startRun, hmemo, h1]
      rfl
    have hhist : (afterGetTemplate env self hist).2.hist = hist := by
      simp only [afterGetTemplate, stepGetTemplate, startRun, hmemo]
    have htpl : (getMapConfig env self hist).2.1.template = self.template := by
      rw [getMapConfig_run env self hist h1 h2, (cacheAndReturnMapConfig_template _ _).1,
        afterPrepareContextLimits_self, hself]
    refine ⟨htpl, ?_, ?_, fun he => ?_, ?_⟩
    · rw [htpl, hn, Bool.or_true]
    · rw [getMapConfig_run env self hist h1 h2]
      have hc := chain_noLookup env self hist
      rw [hhist] at hc
      exact hc
    · rw [h1] at he
      cases he
    · rw [getMapConfig_run env self hist h1 h2]
      rfl

theorem runLater_keeps_template (state : Provider × History) (call : LaterCall)
    (hg : (state.1.err.isSome || state.1.template.notNull) = true) :
    (runLater state call).1.template = state.1.template ∧
    ((runLater state call).1.err.isSome || (runLater state call).1.template.notNull) = true ∧
    AddsNoLookup state.2 (runLater state call).2 ∧
    (state.1.err.isSome = true → runLater state call = state) ∧
    (call.isGetTemplate = true → runLater state call = state) ∧
    ((runLater state call).1.err = state.1.err ∨
      ∃ env, call = .getMapConfig env ∧
        (getMapConfig env state.1 state.2).1.err = (runLater state call).1.err ∧
        (runLater state call).1.err.isSome = true) := by
  cases call with
  | getTemplate env =>
    have hfix : runLater state (.getTemplate env) = state := by
      simp only [runLater, getTemplate_memo env _ _ hg]
    rw [hfix]
    exact ⟨rfl, hg, addsNoLookup_refl _, fun _ => rfl, fun _ => rfl, Or.inl rfl⟩
  | getMapConfig env =>
    obtain ⟨k1, k2, k3, k4, k5⟩ := getMapConfig_keeps_template env state.1 state.2 hg
    refine ⟨k1, k2, k3, k4, (fun hc => by simp [LaterCall.isGetTemplate] at hc), ?_⟩
    cases he : state.1.err with
    | some e =>
      have hfix := k4 (by rw [he]; rfl)
      left
      show (getMapConfig env state.1 state.2).2.1.err = some e
      rw [hfix]
      exact he
    | none =>
      have hrun : (runLater state (.getMapConfig env)).1.err =
          (getMapConfig env state.1 state.2).2.1.err := rfl
      cases hr : (getMapConfig env state.1 state.2).2.1.err with
      | none => exact Or.inl (by rw [hrun, hr])
      | some e2 =>
        right
        exact ⟨env, rfl, by rw [k5, hrun], by rw [hrun, hr]; rfl⟩

theorem foldl_runLater_keeps_template (later : List LaterCall) (state : Provider × History)
    (hg : (state.1.err.isSome || state.1.template.notNull) = true) :
    (later.foldl runLater state).1.template = state.1.template ∧
    ((later.foldl runLater state).1.err.isSome ||
      (later.foldl runLater state).1.template.notNull) = true ∧
    AddsNoLookup state.2 (later.foldl runLater state).2 ∧
    (state.1.err.isSome = true → later.foldl runLater state = state) ∧
    ((∀ call ∈ later, call.isGetTemplate = true) → later.foldl runLater state = state) ∧
    ((later.foldl runLater state).1.err = state.1.err ∨
      ∃ env provider hist, LaterCall.getMapConfig env ∈ later ∧
        (getMapConfig env provider hist).1.err = (later.foldl runLater state).1.err ∧
        (later.foldl runLater state).1.err.isSome = true) := by
  induction later generalizing state with
  | nil => exact ⟨rfl, hg, addsNoLookup_refl _, fun _ => rfl, fun _ => rfl, Or.inl rfl⟩
  | cons call rest ih =>
    obtain ⟨k1, k2, k3, k4, k5, k6⟩ := runLater_keeps_template state call hg
    obtain ⟨i1, i2, i3, i4, i5, i6⟩ := ih (runLater state call) k2
    rw [List.foldl_cons]
    refine ⟨by rw [i1, k1], i2, addsNoLookup_trans k3 i3, fun he => ?_, fun hall => ?_, ?_⟩
    · have hfix := k4 he
      rw [hfix] at i4 ⊢
      exact i4 he
    · have hfix := k5 (hall call (List.mem_cons_self _ _))
      rw [hfix] at i5 ⊢
      exact i5 fun c hc => hall c (List.mem_cons_of_mem _ hc)
    · rcases i6 with i6 | ⟨env, provider, hist, hmem, herr, hsome⟩
      · rcases k6 with k6 | ⟨env, hcall, herr, hsome⟩
        · exact Or.inl (by rw [i6, k6])
        · right
          exact ⟨env, state.1, state.2, by rw [hcall]; exact List.mem_cons_self _ _,
            by rw [herr, i6], by rw [i6]; exact hsome⟩
      · right
        exact ⟨env, provider, hist, List.mem_cons_of_mem _ hmem, herr, hsome⟩

/-- C11, as stated, fails: after a `getTemplate` call that handed back the template and no
error, a `getMapConfig` call that fails at `getDatabaseParams` sets the err of the provider,
and the next `getTemplate` call hands back that error together with the template. -/
theorem getTemplate_memoized_counterexample :
    (getTemplate exampleEnv authProvider []).1.err = none ∧
    (getTemplate exampleEnv
      (getMapConfig dbFailingEnv (getTemplate exampleEnv authProvider []).2.1
        (getTemplate exampleEnv authProvider []).2.2).2.1
      (getMapConfig dbFailingEnv (getTemplate exampleEnv authProvider []).2.1
        (getTemplate exampleEnv authProvider []).2.2).2.2).1.err =
      some ⟨"name not found", none⟩ ∧
    (getTemplate exampleEnv
      (getMapConfig dbFailingEnv (getTemplate exampleEnv authProvider []).2.1
        (getTemplate exampleEnv authProvider []).2.2).2.1
      (getMapConfig dbFailingEnv (getTemplate exampleEnv authProvider []).2.1
        (getTemplate exampleEnv authProvider []).2.2).2.2).1.template =
      (getTemplate exampleEnv authProvider []).1.template :=
  ⟨rfl, rfl, rfl⟩

/-- C11, amended. After `getTemplate` has completed once on a provider, with a template or
with an error, every later `getTemplate` call on that provider, absent `reset()` and whatever
`getMapConfig` and `getTemplate` calls came in between, leaves the provider and the history
as they are, so that neither `templateMaps.getTemplate` nor `templateMaps.isAuthorized` is
called again, by it or by the calls in between, and calls back with the same template. The
err it calls back with is the err of the provider: the same as the first time when that
was an error or when only `getTemplate` calls came in between, and otherwise either the
same or the error of a `getMapConfig` call that failed in between. -/
theorem getTemplate_memoized (env : Env) (self : Provider) (hist : History)
    (later : List LaterCall) (env2 : Env) :
    ((getTemplate env self hist).2.1.err.isSome = true ∨
      (getTemplate env self hist).2.1.template.notNull = true) ∧
    getTemplate env2 (later.foldl runLater (getTemplate env self hist).2).1
        (later.foldl runLater (getTemplate env self hist).2).2 =
      (⟨(later.foldl runLater (getTemplate env self hist).2).1.err,
          (getTemplate env self hist).1.template⟩,
        (later.foldl runLater (getTemplate env self hist).2).1,
        (later.foldl runLater (getTemplate env self hist).2).2) ∧
    AddsNoLookup (getTemplate env self hist).2.2
      (later.foldl runLater (getTemplate env self hist).2).2 ∧
    ((getTemplate env self hist).1.err.isSome = true →
      getTemplate env2 (later.foldl runLater (getTemplate env self hist).2).1
        (later.foldl runLater (getTemplate env self hist).2).2 = getTemplate env self hist) ∧
    ((∀ call ∈ later, call.isGetTemplate = true) →
      getTemplate env2 (later.foldl runLater (getTemplate env self hist).2).1
        (later.foldl runLater (getTemplate env self hist).2).2 = getTemplate env self hist) ∧
    ((later.foldl runLater (getTemplate env self hist).2).1.err =
        (getTemplate env self hist).1.err ∨
      ∃ env3 provider hist3, LaterCall.getMapConfig env3 ∈ later ∧
        (getMapConfig env3 provider hist3).1.err =
          (later.foldl runLater (getTemplate env self hist).2).1.err ∧
        (later.foldl runLater (getTemplate env self hist).2).1.err.isSome = true) := by
  obtain ⟨hg, hres⟩ := getTemplate_settled env self hist
  obtain ⟨i1, i2, i3, i4, i5, i6⟩ :=
    foldl_runLater_keeps_template later (getTemplate env self hist).2 hg
  have herr : (getTemplate env self hist).1.err = (getTemplate env self hist).2.1.err := by
    rw [hres]
  have htpl : (getTemplate env self hist).1.template =
      (getTemplate env self hist).2.1.template := by
    rw [hres]
  refine ⟨by simpa using hg, ?_, i3, fun he => ?_, fun hall => ?_, ?_⟩
  · rw [getTemplate_memo env2 _ _ i2, i1, htpl]
  · rw [i4 (by rw [← herr]; exact he)]
    exact getTemplate_again env env2 self hist
  · rw [i5 hall]
    exact getTemplate_again env env2 self hist
  · rw [herr]
    exact i6
/-! ## Fail fast: C15 -/

theorem AddsUpTo.refl (n : Nat) (hist : History) : AddsUpTo n hist hist :=
  ⟨[], by simp, by simp⟩

theorem AddsUpTo.snoc {n m : Nat} {a b : History} (h : AddsUpTo n a b) (call : Call)
    (hc : call.step ≤ m) (hnm : n ≤ m) : AddsUpTo m a (b ++ [call]) := by
  obtain ⟨added, rfl, hs⟩ := h
  refine ⟨added ++ [call], by simp, ?_⟩
  intro c hmem
  rw [List.mem_append] at hmem
  rcases hmem with hmem | hmem
  · exact Nat.le_trans (hs c hmem) hnm
  · simp only [List.mem_singleton] at hmem
    rw [hmem]
    exact hc

theorem AddsUpTo.mono {n m : Nat} {a b : History} (h : AddsUpTo n a b) (hnm : n ≤ m) :
    AddsUpTo m a b := by
  obtain ⟨added, rfl, hs⟩ := h
  exact ⟨added, rfl, fun c hc => Nat.le_trans (hs c hc) hnm⟩

theorem checkAuthorized_adds (env : Env) (self : Provider) (hist : History)
    (args : Except JSError Template) :
    AddsUpTo 2 hist (checkAuthorized env self hist args).2 := by
  cases args with
  | error e => exact AddsUpTo.refl 2 hist
  | ok tpl =>
    simp only [checkAuthorized]
    cases env.templateMaps.isAuthorized hist tpl self.authToken with
    | error e => exact (AddsUpTo.refl 2 hist).snoc _ (Nat.le_refl _) (Nat.le_refl 2)
    | ok v =>
      by_cases hv : v.truthy = true
      · simp only [hv, Bool.not_true, Bool.false_eq_true, if_false]
        exact (AddsUpTo.refl 2 hist).snoc _ (Nat.le_refl _) (Nat.le_refl 2)
      · simp only [hv, Bool.not_false, if_true]
        exact (AddsUpTo.refl 2 hist).snoc _ (Nat.le_refl _) (Nat.le_refl 2)

theorem getTemplate_adds (env : Env) (self : Provider) (hist : History) :
    AddsUpTo 2 hist (getTemplate env self hist).2.2 := by
  by_cases h : (self.err.isSome || self.template.notNull) = true
  · rw [getTemplate_memo env self hist h]
    exact AddsUpTo.refl 2 hist
  · simp only [getTemplate, h, if_false]
    obtain ⟨added, h1, h2⟩ := checkAuthorized_adds env self
      (hist ++ [Call.getTemplate self.owner self.templateName])
      (checkExists self (env.templateMaps.getTemplate hist self.owner self.templateName))
    refine ⟨Call.getTemplate self.owner self.templateName :: added, ?_, ?_⟩
    · rw [h1]
      simp
    · intro c hc
      rw [List.mem_cons] at hc
      rcases hc with hc | hc
      · rw [hc]
        exact Nat.le_succ 1
      · exact h2 c hc

theorem getTemplate_frame (env : Env) (self : Provider) (hist : History) :
    (getTemplate env self hist).2.1.owner = self.owner ∧
      (getTemplate env self hist).2.1.config = self.config ∧
      (getTemplate env self hist).2.1.params = self.params ∧
      (getTemplate env self hist).2.1.mapConfig = self.mapConfig := by
  by_cases h : (self.err.isSome || self.template.notNull) = true
  · rw [getTemplate_memo env self hist h]
    exact ⟨rfl, rfl, rfl, rfl⟩
  · simp only [getTemplate, h, if_false]
    generalize (checkAuthorized env self (hist ++ [Call.getTemplate self.owner self.templateName])
      (checkExists self (env.templateMaps.getTemplate hist self.owner self.templateName))).1 = r
    cases r <;> exact ⟨rfl, rfl, rfl, rfl⟩

theorem afterGetTemplate_adds (env : Env) (self : Provider) (hist : History) :
    AddsUpTo 2 hist (afterGetTemplate env self hist).2.hist :=
  getTemplate_adds env self hist

theorem prepareDbParams_adds (env : Env) (args : Except JSError (Slot Template)) (run : Run) :
    AddsUpTo 3 run.hist (prepareDbParams env args run).2.hist := by
  cases args with
  | error e => exact AddsUpTo.refl 3 run.hist
  | ok tpl =>
    simp only [prepareDbParams, setDBParams]
    cases env.pgConnection.getDatabaseParams run.hist run.self.owner <;>
      exact (AddsUpTo.refl 3 run.hist).snoc _ (Nat.le_refl _) (Nat.le_refl 3)

theorem AddsUpTo.trans {n m : Nat} {a b c : History} (h1 : AddsUpTo n a b)
    (h2 : AddsUpTo m b c) (hnm : n ≤ m) : AddsUpTo m a c := by
  obtain ⟨added1, rfl, hs1⟩ := h1
  obtain ⟨added2, rfl, hs2⟩ := h2
  refine ⟨added1 ++ added2, by simp, ?_⟩
  intro call hc
  rw [List.mem_append] at hc
  rcases hc with hc | hc
  · exact Nat.le_trans (hs1 call hc) hnm
  · exact hs2 call hc

theorem afterPrepareDbParams_adds (env : Env) (self : Provider) (hist : History) :
    AddsUpTo 3 hist (afterPrepareDbParams env self hist).2.hist :=
  (afterGetTemplate_adds env self hist).trans (prepareDbParams_adds env _ _) (by decide)

theorem getUserApiKey_adds (env : Env) (args : Except JSError Unit) (run : Run) :
    AddsUpTo 4 run.hist (getUserApiKey env args run).2.hist := by
  cases args with
  | error e => exact AddsUpTo.refl 4 run.hist
  | ok u => exact (AddsUpTo.refl 4 run.hist).snoc _ (Nat.le_refl _) (Nat.le_refl 4)

theorem afterGetUserApiKey_adds (env : Env) (self : Provider) (hist : History) :
    AddsUpTo 4 hist (afterGetUserApiKey env self hist).2.hist :=
  (afterPrepareDbParams_adds env self hist).trans (getUserApiKey_adds env _ _) (by decide)

theorem afterPrepareParams_adds (env : Env) (self : Provider) (hist : History) :
    AddsUpTo 4 hist (afterPrepareParams env self hist).2.hist := by
  have h := afterGetUserApiKey_adds env self hist
  simp only [afterPrepareParams, (prepareParams_self _ _ _).2.2]
  exact h

theorem instantiateTemplate_adds (env : Env) (args : Except JSError JSValue) (run : Run) :
    AddsUpTo 5 run.hist (instantiateTemplate env args run).2.hist := by
  cases args with
  | error e => exact AddsUpTo.refl 5 run.hist
  | ok v => exact (AddsUpTo.refl 5 run.hist).snoc _ (Nat.le_refl _) (Nat.le_refl 5)

theorem afterInstantiateTemplate_adds (env : Env) (self : Provider) (hist : History) :
    AddsUpTo 5 hist (afterInstantiateTemplate env self hist).2.hist :=
  (afterPrepareParams_adds env self hist).trans (instantiateTemplate_adds env _ _) (by decide)

theorem prepareAdapterMapConfig_adds (env : Env) (args : Except JSError MapConfigDocument)
    (run : Run) : AddsUpTo 6 run.hist (prepareAdapterMapConfig env args run).2.hist := by
  cases args with
  | error e => exact AddsUpTo.refl 6 run.hist
  | ok doc =>
    simp only [prepareAdapterMapConfig]
    cases run.rendererParams with
    | null => exact AddsUpTo.refl 6 run.hist
    | undefined => exact AddsUpTo.refl 6 run.hist
    | value rp => exact (AddsUpTo.refl 6 run.hist).snoc _ (Nat.le_refl _) (Nat.le_refl 6)

theorem afterPrepareAdapterMapConfig_adds (env : Env) (self : Provider) (hist : History) :
    AddsUpTo 6 hist (afterPrepareAdapterMapConfig env self hist).2.hist :=
  (afterInstantiateTemplate_adds env self hist).trans (prepareAdapterMapConfig_adds env _ _)
    (by decide)

theorem afterInstantiateTemplate_mapConfig (env : Env) (self : Provider) (hist : History) :
    (afterGetTemplate env self hist).2.mapConfig = none ∧
      (afterPrepareDbParams env self hist).2.mapConfig = none ∧
      (afterGetUserApiKey env self hist).2.mapConfig = none ∧
      (afterPrepareParams env self hist).2.mapConfig = none ∧
      (afterInstantiateTemplate env self hist).2.mapConfig = none := by
  have h1 : (afterGetTemplate env self hist).2.mapConfig = none := rfl
  have h2 : (afterPrepareDbParams env self hist).2.mapConfig = none := by
    simp only [afterPrepareDbParams, prepareDbParams_mapConfig, h1]
  have h3 : (afterGetUserApiKey env self hist).2.mapConfig = none := by
    simp only [afterGetUserApiKey, (getUserApiKey_self _ _ _).2, h2]
  have h4 : (afterPrepareParams env self hist).2.mapConfig = none := by
    simp only [afterPrepareParams, (prepareParams_self _ _ _).2.1, h3]
  have h5 : (afterInstantiateTemplate env self hist).2.mapConfig = none := by
    simp only [afterInstantiateTemplate, (instantiateTemplate_self _ _ _).2, h4]
  exact ⟨h1, h2, h3, h4, h5⟩

theorem failedAt_of_chain (env : Env) (self : Provider) (hist : History) (e : JSError)
    (run : Run) (n : Nat) (h1 : self.err = none) (h2 : self.mapConfig = none)
    (hc : afterPrepareContextLimits env self hist = (.error e, run))
    (hm : run.mapConfig = none) (ha : AddsUpTo n hist run.hist) :
    FailedAt env self hist e run.hist n := by
  obtain ⟨f1, f2, -, -, f5⟩ := failed_chain env self hist e run h1 h2 hc hm
  exact ⟨f1, f2, f5, ha⟩

/-- C15. If a step of `getMapConfig` before limits resolution fails (template fetch or
authorization, `getDatabaseParams`, `getUserMapKey`, config parsing, `instance`, or the
adapter), the chain carries that step's error unchanged, no later collaborator is invoked,
nothing is retried, and the callback receives that error together with a null mapConfig. -/
theorem getMapConfig_fail_fast (env : Env) (self : Provider) (hist : History) (e : JSError)
    (h1 : self.err = none) (h2 : self.mapConfig = none) :
    (((afterGetTemplate env self hist).1 = .error e →
        FailedAt env self hist e (afterGetTemplate env self hist).2.hist 2) ∧
      ((afterPrepareDbParams env self hist).1 = .error e →
        FailedAt env self hist e (afterPrepareDbParams env self hist).2.hist 3) ∧
      ((afterGetUserApiKey env self hist).1 = .error e →
        FailedAt env self hist e (afterGetUserApiKey env self hist).2.hist 4) ∧
      ((afterPrepareParams env self hist).1 = .error e →
        FailedAt env self hist e (afterPrepareParams env self hist).2.hist 4) ∧
      ((afterInstantiateTemplate env self hist).1 = .error e →
        FailedAt env self hist e (afterInstantiateTemplate env self hist).2.hist 5) ∧
      ((afterPrepareAdapterMapConfig env self hist).1 = .error e →
        FailedAt env self hist e (afterPrepareAdapterMapConfig env self hist).2.hist 6)) ∧
    (((getTemplate env self hist).1.err = some e →
        (afterGetTemplate env self hist).1 = .error e) ∧
      (∀ tpl, (afterGetTemplate env self hist).1 = .ok tpl →
        env.pgConnection.getDatabaseParams (afterGetTemplate env self hist).2.hist
          (afterGetTemplate env self hist).2.self.owner = .error e →
        (afterPrepareDbParams env self hist).1 = .error e) ∧
      (∀ u, (afterPrepareDbParams env self hist).1 = .ok u →
        env.metadataBackend.getUserMapKey (afterPrepareDbParams env self hist).2.hist
          (afterPrepareDbParams env self hist).2.self.owner = .error e →
        (afterGetUserApiKey env self hist).1 = .error e) ∧
      (∀ key, (afterGetUserApiKey env self hist).1 = .ok key →
        templateParamsOf env (afterGetUserApiKey env self hist).2.self.config = .error e →
        (afterPrepareParams env self hist).1 = .error e) ∧
      (∀ templateParams, (afterPrepareParams env self hist).1 = .ok templateParams →
        env.templateMaps.templateInstance (afterPrepareParams env self hist).2.hist
          (afterPrepareParams env self hist).2.self.template templateParams = .error e →
        (afterInstantiateTemplate env self hist).1 = .error e) ∧
      (∀ doc rendererParams, (afterInstantiateTemplate env self hist).1 = .ok doc →
        (afterInstantiateTemplate env self hist).2.rendererParams = .value rendererParams →
        (env.mapConfigAdapter.getMapConfig (afterInstantiateTemplate env self hist).2.hist
          (afterInstantiateTemplate env self hist).2.self.owner doc rendererParams
          (adapterContext (afterInstantiateTemplate env self hist).2.self rendererParams
            (afterInstantiateTemplate env self hist).2.apiKey
            (afterInstantiateTemplate env self hist).2.context.templateParams)
          ).1 = .error e →
        (afterInstantiateTemplate env self hist).2.context =
          { Context.empty with
            templateParams := (afterInstantiateTemplate env self hist).2.context.templateParams } →
        (afterPrepareAdapterMapConfig env self hist).1 = .error e)) := by
  obtain ⟨m1, m2, m3, m4, m5⟩ := afterInstantiateTemplate_mapConfig env self hist
  refine ⟨⟨fun h => ?_, fun h => ?_, fun h => ?_, fun h => ?_, fun h => ?_, fun h => ?_⟩,
    ⟨fun h => ?_, fun tpl h hd => ?_, fun u h hk => ?_, fun key h hp => ?_,
      fun tp h hi => ?_, fun doc rp h hr ha hctx => ?_⟩⟩
  · exact failedAt_of_chain env self hist e _ 2 h1 h2 (chain_error_template env self hist e h)
      m1 (afterGetTemplate_adds env self hist)
  · exact failedAt_of_chain env self hist e _ 3 h1 h2 (chain_error_dbParams env self hist e h)
      m2 (afterPrepareDbParams_adds env self hist)
  · exact failedAt_of_chain env self hist e _ 4 h1 h2 (chain_error_apiKey env self hist e h)
      m3 (afterGetUserApiKey_adds env self hist)
  · exact failedAt_of_chain env self hist e _ 4 h1 h2 (chain_error_params env self hist e h)
      m4 (afterPrepareParams_adds env self hist)
  · exact failedAt_of_chain env self hist e _ 5 h1 h2
      (chain_error_instantiate env self hist e h) m5 (afterInstantiateTemplate_adds env self hist)
  · exact failedAt_of_chain env self hist e _ 6 h1 h2 (chain_error_adapter env self hist e h)
      (afterPrepareAdapterMapConfig_mapConfig env self hist)
      (afterPrepareAdapterMapConfig_adds env self hist)
  · rw [(afterGetTemplate_fst env self hist).1, h]
  · simp only [afterPrepareDbParams, h, prepareDbParams, setDBParams, hd]
  · simp only [afterGetUserApiKey, h, getUserApiKey, hk]
  · simp only [afterPrepareParams, h, prepareParams, hp]
  · simp only [afterInstantiateTemplate, h, instantiateTemplate, hi]
  · simp only [afterPrepareAdapterMapConfig, h, prepareAdapterMapConfig, hr]
    rw [hctx] at ha ⊢
    exact ha

theorem getMapConfig_fail_fast_witness :
    (authProvider.err = none ∧ authProvider.mapConfig = none) ∧
    FailedAt dbFailingEnv authProvider [] ⟨"name not found", none⟩
      [Call.getTemplate "u1" "t1", Call.isAuthorized exampleTemplate (some "valid1"),
        Call.getDatabaseParams "u1"] 3 :=
  ⟨⟨rfl, rfl⟩,
    (getMapConfig_fail_fast dbFailingEnv authProvider [] ⟨"name not found", none⟩ rfl rfl).1.2.1
      rfl⟩

/-! ## Config parsing, limits: C16, C17, C18 -/

theorem afterGetUserApiKey_config (env : Env) (self : Provider) (hist : History) :
    (afterGetUserApiKey env self hist).2.self.config = self.config ∧
      (afterGetUserApiKey env self hist).2.self.owner = self.owner ∧
      (afterGetUserApiKey env self hist).2.self.params = self.params := by
  obtain ⟨g1, g2, g3, -⟩ := getTemplate_frame env self hist
  have h2 : (afterPrepareDbParams env self hist).2.self.config = self.config ∧
      (afterPrepareDbParams env self hist).2.self.owner = self.owner ∧
      (afterPrepareDbParams env self hist).2.self.params = self.params := by
    simp only [afterPrepareDbParams]
    cases (afterGetTemplate env self hist).1 with
    | error e => exact ⟨g2, g1, g3⟩
    | ok tpl => exact ⟨g2, g1, g3⟩
  simp only [afterGetUserApiKey, (getUserApiKey_self _ _ _).1]
  exact h2

theorem templateParamsOf_cases (env : Env) :
    (∀ text, text ≠ "" → env.JSON_parse text = none →
      templateParamsOf env (.str text) =
        .error ⟨"malformed config parameter, should be a valid JSON", none⟩) ∧
    (∀ text value, text ≠ "" → env.JSON_parse text = some value →
      templateParamsOf env (.str text) = .ok value) ∧
    (∀ config, config.truthy = true → config.isString = false →
      templateParamsOf env config = .ok config) ∧
    (∀ config, config.truthy = false → templateParamsOf env config = .ok (.obj [])) := by
  refine ⟨fun text ht hp => ?_, fun text value ht hp => ?_, fun config ht hs => ?_,
    fun config ht => ?_⟩
  · simp [templateParamsOf, JSValue.truthy, ht, hp, malformedConfigErr]
  · simp [templateParamsOf, JSValue.truthy, ht, hp]
  · cases config <;> simp_all [templateParamsOf, JSValue.isString]
  · simp [templateParamsOf, ht]

/-- C16. Config parsing in `getMapConfig`: a non-empty config string that is not valid JSON
fails the resolution with `malformed config parameter, should be a valid JSON`, and the
history then holds no call to `templateMaps.instance` or to the adapter; a string of valid
JSON is handed to `instance` as its parsed value; a config that is not a string (a structured
object) is handed over as it is; an absent or empty config gives the empty object. -/
theorem config_parsing (env : Env) (self : Provider) (hist : History)
    (h1 : self.err = none) (h2 : self.mapConfig = none) :
    ((∀ text, text ≠ "" → env.JSON_parse text = none →
        templateParamsOf env (.str text) =
          .error ⟨"malformed config parameter, should be a valid JSON", none⟩) ∧
      (∀ text value, text ≠ "" → env.JSON_parse text = some value →
        templateParamsOf env (.str text) = .ok value) ∧
      (∀ config, config.truthy = true → config.isString = false →
        templateParamsOf env config = .ok config) ∧
      (∀ config, config.truthy = false → templateParamsOf env config = .ok (.obj []))) ∧
    (∀ key, (afterGetUserApiKey env self hist).1 = .ok key →
      (afterPrepareParams env self hist).1 = templateParamsOf env self.config) ∧
    (∀ templateParams, (afterPrepareParams env self hist).1 = .ok templateParams →
      (afterInstantiateTemplate env self hist).1 =
          env.templateMaps.templateInstance (afterPrepareParams env self hist).2.hist
            (afterPrepareParams env self hist).2.self.template templateParams ∧
        (afterInstantiateTemplate env self hist).2.hist =
          (afterPrepareParams env self hist).2.hist ++
            [Call.templateInstance (afterPrepareParams env self hist).2.self.template
              templateParams]) ∧
    (∀ key e, (afterGetUserApiKey env self hist).1 = .ok key →
      templateParamsOf env self.config = .error e →
      FailedAt env self hist e (afterGetUserApiKey env self hist).2.hist 4) := by
  obtain ⟨c1, -, -⟩ := afterGetUserApiKey_config env self hist
  refine ⟨templateParamsOf_cases env, fun key h => ?_, fun tp h => ?_, fun key e h he => ?_⟩
  · simp only [afterPrepareParams, h, prepareParams, c1]
  · simp only [afterInstantiateTemplate, h, instantiateTemplate, and_self]
  · have h4 : (afterPrepareParams env self hist).1 = .error e := by
      simp only [afterPrepareParams, h, prepareParams, c1, he]
    have hf := (getMapConfig_fail_fast env self hist e h1 h2).1.2.2.2.1 h4
    have hh : (afterPrepareParams env self hist).2.hist =
        (afterGetUserApiKey env self hist).2.hist := by
      simp only [afterPrepareParams, (prepareParams_self _ _ _).2.2]
    rw [hh] at hf
    exact hf

theorem config_parsing_witness :
    (malformedProvider.err = none ∧ malformedProvider.mapConfig = none) ∧
    FailedAt exampleEnv malformedProvider []
      ⟨"malformed config parameter, should be a valid JSON", none⟩
      [Call.getTemplate "u1" "t1", Call.isAuthorized exampleTemplate (some "valid1"),
        Call.getDatabaseParams "u1", Call.getUserMapKey "u1"] 4 ∧
    (afterInstantiateTemplate exampleEnv jsonProvider []).2.hist =
      (afterPrepareParams exampleEnv jsonProvider []).2.hist ++
        [Call.templateInstance (.value exampleTemplate) (configX 1)] :=
  ⟨⟨rfl, rfl⟩,
    (config_parsing exampleEnv malformedProvider [] rfl rfl).2.2.2 (.str "1234") _ rfl rfl,
    ((config_parsing exampleEnv jsonProvider [] rfl rfl).2.2.1 (configX 1) rfl).2⟩

/-- C17, as stated, fails: with a metadata backend that answers the API key `1234` and a
request without `api_key`, `getRenderLimits` is called with `undefined`, not with `1234`. -/
theorem getRenderLimits_counterexample :
    exampleEnv.metadataBackend.getUserMapKey
      [Call.getTemplate "u1" "t1", Call.isAuthorized exampleTemplate (some "valid1"),
        Call.getDatabaseParams "u1"] "u1" = .ok (.str "1234") ∧
    (getMapConfig exampleEnv authProvider []).2.2.getLast? =
      some (Call.getRenderLimits "u1" .undefined) ∧
    authProvider.params.get "api_key" = .undefined := by
  rw [getMapConfig_success exampleSucceeds]
  exact ⟨rfl, rfl, rfl⟩

/-- C17, amended. `getMapConfig` resolves render limits for the owner and the request's
API key: in a resolution in which every step succeeds, `getRenderLimits` is called once,
last, with the provider's owner and `params.api_key` (undefined when the request has none);
the key that `getUserMapKey` returned is used for `analysisConfiguration.batch.apiKey`
only. -/
theorem getRenderLimits_args (env : Env) (self : Provider) (hist : History)
    (tpl : Template) (authorized : JSValue) (db : DatabaseParams)
    (apiKey templateParams : JSValue) (doc out : MapConfigDocument) (context : Context)
    (limits : JSValue)
    (h : Succeeds env self hist tpl authorized db apiKey templateParams doc out context limits) :
    (∃ added, (getMapConfig env self hist).2.2 = hist ++ added ∧
      added.getLast? = some (Call.getRenderLimits self.owner (self.params.get "api_key")) ∧
      ∀ owner key, Call.getRenderLimits owner key ∈ added →
        owner = self.owner ∧ key = self.params.get "api_key") ∧
    ((adapterContext self (resolvedParams self db) apiKey templateParams).analysisConfiguration.map
      fun c => c.batch.apiKey) = some apiKey := by
  rw [getMapConfig_success h]
  refine ⟨⟨successCalls self tpl db apiKey templateParams doc, rfl, rfl, ?_⟩, rfl⟩
  intro owner key hmem
  simp only [successCalls, List.mem_cons, List.mem_singleton, List.not_mem_nil, or_false,
    reduceCtorEq, false_or, Call.getRenderLimits.injEq] at hmem
  exact hmem

theorem getRenderLimits_args_witness :
    ∃ added, (getMapConfig exampleEnv authProvider []).2.2 = [] ++ added ∧
      added.getLast? = some (Call.getRenderLimits authProvider.owner
        (authProvider.params.get "api_key")) ∧
      ∀ owner key, Call.getRenderLimits owner key ∈ added →
        owner = authProvider.owner ∧ key = authProvider.params.get "api_key" :=
  (getRenderLimits_args exampleEnv authProvider [] exampleTemplate (.bool true) exampleDb
    (.str "1234") (configX 1) exampleDoc exampleDoc _ (.obj [("timeout", .nat 5)])
    exampleSucceeds).1

theorem jsOr_truthy (a : JSValue) : (jsOr a (.obj [])).truthy = true := by
  by_cases h : a.truthy = true
  · simp only [jsOr, h, if_true]
  · simp only [jsOr, h, Bool.false_eq_true, if_false]
    rfl

/-- C18. On a successful resolution `getMapConfig` calls back with a MapConfig built from
the adapter's output document and `context.datasource`, with the rendererParams, and with
the context whose `limits` is the object returned by `getRenderLimits`, or the empty object
if it returned none; and after every resolution that ran the chain, failed ones included,
`context.limits` is present. -/
theorem getMapConfig_result (env : Env) (self : Provider) (hist : History)
    (tpl : Template) (authorized : JSValue) (db : DatabaseParams)
    (apiKey templateParams : JSValue) (doc out : MapConfigDocument) (context : Context)
    (limits : JSValue)
    (h : Succeeds env self hist tpl authorized db apiKey templateParams doc out context limits) :
    (getMapConfig env self hist).1.err = none ∧
    (getMapConfig env self hist).1.mapConfig = some ⟨out, context.datasource⟩ ∧
    (getMapConfig env self hist).1.rendererParams = .value (resolvedParams self db) ∧
    (getMapConfig env self hist).1.context =
      { context with limits := (getMapConfig env self hist).1.context.limits } ∧
    (limits.truthy = true → (getMapConfig env self hist).1.context.limits = limits) ∧
    (limits.truthy = false → (getMapConfig env self hist).1.context.limits = .obj []) ∧
    (∀ (env2 : Env) (p : Provider) (hist2 : History), p.err = none → p.mapConfig = none →
      (getMapConfig env2 p hist2).1.context.limits.truthy = true ∧
      (getMapConfig env2 p hist2).2.1.context.limits.truthy = true) := by
  rw [getMapConfig_success h]
  refine ⟨rfl, rfl, rfl, rfl, fun ht => ?_, fun ht => ?_, fun env2 p hist2 hp1 hp2 => ?_⟩
  · simp [jsOr, ht]
  · simp [jsOr, ht]
  · rw [getMapConfig_run env2 p hist2 hp1 hp2]
    exact ⟨jsOr_truthy _, jsOr_truthy _⟩

theorem getMapConfig_result_witness :
    (getMapConfig exampleEnv authProvider []).1.mapConfig =
        some ⟨exampleDoc, .obj [("ds", .nat 1)]⟩ ∧
    (getMapConfig exampleEnv authProvider []).1.context.limits = .obj [("timeout", .nat 5)] ∧
    (getMapConfig dbFailingEnv authProvider []).1.context.limits.truthy = true :=
  ⟨(getMapConfig_result exampleEnv authProvider [] exampleTemplate (.bool true) exampleDb
      (.str "1234") (configX 1) exampleDoc exampleDoc _ (.obj [("timeout", .nat 5)])
      exampleSucceeds).2.1,
    (getMapConfig_result exampleEnv authProvider [] exampleTemplate (.bool true) exampleDb
      (.str "1234") (configX 1) exampleDoc exampleDoc _ (.obj [("timeout", .nat 5)])
      exampleSucceeds).2.2.2.2.1 rfl,
    ((getMapConfig_result exampleEnv authProvider [] exampleTemplate (.bool true) exampleDb
      (.str "1234") (configX 1) exampleDoc exampleDoc _ (.obj [("timeout", .nat 5)])
      exampleSucceeds).2.2.2.2.2.2 dbFailingEnv authProvider [] rfl rfl).1⟩

/-! ## Renderer params, adapter context, key overrides: C26, C27, C28 -/

theorem get_extendFrom (src : List (String × JSValue)) (hnd : (src.map Prod.fst).Nodup)
    (o : JSObj) (k : String) :
    (extendFrom o src).get k = if k ∈ src.map Prod.fst then getEntry src k else o.get k := by
  induction src generalizing o with
  | nil => simp [extendFrom]
  | cons e es ih =>
    obtain ⟨k0, v0⟩ := e
    simp only [List.map_cons, List.nodup_cons] at hnd
    have step : extendFrom o ((k0, v0) :: es) = extendFrom (o.set k0 v0) es := rfl
    rw [step, ih hnd.2]
    by_cases hk : k0 = k
    · subst hk
      simp [hnd.1, JSObj.get_set, getEntry]
    · have hk2 : ¬ k = k0 := fun h => hk h.symm
      by_cases hm : k ∈ es.map Prod.fst
      · simp [hm, getEntry, hk]
      · simp [hm, hk2, JSObj.get_set, hk]

theorem get_extend_user (params : JSObj) (owner k : String) :
    (_extend JSObj.empty [params, JSObj.empty.set "user" (.str owner)]).get k =
      if k = "user" then .str owner else params.get k := by
  simp only [_extend, List.foldl_cons, List.foldl_nil]
  rw [get_extendFrom _ (JSObj.empty.set "user" (.str owner)).nodup,
    get_extendFrom _ params.nodup]
  by_cases hk : k = "user"
  · subst hk
    simp [JSObj.set, JSObj.empty, setEntry, getEntry]
  · have hk2 : ¬ "user" = k := fun h => hk h.symm
    simp only [JSObj.set, JSObj.empty, setEntry, List.map_cons, List.map_nil, List.mem_singleton,
      hk, if_false]
    split
    · rfl
    · next hm => exact (getEntry_of_not_mem _ _ hm).symm

theorem resolvedParams_get (self : Provider) (db : DatabaseParams) (k : String) :
    (resolvedParams self db).get k =
      if k = "dbname" then db.dbname
      else if k = "dbport" then db.dbport
      else if k = "dbhost" then db.dbhost
      else if k = "dbpass" then db.dbpass
      else if k = "dbuser" then db.dbuser
      else if k = "user" then .str self.owner
      else self.params.get k := by
  simp only [resolvedParams, JSObj.get_set, get_extend_user, eq_comm (b := k)]

/-- C26. The rendererParams produced by a successful `getMapConfig` equal the request
params extended with `user` = owner and with `dbuser`, `dbpass`, `dbhost`, `dbport` and
`dbname` equal to the values returned by `getDatabaseParams(owner)`, which override any
same-named request params; the provider's own params object is not modified. -/
theorem rendererParams_resolved (env : Env) (self : Provider) (hist : History)
    (tpl : Template) (authorized : JSValue) (db : DatabaseParams)
    (apiKey templateParams : JSValue) (doc out : MapConfigDocument) (context : Context)
    (limits : JSValue)
    (h : Succeeds env self hist tpl authorized db apiKey templateParams doc out context limits) :
    ∃ rendererParams, (getMapConfig env self hist).1.rendererParams = .value rendererParams ∧
      (∀ k, rendererParams.get k =
        if k = "dbname" then db.dbname
        else if k = "dbport" then db.dbport
        else if k = "dbhost" then db.dbhost
        else if k = "dbpass" then db.dbpass
        else if k = "dbuser" then db.dbuser
        else if k = "user" then .str self.owner
        else self.params.get k) ∧
      env.pgConnection.getDatabaseParams
        (hist ++ [Call.getTemplate self.owner self.templateName] ++
          [Call.isAuthorized tpl self.authToken]) self.owner = .ok db ∧
      (getMapConfig env self hist).2.1.params = self.params := by
  rw [getMapConfig_success h]
  exact ⟨resolvedParams self db, rfl, resolvedParams_get self db, h.answers.database, rfl⟩

theorem rendererParams_resolved_witness :
    ∃ rendererParams,
      (getMapConfig exampleEnv authProvider []).1.rendererParams = .value rendererParams ∧
      (∀ k, rendererParams.get k =
        if k = "dbname" then exampleDb.dbname
        else if k = "dbport" then exampleDb.dbport
        else if k = "dbhost" then exampleDb.dbhost
        else if k = "dbpass" then exampleDb.dbpass
        else if k = "dbuser" then exampleDb.dbuser
        else if k = "user" then .str authProvider.owner
        else authProvider.params.get k) ∧
      exampleEnv.pgConnection.getDatabaseParams
        ([] ++ [Call.getTemplate authProvider.owner authProvider.templateName] ++
          [Call.isAuthorized exampleTemplate authProvider.authToken]) authProvider.owner =
          .ok exampleDb ∧
      (getMapConfig exampleEnv authProvider []).2.1.params = authProvider.params :=
  rendererParams_resolved exampleEnv authProvider [] exampleTemplate (.bool true) exampleDb
    (.str "1234") (configX 1) exampleDoc exampleDoc _ (.obj [("timeout", .nat 5)])
    exampleSucceeds

/-- C27. In the context handed to the adapter, `analysisConfiguration.user` and
`batch.username` are the owner, `batch.apiKey` is the key returned by `getUserMapKey`,
`db.host`, `db.port`, `db.dbname` and `db.user` are the values resolved by
`getDatabaseParams`, and `db.pass` is read from `rendererParams.dbpassword`, which
`setDBParams` never writes: it equals the request's `params.dbpassword` and not the resolved
`dbpass`. -/
theorem adapter_context (env : Env) (self : Provider) (hist : History)
    (tpl : Template) (authorized : JSValue) (db : DatabaseParams)
    (apiKey templateParams : JSValue) (doc out : MapConfigDocument) (context : Context)
    (limits : JSValue)
    (h : Succeeds env self hist tpl authorized db apiKey templateParams doc out context limits) :
    ∃ handed, Call.adapterGetMapConfig self.owner doc (resolvedParams self db) handed ∈
        (getMapConfig env self hist).2.2 ∧
      (env.mapConfigAdapter.getMapConfig
        (hist ++ [Call.getTemplate self.owner self.templateName] ++
          [Call.isAuthorized tpl self.authToken] ++ [Call.getDatabaseParams self.owner] ++
          [Call.getUserMapKey self.owner] ++ [Call.templateInstance (.value tpl) templateParams])
        self.owner doc (resolvedParams self db) handed = (.ok out, context)) ∧
      handed.analysisConfiguration =
        some
          { user := self.owner
            db :=
              { host := db.dbhost, port := db.dbport, dbname := db.dbname, user := db.dbuser,
                pass := self.params.get "dbpassword" }
            batch := { username := self.owner, apiKey := apiKey } } ∧
      env.metadataBackend.getUserMapKey
        (hist ++ [Call.getTemplate self.owner self.templateName] ++
          [Call.isAuthorized tpl self.authToken] ++ [Call.getDatabaseParams self.owner])
        self.owner = .ok apiKey := by
  rw [getMapConfig_success h]
  refine ⟨adapterContext self (resolvedParams self db) apiKey templateParams, ?_,
    h.answers.adapted, ?_, h.answers.key⟩
  · simp [successCalls]
  · simp only [adapterContext, resolvedParams_get]
    rfl

theorem adapter_context_witness :
    ∃ handed, Call.adapterGetMapConfig "u1" exampleDoc (resolvedParams authProvider exampleDb)
        handed ∈ (getMapConfig exampleEnv authProvider []).2.2 ∧
      handed.analysisConfiguration =
        some
          { user := "u1"
            db :=
              { host := .str "10.0.0.1", port := .nat 5432, dbname := .str "db_u1",
                user := .str "user_u1", pass := .undefined }
            batch := { username := "u1", apiKey := .str "1234" } } := by
  obtain ⟨handed, h1, -, h3, -⟩ := adapter_context exampleEnv authProvider [] exampleTemplate
    (.bool true) exampleDb (.str "1234") (configX 1) exampleDoc exampleDoc _
    (.obj [("timeout", .nat 5)]) exampleSucceeds
  exact ⟨handed, h1, h3⟩

theorem createKey_general (self : Provider) (hash : String)
    (hh : configHash self.config = .ok hash) :
    createKey self true =
      .ok (paramText self.params "dbname" "" ++ ":"
        ++ paramText self.params "owner" self.owner ++ ":"
        ++ paramText self.params "templateName" self.templateName) := by
  obtain ⟨d1, d2, d3, -⟩ := keyDefaults_get self hash
  simp only [createKey, hh, if_true, baseKeyTpl_eq, tplText, d1, d2, d3, JSValue.toStr_str,
    paramText]

/-- C28. `createKey` fills its values with defaults underneath the request params: a
defined entry of params named owner, templateName, authToken or configHash is printed in
place of the provider's own owner, template name, auth token or config hash, in the base key
(owner, templateName) and in the full key (all four); the provider's values are used only
when params has no such defined entry. -/
theorem createKey_override (self : Provider) :
    ∃ hash, configHash self.config = .ok hash ∧
      createKey self true =
        .ok (paramText self.params "dbname" "" ++ ":"
          ++ paramText self.params "owner" self.owner ++ ":"
          ++ paramText self.params "templateName" self.templateName) ∧
      getKey self =
        .ok (paramText self.params "dbname" "" ++ (":"
          ++ (paramText self.params "owner" self.owner ++ (":"
          ++ (paramText self.params "templateName" self.templateName ++ (":"
          ++ (paramText self.params "authToken" (self.authToken.getD "") ++ (":"
          ++ (paramText self.params "configHash" hash ++ (":"
          ++ ((self.params.get "format").toStr ++ (":"
          ++ (paramText self.params "layer" "" ++ (":"
          ++ paramText self.params "scale_factor" "1")))))))))))))) ∧
      ∀ key dflt,
        ((self.params.get key).isUndefined = false →
          paramText self.params key dflt = (self.params.get key).toStr) ∧
        ((self.params.get key).isUndefined = true → paramText self.params key dflt = dflt) ∧
        (self.params.has key = false → paramText self.params key dflt = dflt) := by
  obtain ⟨hash, hh⟩ := configHash_ok self.config
  refine ⟨hash, hh, createKey_general self hash hh, getKey_general self hash hh, ?_⟩
  intro key dflt
  refine ⟨fun h => by simp [paramText, h], fun h => by simp [paramText, h], fun h => ?_⟩
  exact paramText_of_undefined _ _ _ (JSObj.get_of_has_eq_false _ _ h)

theorem createKey_override_witness :
    createKey (Provider.create "u1" "t1" (configX 1) none ownerParams 0) true =
      .ok ":other:t1" := by
  obtain ⟨hash, -, h, -⟩ := createKey_override
    (Provider.create "u1" "t1" (configX 1) none ownerParams 0)
  rw [h]
  rfl


theorem createKey_numeric_owner_example :
    createKey (Provider.create "u1" "t1" (configX 1) none
      (JSObj.empty.set "owner" (.nat (10 ^ 21))) 0) true = .ok ":1e+21:t1" := by
  decide!
/-! ## getAffectedTables: C19 to C23 -/

theorem getAffectedTables_failed (env : Env) (self : Provider)
    (callback : AffectedTablesCallback) (hist : History) (e : JSError)
    (h : (getMapConfig env self hist).1.err = some e) :
    getAffectedTables env self callback hist =
      ([⟨some e, .undefined⟩], (getMapConfig env self hist).2.1,
        (getMapConfig env self hist).2.2) := by
  simp only [getAffectedTables, h]

theorem getAffectedTables_resolved (env : Env) (self : Provider)
    (callback : AffectedTablesCallback) (hist : History) (mapConfig : MapConfig)
    (h1 : (getMapConfig env self hist).1.err = none)
    (h2 : (getMapConfig env self hist).1.mapConfig = some mapConfig) :
    getAffectedTables env self callback hist =
      if env.affectedTablesCache.hasAffectedTables (getMapConfig env self hist).2.2
          (getMapConfig env self hist).2.1.rendererParams (env.mapConfigId mapConfig) then
        returnCallback env (getMapConfig env self hist).2.1 (hitHist env self hist mapConfig)
          (getMapConfig env self hist).2.1.rendererParams (env.mapConfigId mapConfig) callback
          (cachedResult env self hist mapConfig)
      else
        match combinedSql mapConfig.cfg.layers with
        | none =>
          returnCallback env (getMapConfig env self hist).2.1 (missHist env self hist mapConfig)
            (getMapConfig env self hist).2.1.rendererParams (env.mapConfigId mapConfig) callback
            ⟨none, .undefined⟩
        | some sql =>
          if sql = "" then
            returnCallback env (getMapConfig env self hist).2.1
              (missHist env self hist mapConfig)
              (getMapConfig env self hist).2.1.rendererParams (env.mapConfigId mapConfig)
              callback ⟨none, .undefined⟩
          else
            ([(queryAndFinish env (getMapConfig env self hist).2.1
                (missHist env self hist mapConfig)
                (getMapConfig env self hist).2.1.rendererParams (env.mapConfigId mapConfig)
                (.str sql)).1],
              (queryAndFinish env (getMapConfig env self hist).2.1
                (missHist env self hist mapConfig)
                (getMapConfig env self hist).2.1.rendererParams (env.mapConfigId mapConfig)
                (.str sql)).2.1,
              (queryAndFinish env (getMapConfig env self hist).2.1
                (missHist env self hist mapConfig)
                (getMapConfig env self hist).2.1.rendererParams (env.mapConfigId mapConfig)
                (.str sql)).2.2) := by
  simp only [getAffectedTables, h1, h2, hitHist, missHist, cachedResult, List.append_assoc,
    List.singleton_append]

theorem returnCallback_undefined (env : Env) (self : Provider) (hist : History)
    (dbname : Slot JSObj) (token : String) (callback : AffectedTablesCallback)
    (args : AffectedTablesResult) (h : (callback args).isUndefined = true) :
    returnCallback env self hist dbname token callback args = ([args], self, hist) := by
  simp only [returnCallback, h, if_true]

theorem returnCallback_value (env : Env) (self : Provider) (hist : History)
    (dbname : Slot JSObj) (token : String) (callback : AffectedTablesCallback)
    (args : AffectedTablesResult) (h : (callback args).isUndefined = false) :
    returnCallback env self hist dbname token callback args =
      ([args, (queryAndFinish env self hist dbname token (callback args)).1],
        (queryAndFinish env self hist dbname token (callback args)).2.1,
        (queryAndFinish env self hist dbname token (callback args)).2.2) := by
  simp only [returnCallback, h, Bool.false_eq_true, if_false]

theorem queryAndFinish_no_connection (env : Env) (self : Provider) (hist : History)
    (dbname : Slot JSObj) (token : String) (sql : JSValue) (e : JSError)
    (hc : env.pgConnection.getConnection hist self.owner = .error e) :
    queryAndFinish env self hist dbname token sql =
      (⟨some e, .undefined⟩, self, hist ++ [Call.getConnection self.owner]) := by
  simp only [queryAndFinish, queryAffectedTables, hc, finishAffectedTables]

theorem queryAndFinish_query_failed (env : Env) (self : Provider) (hist : History)
    (dbname : Slot JSObj) (token : String) (sql connection : JSValue) (e : JSError)
    (hc : env.pgConnection.getConnection hist self.owner = .ok connection)
    (hq : env.queryTables.getAffectedTablesFromQuery (hist ++ [Call.getConnection self.owner])
      connection sql = .error e) :
    queryAndFinish env self hist dbname token sql =
      (⟨some e, .undefined⟩, self,
        hist ++ [Call.getConnection self.owner] ++
          [Call.getAffectedTablesFromQuery connection sql]) := by
  simp only [queryAndFinish, queryAffectedTables, hc, hq, finishAffectedTables]

theorem queryAndFinish_stored (env : Env) (self : Provider) (hist : History)
    (dbname : Slot JSObj) (token : String) (sql connection value : JSValue)
    (hc : env.pgConnection.getConnection hist self.owner = .ok connection)
    (hq : env.queryTables.getAffectedTablesFromQuery (hist ++ [Call.getConnection self.owner])
      connection sql = .ok value) :
    queryAndFinish env self hist dbname token sql =
      (⟨none, value⟩, self,
        hist ++ [Call.getConnection self.owner] ++
          [Call.getAffectedTablesFromQuery connection sql] ++
          [Call.cacheSet dbname token value]) := by
  simp only [queryAndFinish, queryAffectedTables, hc, hq, finishAffectedTables]

theorem queryAndFinish_made (env : Env) (self : Provider) (hist : History)
    (dbname : Slot JSObj) (token : String) (sql : JSValue) :
    ∃ made, (queryAndFinish env self hist dbname token sql).2.2 =
        hist ++ Call.getConnection self.owner :: made ∧
      ((queryAndFinish env self hist dbname token sql).1.err.isSome = true →
        ∀ call ∈ made, call.isCacheSet = false) ∧
      (∀ call ∈ made, call.isCacheSet = true →
        ∃ queryHist connection value,
          env.queryTables.getAffectedTablesFromQuery queryHist connection sql = .ok value ∧
          (queryAndFinish env self hist dbname token sql).1 = ⟨none, value⟩) := by
  cases hc : env.pgConnection.getConnection hist self.owner with
  | error e =>
    rw [queryAndFinish_no_connection env self hist dbname token sql e hc]
    exact ⟨[], by simp, by simp, by simp⟩
  | ok connection =>
    cases hq : env.queryTables.getAffectedTablesFromQuery
        (hist ++ [Call.getConnection self.owner]) connection sql with
    | error e =>
      rw [queryAndFinish_query_failed env self hist dbname token sql connection e hc hq]
      exact ⟨[Call.getAffectedTablesFromQuery connection sql], by simp,
        by simp [Call.isCacheSet], by simp [Call.isCacheSet]⟩
    | ok value =>
      rw [queryAndFinish_stored env self hist dbname token sql connection value hc hq]
      refine ⟨[Call.getAffectedTablesFromQuery connection sql,
        Call.cacheSet dbname token value], by simp, by simp, ?_⟩
      intro call _ _
      exact ⟨_, connection, value, hq, rfl⟩

theorem queryAndFinish_queried (env : Env) (self : Provider) (hist : History)
    (dbname : Slot JSObj) (token : String) (sql connection : JSValue)
    (hc : env.pgConnection.getConnection hist self.owner = .ok connection) :
    ∃ rest, (queryAndFinish env self hist dbname token sql).2.2 =
      hist ++ [Call.getConnection self.owner,
        Call.getAffectedTablesFromQuery connection sql] ++ rest := by
  cases hq : env.queryTables.getAffectedTablesFromQuery
      (hist ++ [Call.getConnection self.owner]) connection sql with
  | error e =>
    rw [queryAndFinish_query_failed env self hist dbname token sql connection e hc hq]
    exact ⟨[], by simp⟩
  | ok value =>
    rw [queryAndFinish_stored env self hist dbname token sql connection value hc hq]
    exact ⟨[Call.cacheSet dbname token value], by simp⟩

theorem getMapConfig_owner (env : Env) (self : Provider) (hist : History) :
    (getMapConfig env self hist).2.1.owner = self.owner := by
  by_cases h : (self.err.isSome || self.mapConfig.isSome) = true
  · rw [getMapConfig_memo env self hist h]
  · have h1 : self.err = none := by
      cases he : self.err with
      | none => rfl
      | some e => simp [he] at h
    have h2 : self.mapConfig = none := by
      cases hm : self.mapConfig with
      | none => rfl
      | some m => simp [hm] at h
    rw [getMapConfig_run env self hist h1 h2]
    show (afterPrepareContextLimits env self hist).2.self.owner = self.owner
    rw [afterPrepareContextLimits_self]
    have h3 := (afterGetUserApiKey_config env self hist).2.1
    simp only [afterGetUserApiKey, (getUserApiKey_self _ _ _).1] at h3
    exact h3

theorem getMapConfig_adds (env : Env) (self : Provider) (hist : History) :
    AddsUpTo 7 hist (getMapConfig env self hist).2.2 := by
  by_cases h : (self.err.isSome || self.mapConfig.isSome) = true
  · rw [getMapConfig_memo env self hist h]
    exact AddsUpTo.refl 7 hist
  · have h1 : self.err = none := by
      cases he : self.err with
      | none => rfl
      | some e => simp [he] at h
    have h2 : self.mapConfig = none := by
      cases hm : self.mapConfig with
      | none => rfl
      | some m => simp [hm] at h
    rw [getMapConfig_run env self hist h1 h2]
    show AddsUpTo 7 hist (afterPrepareContextLimits env self hist).2.hist
    have h6 := afterPrepareAdapterMapConfig_adds env self hist
    simp only [afterPrepareContextLimits]
    cases (afterPrepareAdapterMapConfig env self hist).1 with
    | error e => exact h6.mono (by decide)
    | ok doc => exact h6.snoc _ (Nat.le_refl _) (by decide)

theorem getAffectedTables_on_hit {env : Env} {self : Provider} {hist : History}
    {mapConfig : MapConfig} (callback : AffectedTablesCallback)
    (h : Hit env self hist mapConfig) :
    getAffectedTables env self callback hist =
      returnCallback env (getMapConfig env self hist).2.1 (hitHist env self hist mapConfig)
        (getMapConfig env self hist).2.1.rendererParams (env.mapConfigId mapConfig) callback
        (cachedResult env self hist mapConfig) := by
  rw [getAffectedTables_resolved env self callback hist mapConfig h.err_none h.resolved,
    if_pos h.present]

/-- C19, as the code has it. On a cache hit `getAffectedTables` calls back with (null,
`affectedTablesCache.get(rendererParams, token)`). When the callback returns `undefined`,
the only calls made after the resolution are that `hasAffectedTables` and that `get`. When
the callback returns any other value, `step` hands that value on as `sql`:
`pgConnection.getConnection` is called, with a connection `getAffectedTablesFromQuery` is
called on the returned value, with a result `affectedTablesCache.set` is called, and the
callback is called a second time. -/
theorem getAffectedTables_hit (env : Env) (self : Provider) (callback : AffectedTablesCallback)
    (hist : History) (mapConfig : MapConfig) (h : Hit env self hist mapConfig) :
    ((getAffectedTables env self callback hist).1.head? =
      some ⟨none, env.affectedTablesCache.get
        ((getMapConfig env self hist).2.2 ++
          [Call.hasAffectedTables (getMapConfig env self hist).2.1.rendererParams
            (env.mapConfigId mapConfig)])
        (getMapConfig env self hist).2.1.rendererParams (env.mapConfigId mapConfig)⟩) ∧
    ((callback (cachedResult env self hist mapConfig)).isUndefined = true →
      (getAffectedTables env self callback hist).1 = [cachedResult env self hist mapConfig] ∧
      (getAffectedTables env self callback hist).2.2 =
        (getMapConfig env self hist).2.2 ++
          [Call.hasAffectedTables (getMapConfig env self hist).2.1.rendererParams
            (env.mapConfigId mapConfig),
           Call.cacheGet (getMapConfig env self hist).2.1.rendererParams
            (env.mapConfigId mapConfig)]) ∧
    ((callback (cachedResult env self hist mapConfig)).isUndefined = false →
      (∃ second, (getAffectedTables env self callback hist).1 =
        [cachedResult env self hist mapConfig, second]) ∧
      (∃ rest, (getAffectedTables env self callback hist).2.2 =
        hitHist env self hist mapConfig ++ Call.getConnection self.owner :: rest) ∧
      (∀ connection value,
        env.pgConnection.getConnection (hitHist env self hist mapConfig) self.owner =
          .ok connection →
        env.queryTables.getAffectedTablesFromQuery
          (hitHist env self hist mapConfig ++ [Call.getConnection self.owner]) connection
          (callback (cachedResult env self hist mapConfig)) = .ok value →
        (getAffectedTables env self callback hist).1 =
          [cachedResult env self hist mapConfig, ⟨none, value⟩] ∧
        (getAffectedTables env self callback hist).2.2 =
          hitHist env self hist mapConfig ++
            [Call.getConnection self.owner,
             Call.getAffectedTablesFromQuery connection
               (callback (cachedResult env self hist mapConfig)),
             Call.cacheSet (getMapConfig env self hist).2.1.rendererParams
               (env.mapConfigId mapConfig) value])) := by
  rw [getAffectedTables_on_hit callback h]
  refine ⟨?_, fun hu => ?_, fun hv => ⟨?_, ?_, fun connection value hc hq => ?_⟩⟩
  · cases hu : (callback (cachedResult env self hist mapConfig)).isUndefined with
    | true => rw [returnCallback_undefined _ _ _ _ _ _ _ hu]; rfl
    | false => rw [returnCallback_value _ _ _ _ _ _ _ hu]; rfl
  · rw [returnCallback_undefined _ _ _ _ _ _ _ hu]
    exact ⟨rfl, rfl⟩
  · rw [returnCallback_value _ _ _ _ _ _ _ hv]
    exact ⟨_, rfl⟩
  · rw [returnCallback_value _ _ _ _ _ _ _ hv]
    obtain ⟨made, hm, -⟩ := queryAndFinish_made env (getMapConfig env self hist).2.1
      (hitHist env self hist mapConfig) (getMapConfig env self hist).2.1.rendererParams
      (env.mapConfigId mapConfig) (callback (cachedResult env self hist mapConfig))
    rw [getMapConfig_owner] at hm
    exact ⟨made, hm⟩
  · rw [returnCallback_value _ _ _ _ _ _ _ hv]
    rw [← getMapConfig_owner env self hist] at hc hq ⊢
    rw [queryAndFinish_stored _ _ _ _ _ _ connection value hc hq]
    exact ⟨rfl, by simp⟩

theorem hitExample : Hit hitEnv authProvider [] ⟨exampleDoc, .obj [("ds", .nat 1)]⟩ :=
  ⟨rfl, rfl, rfl⟩

theorem getAffectedTables_hit_witness :
    (getAffectedTables hitEnv authProvider (fun _ => .undefined) []).1 =
      [⟨none, .arr [.str "public.cached"]⟩] ∧
    (getAffectedTables hitEnv authProvider (fun _ => .bool true) []).1 =
      [⟨none, .arr [.str "public.cached"]⟩,
       ⟨none, .arr [.str "public.t", .bool true]⟩] ∧
    (getAffectedTables hitEnv authProvider (fun _ => .bool true) []).2.2 =
      (getMapConfig hitEnv authProvider []).2.2 ++
        [Call.hasAffectedTables (.value (resolvedParams authProvider exampleDb)) "token1",
         Call.cacheGet (.value (resolvedParams authProvider exampleDb)) "token1",
         Call.getConnection "u1",
         Call.getAffectedTablesFromQuery (.str "connection") (.bool true),
         Call.cacheSet (.value (resolvedParams authProvider exampleDb)) "token1"
           (.arr [.str "public.t", .bool true])] :=
  ⟨((getAffectedTables_hit hitEnv authProvider (fun _ => .undefined) [] _ hitExample).2.1
      rfl).1,
    ((getAffectedTables_hit hitEnv authProvider (fun _ => .bool true) [] _ hitExample).2.2
      rfl).2.2 (.str "connection") (.arr [.str "public.t", .bool true]) rfl rfl⟩

theorem intercalate_go_append (x y s : String) (l : List String) :
    String.intercalate.go (x ++ y) s l = x ++ String.intercalate.go y s l := by
  induction l generalizing y with
  | nil => rfl
  | cons a l ih =>
    simp only [String.intercalate.go]
    rw [String.append_assoc, String.append_assoc, ih, String.append_assoc]

theorem intercalate_cons_cons (s a b : String) (l : List String) :
    s.intercalate (a :: b :: l) = a ++ s ++ s.intercalate (b :: l) := by
  simp only [String.intercalate, String.intercalate.go]
  rw [String.append_assoc, intercalate_go_append, intercalate_go_append, String.append_assoc]

theorem joinQueries_eq (qs : List (Option String)) :
    joinQueries qs = ";".intercalate (qs.map fun q => q.getD "") := by
  induction qs with
  | nil => rfl
  | cons q rest ih =>
    cases rest with
    | nil => simp [joinQueries, String.intercalate, String.intercalate.go]
    | cons r rest =>
      rw [joinQueries, ih]
      simp only [List.map_cons]
      rw [intercalate_cons_cons]

theorem layerQueries_map (layer : Layer) :
    (layerQueries layer).map (fun q => q.getD "") = layerEntries layer := by
  simp only [layerQueries, layerEntries, List.map_cons]
  cases layer.options.affected_tables with
  | none => rfl
  | some tables => simp [Function.comp_def]

theorem collectQueries_map (layers : List Layer) :
    (collectQueries layers).map (fun q => q.getD "") = layers.flatMap layerEntries := by
  induction layers with
  | nil => rfl
  | cons layer rest ih =>
    simp only [collectQueries, List.flatMap_cons, List.map_append] at ih ⊢
    rw [ih, layerQueries_map]

theorem combinedSql_eq (layers : List Layer) :
    combinedSql layers =
      match layers with
      | [] => none
      | _ :: _ => some (";".intercalate (layers.flatMap layerEntries)) := by
  cases layers with
  | nil => rfl
  | cons layer rest =>
    simp only [combinedSql, joinQueries_eq, collectQueries_map]
    simp [collectQueries, layerQueries]

theorem getAffectedTables_miss {env : Env} {self : Provider} {hist : History}
    {mapConfig : MapConfig} {sql : String} (callback : AffectedTablesCallback)
    (h : Miss env self hist mapConfig sql) :
    getAffectedTables env self callback hist =
      ([(queryAndFinish env (getMapConfig env self hist).2.1 (missHist env self hist mapConfig)
          (getMapConfig env self hist).2.1.rendererParams (env.mapConfigId mapConfig)
          (.str sql)).1],
        (queryAndFinish env (getMapConfig env self hist).2.1 (missHist env self hist mapConfig)
          (getMapConfig env self hist).2.1.rendererParams (env.mapConfigId mapConfig)
          (.str sql)).2.1,
        (queryAndFinish env (getMapConfig env self hist).2.1 (missHist env self hist mapConfig)
          (getMapConfig env self hist).2.1.rendererParams (env.mapConfigId mapConfig)
          (.str sql)).2.2) := by
  rw [getAffectedTables_resolved env self callback hist mapConfig h.err_none h.resolved]
  simp only [h.absent, Bool.false_eq_true, if_false, h.combined, h.nonempty]

/-- C20, as stated, fails: for the layers of the acceptance test `can use an http layer`,
an http layer without sql followed by a layer with sql, the SQL handed to the introspection
query starts with a separator: the http layer contributes an empty entry. -/
theorem combinedSql_counterexample :
    combinedSql httpDoc.layers = some ";select * from test_table_private_1" ∧
    affectedTablesCalls (envWithDoc httpDoc) authProvider (fun _ => .undefined) [] =
      [Call.hasAffectedTables (.value (resolvedParams authProvider exampleDb)) "token1",
       Call.getConnection "u1",
       Call.getAffectedTablesFromQuery (.str "connection")
         (.str ";select * from test_table_private_1"),
       Call.cacheSet (.value (resolvedParams authProvider exampleDb)) "token1"
         (.arr [.str "public.t", .str ";select * from test_table_private_1"])] :=
  ⟨by decide, rfl⟩

/-- C20, amended. On a cache miss the SQL handed to the table-introspection service is the
semicolon-join, in layer order, of one entry per layer, its `options.sql` or the empty string
when the layer has no sql, each followed by `SELECT * FROM <table> LIMIT 0` for every entry
of that layer's `options.affected_tables` in declaration order. -/
theorem combinedSql_handed (env : Env) (self : Provider) (callback : AffectedTablesCallback)
    (hist : History) (mapConfig : MapConfig) (sql : String) (connection : JSValue)
    (h : Miss env self hist mapConfig sql)
    (hc : env.pgConnection.getConnection (missHist env self hist mapConfig) self.owner =
      .ok connection) :
    sql = ";".intercalate (mapConfig.cfg.layers.flatMap layerEntries) ∧
    (∀ layer, layerEntries layer =
      layer.options.sql.getD "" ::
        (layer.options.affected_tables.getD []).map
          fun table => "SELECT * FROM " ++ table ++ " LIMIT 0") ∧
    (∃ rest, (getAffectedTables env self callback hist).2.2 =
      missHist env self hist mapConfig ++
        [Call.getConnection self.owner,
          Call.getAffectedTablesFromQuery connection (.str sql)] ++
        rest) ∧
    (getAffectedTables env self callback hist).1.map (fun r => r.err) =
      [match env.queryTables.getAffectedTablesFromQuery
          (missHist env self hist mapConfig ++ [Call.getConnection self.owner]) connection
          (.str sql) with
        | .error e => some e
        | .ok _ => none] := by
  have hsql : sql = ";".intercalate (mapConfig.cfg.layers.flatMap layerEntries) := by
    have hcomb := h.combined
    rw [combinedSql_eq] at hcomb
    cases hl : mapConfig.cfg.layers with
    | nil => rw [hl] at hcomb; cases hcomb
    | cons layer rest =>
      rw [hl] at hcomb
      injection hcomb with hcomb
      exact hcomb.symm
  rw [← getMapConfig_owner env self hist] at hc ⊢
  refine ⟨hsql, fun layer => rfl, ?_, ?_⟩
  · rw [getAffectedTables_miss callback h]
    cases hq : env.queryTables.getAffectedTablesFromQuery
        (missHist env self hist mapConfig ++ [Call.getConnection
          (getMapConfig env self hist).2.1.owner]) connection (.str sql) with
    | error e =>
      rw [queryAndFinish_query_failed _ _ _ _ _ _ connection e hc hq]
      exact ⟨[], by simp⟩
    | ok v =>
      rw [queryAndFinish_stored _ _ _ _ _ _ connection v hc hq]
      exact ⟨[Call.cacheSet (getMapConfig env self hist).2.1.rendererParams
        (env.mapConfigId mapConfig) v], by simp⟩
  · rw [getAffectedTables_miss callback h]
    cases hq : env.queryTables.getAffectedTablesFromQuery
        (missHist env self hist mapConfig ++ [Call.getConnection
          (getMapConfig env self hist).2.1.owner]) connection (.str sql) with
    | error e =>
      rw [queryAndFinish_query_failed _ _ _ _ _ _ connection e hc hq]
      rfl
    | ok v =>
      rw [queryAndFinish_stored _ _ _ _ _ _ connection v hc hq]
      rfl

theorem exampleMiss :
    Miss exampleEnv authProvider [] ⟨exampleDoc, .obj [("ds", .nat 1)]⟩ "select 1" :=
  ⟨rfl, rfl, rfl, by decide, by decide⟩

theorem combinedSql_handed_witness :
    "select 1" = ";".intercalate (exampleDoc.layers.flatMap layerEntries) ∧
    ∃ rest, (getAffectedTables exampleEnv authProvider (fun _ => .bool true) []).2.2 =
      missHist exampleEnv authProvider [] ⟨exampleDoc, .obj [("ds", .nat 1)]⟩ ++
        [Call.getConnection authProvider.owner,
          Call.getAffectedTablesFromQuery (.str "connection") (.str "select 1")] ++ rest :=
  ⟨(combinedSql_handed exampleEnv authProvider (fun _ => .bool true) [] _ "select 1"
      (.str "connection") exampleMiss rfl).1,
    (combinedSql_handed exampleEnv authProvider (fun _ => .bool true) [] _ "select 1"
      (.str "connection") exampleMiss rfl).2.2.1⟩

/-- C21, evaluated at the failing input: for a MapConfig with two http layers, none of
which has sql or affected tables, the combined SQL is `;`, which is not empty, so
`getAffectedTables` acquires a connection, runs the introspection query on `;` and stores
its result, whatever the callback returns; with no layers, or with one such layer, and a
callback that returns `undefined`, it makes no database round-trip. -/
theorem getAffectedTables_two_http :
    combinedSql twoHttpDoc.layers = some ";" ∧
    (∀ callback, affectedTablesCalls (envWithDoc twoHttpDoc) authProvider callback [] =
      [Call.hasAffectedTables (.value (resolvedParams authProvider exampleDb)) "token1",
       Call.getConnection "u1",
       Call.getAffectedTablesFromQuery (.str "connection") (.str ";"),
       Call.cacheSet (.value (resolvedParams authProvider exampleDb)) "token1"
         (.arr [.str "public.t", .str ";"])]) ∧
    (∀ callback, (getAffectedTables (envWithDoc twoHttpDoc) authProvider callback []).1 =
      [⟨none, .arr [.str "public.t", .str ";"]⟩]) ∧
    affectedTablesCalls (envWithDoc ⟨"1.3.0", []⟩) authProvider (fun _ => .undefined) [] =
      [Call.hasAffectedTables (.value (resolvedParams authProvider exampleDb)) "token1"] ∧
    (getAffectedTables (envWithDoc ⟨"1.3.0", []⟩) authProvider (fun _ => .undefined) []).1 =
      [⟨none, .undefined⟩] ∧
    affectedTablesCalls (envWithDoc ⟨"1.3.0", [⟨⟨none, none⟩⟩]⟩) authProvider
        (fun _ => .undefined) [] =
      [Call.hasAffectedTables (.value (resolvedParams authProvider exampleDb)) "token1"] ∧
    (getAffectedTables (envWithDoc ⟨"1.3.0", [⟨⟨none, none⟩⟩]⟩) authProvider
        (fun _ => .undefined) []).1 = [⟨none, .undefined⟩] :=
  ⟨by decide, fun _ => rfl, fun _ => rfl, rfl, rfl, rfl, rfl⟩

theorem returnCallback_made (env : Env) (self : Provider) (hist : History)
    (dbname : Slot JSObj) (token : String) (callback : AffectedTablesCallback)
    (value : JSValue) :
    ∃ made, (returnCallback env self hist dbname token callback ⟨none, value⟩).2.2 =
        hist ++ made ∧
      ((∃ r ∈ (returnCallback env self hist dbname token callback ⟨none, value⟩).1,
          r.err.isSome = true) → ∀ call ∈ made, call.isCacheSet = false) ∧
      (∀ call ∈ made, call.isCacheSet = true →
        ∃ queryHist connection sql stored,
          env.queryTables.getAffectedTablesFromQuery queryHist connection sql = .ok stored ∧
          (returnCallback env self hist dbname token callback ⟨none, value⟩).1.getLast? =
            some ⟨none, stored⟩) := by
  cases hu : (callback ⟨none, value⟩).isUndefined with
  | true =>
    rw [returnCallback_undefined _ _ _ _ _ _ _ hu]
    exact ⟨[], by simp, by simp, by simp⟩
  | false =>
    rw [returnCallback_value _ _ _ _ _ _ _ hu]
    obtain ⟨made, h1, h2, h3⟩ := queryAndFinish_made env self hist dbname token
      (callback ⟨none, value⟩)
    refine ⟨Call.getConnection self.owner :: made, h1, ?_, ?_⟩
    · rintro ⟨r, hr, he⟩ call hcall
      simp only [List.mem_cons, List.mem_singleton, List.not_mem_nil, or_false] at hr
      rcases hr with rfl | rfl
      · simp at he
      · rcases List.mem_cons.1 hcall with rfl | hcall
        · rfl
        · exact h2 he call hcall
    · intro call hcall hset
      rcases List.mem_cons.1 hcall with rfl | hcall
      · simp [Call.isCacheSet] at hset
      · obtain ⟨queryHist, connection, stored, hq, hres⟩ := h3 call hcall hset
        exact ⟨queryHist, connection, _, stored, hq, by simp [hres]⟩

theorem getAffectedTables_made (env : Env) (self : Provider)
    (callback : AffectedTablesCallback) (hist : History) :
    ∃ made, (getAffectedTables env self callback hist).2.2 =
        (getMapConfig env self hist).2.2 ++ made ∧
      ((∃ r ∈ (getAffectedTables env self callback hist).1, r.err.isSome = true) →
        ∀ call ∈ made, call.isCacheSet = false) ∧
      (∀ call ∈ made, call.isCacheSet = true →
        ∃ queryHist connection sql value,
          env.queryTables.getAffectedTablesFromQuery queryHist connection sql = .ok value ∧
          (getAffectedTables env self callback hist).1.getLast? = some ⟨none, value⟩) := by
  cases he : (getMapConfig env self hist).1.err with
  | some e =>
    rw [getAffectedTables_failed env self callback hist e he]
    exact ⟨[], by simp, by simp, by simp⟩
  | none =>
    cases hm : (getMapConfig env self hist).1.mapConfig with
    | none =>
      simp only [getAffectedTables, he, hm]
      exact ⟨[], by simp, by simp, by simp⟩
    | some mapConfig =>
      rw [getAffectedTables_resolved env self callback hist mapConfig he hm]
      have hret : ∀ (calls : List Call) (value : JSValue),
          (∀ call ∈ calls, call.isCacheSet = false) →
          ∃ made, (returnCallback env (getMapConfig env self hist).2.1
              ((getMapConfig env self hist).2.2 ++ calls)
              (getMapConfig env self hist).2.1.rendererParams (env.mapConfigId mapConfig)
              callback ⟨none, value⟩).2.2 = (getMapConfig env self hist).2.2 ++ made ∧
            ((∃ r ∈ (returnCallback env (getMapConfig env self hist).2.1
                ((getMapConfig env self hist).2.2 ++ calls)
                (getMapConfig env self hist).2.1.rendererParams (env.mapConfigId mapConfig)
                callback ⟨none, value⟩).1, r.err.isSome = true) →
              ∀ call ∈ made, call.isCacheSet = false) ∧
            (∀ call ∈ made, call.isCacheSet = true →
              ∃ queryHist connection sql stored,
                env.queryTables.getAffectedTablesFromQuery queryHist connection sql =
                  .ok stored ∧
                (returnCallback env (getMapConfig env self hist).2.1
                  ((getMapConfig env self hist).2.2 ++ calls)
                  (getMapConfig env self hist).2.1.rendererParams (env.mapConfigId mapConfig)
                  callback ⟨none, value⟩).1.getLast? = some ⟨none, stored⟩) := by
        intro calls value hcalls
        obtain ⟨made, h1, h2, h3⟩ := returnCallback_made env (getMapConfig env self hist).2.1
          ((getMapConfig env self hist).2.2 ++ calls)
          (getMapConfig env self hist).2.1.rendererParams (env.mapConfigId mapConfig)
          callback value
        refine ⟨calls ++ made, by rw [h1, List.append_assoc], ?_, ?_⟩
        · intro hr call hcall
          rcases List.mem_append.1 hcall with hcall | hcall
          · exact hcalls call hcall
          · exact h2 hr call hcall
        · intro call hcall hset
          rcases List.mem_append.1 hcall with hcall | hcall
          · rw [hcalls call hcall] at hset
            cases hset
          · exact h3 call hcall hset
      by_cases hhit : env.affectedTablesCache.hasAffectedTables (getMapConfig env self hist).2.2
          (getMapConfig env self hist).2.1.rendererParams (env.mapConfigId mapConfig) = true
      · rw [if_pos hhit]
        exact hret _ _ (by simp [Call.isCacheSet])
      · rw [if_neg hhit]
        cases hs : combinedSql mapConfig.cfg.layers with
        | none => exact hret _ _ (by simp [Call.isCacheSet])
        | some sql =>
          by_cases hempty : sql = ""
          · simp only [hempty, if_true]
            exact hret _ _ (by simp [Call.isCacheSet])
          · simp only [hempty, if_false]
            obtain ⟨made, h1, h2, h3⟩ := queryAndFinish_made env
              (getMapConfig env self hist).2.1 (missHist env self hist mapConfig)
              (getMapConfig env self hist).2.1.rendererParams (env.mapConfigId mapConfig)
              (.str sql)
            refine ⟨Call.hasAffectedTables (getMapConfig env self hist).2.1.rendererParams
              (env.mapConfigId mapConfig) ::
                Call.getConnection (getMapConfig env self hist).2.1.owner :: made,
              by rw [h1]; simp [missHist], ?_, ?_⟩
            · rintro ⟨r, hr, he2⟩ call hcall
              simp only [List.mem_singleton] at hr
              subst hr
              simp only [List.mem_cons] at hcall
              rcases hcall with rfl | rfl | hcall
              · rfl
              · rfl
              · exact h2 he2 call hcall
            · intro call hcall hset
              simp only [List.mem_cons] at hcall
              rcases hcall with rfl | rfl | hcall
              · simp [Call.isCacheSet] at hset
              · simp [Call.isCacheSet] at hset
              · obtain ⟨queryHist, connection, stored, hq, hres⟩ := h3 call hcall hset
                exact ⟨queryHist, connection, _, stored, hq, by simp [hres]⟩

/-- C22. The affected-tables cache never memoizes failures: if resolving the MapConfig,
acquiring the connection or the table-introspection query fails, `getAffectedTables` calls
back with that error and does not call `affectedTablesCache.set`; among the calls that
`getAffectedTables` makes, a `set` occurs only when the introspection query has succeeded
and no call of the callback carried an error, and the resolution itself makes none. -/
theorem affectedTables_failures (env : Env) (self : Provider)
    (callback : AffectedTablesCallback) (hist : History) :
    (∀ e, (getMapConfig env self hist).1.err = some e →
      (getAffectedTables env self callback hist).1 = [⟨some e, .undefined⟩] ∧
      (getAffectedTables env self callback hist).2.2 = (getMapConfig env self hist).2.2) ∧
    (∀ mapConfig sql e, Miss env self hist mapConfig sql →
      env.pgConnection.getConnection (missHist env self hist mapConfig) self.owner = .error e →
      (getAffectedTables env self callback hist).1 = [⟨some e, .undefined⟩] ∧
      (getAffectedTables env self callback hist).2.2 =
        missHist env self hist mapConfig ++ [Call.getConnection self.owner]) ∧
    (∀ mapConfig sql connection e, Miss env self hist mapConfig sql →
      env.pgConnection.getConnection (missHist env self hist mapConfig) self.owner =
        .ok connection →
      env.queryTables.getAffectedTablesFromQuery
        (missHist env self hist mapConfig ++ [Call.getConnection self.owner]) connection
        (.str sql) = .error e →
      (getAffectedTables env self callback hist).1 = [⟨some e, .undefined⟩] ∧
      (getAffectedTables env self callback hist).2.2 =
        missHist env self hist mapConfig ++ [Call.getConnection self.owner] ++
          [Call.getAffectedTablesFromQuery connection (.str sql)]) ∧
    (∃ made, (getAffectedTables env self callback hist).2.2 =
        (getMapConfig env self hist).2.2 ++ made ∧
      ((∃ r ∈ (getAffectedTables env self callback hist).1, r.err.isSome = true) →
        ∀ call ∈ made, call.isCacheSet = false) ∧
      (∀ call ∈ made, call.isCacheSet = true →
        ∃ queryHist connection sql value,
          env.queryTables.getAffectedTablesFromQuery queryHist connection sql = .ok value ∧
          (getAffectedTables env self callback hist).1.getLast? = some ⟨none, value⟩)) ∧
    AddsUpTo 7 hist (getMapConfig env self hist).2.2 := by
  refine ⟨fun e he => ?_, fun mapConfig sql e hm hc => ?_,
    fun mapConfig sql connection e hm hc hq => ?_, getAffectedTables_made env self callback hist,
    getMapConfig_adds env self hist⟩
  · rw [getAffectedTables_failed env self callback hist e he]
    exact ⟨rfl, rfl⟩
  · rw [getAffectedTables_miss callback hm]
    rw [← getMapConfig_owner env self hist] at hc ⊢
    rw [queryAndFinish_no_connection _ _ _ _ _ _ e hc]
    exact ⟨rfl, rfl⟩
  · rw [getAffectedTables_miss callback hm]
    rw [← getMapConfig_owner env self hist] at hc hq ⊢
    rw [queryAndFinish_query_failed _ _ _ _ _ _ connection e hc hq]
    exact ⟨rfl, rfl⟩

theorem affectedTables_failures_witness :
    (getAffectedTables dbFailingEnv authProvider (fun _ => .bool true) []).1 =
      [⟨some ⟨"name not found", none⟩, .undefined⟩] ∧
    (getAffectedTables { exampleEnv with queryTables := failingEnv.queryTables }
      authProvider (fun _ => .bool true) []).1 = [⟨some ⟨"query failed", none⟩, .undefined⟩] :=
  ⟨((affectedTables_failures dbFailingEnv authProvider (fun _ => .bool true) []).1
      ⟨"name not found", none⟩ rfl).1,
    ((affectedTables_failures { exampleEnv with queryTables := failingEnv.queryTables }
      authProvider (fun _ => .bool true) []).2.2.1 ⟨exampleDoc, .obj [("ds", .nat 1)]⟩
      "select 1" (.str "connection")
      ⟨"query failed", none⟩ ⟨rfl, rfl, rfl, by decide, by decide⟩ rfl rfl).1⟩

/-- C23, as the code has it. On a cache miss with a successful introspection query,
`getAffectedTables` stores the result with `affectedTablesCache.set(rendererParams,
mapConfig.id(), result)` and calls back with that same result, once. For a cache whose
`hasAffectedTables` and `get` reflect that `set`, a second `getAffectedTables` call on the
provider calls back with the same result. When the callback of the second call returns
`undefined`, no connection is acquired and no introspection query is made; when it returns
any other value, a connection is acquired again and, with a connection, the introspection
query is made again, on the value that the callback returned. -/
theorem getAffectedTables_stored (env env2 : Env) (self : Provider)
    (callback callback2 : AffectedTablesCallback) (hist : History)
    (mapConfig : MapConfig) (sql : String) (connection result : JSValue)
    (h : Miss env self hist mapConfig sql)
    (hc : env.pgConnection.getConnection (missHist env self hist mapConfig) self.owner =
      .ok connection)
    (hq : env.queryTables.getAffectedTablesFromQuery
      (missHist env self hist mapConfig ++ [Call.getConnection self.owner]) connection
      (.str sql) = .ok result)
    (hid : env2.mapConfigId mapConfig = env.mapConfigId mapConfig)
    (hhas : env2.affectedTablesCache.hasAffectedTables
      (getAffectedTables env self callback hist).2.2
      (getMapConfig env self hist).2.1.rendererParams (env.mapConfigId mapConfig) = true)
    (hget : env2.affectedTablesCache.get
      ((getAffectedTables env self callback hist).2.2 ++
        [Call.hasAffectedTables (getMapConfig env self hist).2.1.rendererParams
          (env.mapConfigId mapConfig)])
      (getMapConfig env self hist).2.1.rendererParams (env.mapConfigId mapConfig) = result) :
    (getAffectedTables env self callback hist).1 = [⟨none, result⟩] ∧
    (getAffectedTables env self callback hist).2.2 =
      missHist env self hist mapConfig ++
        [Call.getConnection self.owner,
         Call.getAffectedTablesFromQuery connection (.str sql),
         Call.cacheSet (getMapConfig env self hist).2.1.rendererParams
           (env.mapConfigId mapConfig) result] ∧
    (getAffectedTables env2 (getAffectedTables env self callback hist).2.1 callback2
        (getAffectedTables env self callback hist).2.2).1.head? = some ⟨none, result⟩ ∧
    ((callback2 ⟨none, result⟩).isUndefined = true →
      (getAffectedTables env2 (getAffectedTables env self callback hist).2.1 callback2
          (getAffectedTables env self callback hist).2.2).1 = [⟨none, result⟩] ∧
      (getAffectedTables env2 (getAffectedTables env self callback hist).2.1 callback2
          (getAffectedTables env self callback hist).2.2).2.2 =
        (getAffectedTables env self callback hist).2.2 ++
          [Call.hasAffectedTables (getMapConfig env self hist).2.1.rendererParams
             (env.mapConfigId mapConfig),
           Call.cacheGet (getMapConfig env self hist).2.1.rendererParams
             (env.mapConfigId mapConfig)]) ∧
    ((callback2 ⟨none, result⟩).isUndefined = false →
      (∃ rest, (getAffectedTables env2 (getAffectedTables env self callback hist).2.1 callback2
          (getAffectedTables env self callback hist).2.2).2.2 =
        (getAffectedTables env self callback hist).2.2 ++
          [Call.hasAffectedTables (getMapConfig env self hist).2.1.rendererParams
             (env.mapConfigId mapConfig),
           Call.cacheGet (getMapConfig env self hist).2.1.rendererParams
             (env.mapConfigId mapConfig),
           Call.getConnection self.owner] ++ rest) ∧
      (∀ connection2,
        env2.pgConnection.getConnection
          ((getAffectedTables env self callback hist).2.2 ++
            [Call.hasAffectedTables (getMapConfig env self hist).2.1.rendererParams
               (env.mapConfigId mapConfig),
             Call.cacheGet (getMapConfig env self hist).2.1.rendererParams
               (env.mapConfigId mapConfig)]) self.owner = .ok connection2 →
        ∃ rest, (getAffectedTables env2 (getAffectedTables env self callback hist).2.1
            callback2 (getAffectedTables env self callback hist).2.2).2.2 =
          (getAffectedTables env self callback hist).2.2 ++
            [Call.hasAffectedTables (getMapConfig env self hist).2.1.rendererParams
               (env.mapConfigId mapConfig),
             Call.cacheGet (getMapConfig env self hist).2.1.rendererParams
               (env.mapConfigId mapConfig),
             Call.getConnection self.owner,
             Call.getAffectedTablesFromQuery connection2 (callback2 ⟨none, result⟩)] ++
            rest)) := by
  have hfirst : getAffectedTables env self callback hist =
      ([⟨none, result⟩], (getMapConfig env self hist).2.1,
        missHist env self hist mapConfig ++ [Call.getConnection self.owner] ++
          [Call.getAffectedTablesFromQuery connection (.str sql)] ++
          [Call.cacheSet (getMapConfig env self hist).2.1.rendererParams
            (env.mapConfigId mapConfig) result]) := by
    rw [getAffectedTables_miss callback h]
    rw [← getMapConfig_owner env self hist] at hc hq ⊢
    rw [queryAndFinish_stored _ _ _ _ _ _ connection result hc hq]
  obtain ⟨s1, s2⟩ := getMapConfig_settled env self hist
  have hmemo : ∀ hist2, getMapConfig env2 (getMapConfig env self hist).2.1 hist2 =
      ((getMapConfig env self hist).1, (getMapConfig env self hist).2.1, hist2) := by
    intro hist2
    rw [getMapConfig_memo env2 _ hist2 s1, ← s2]
  have hp : (getAffectedTables env self callback hist).2.1 = (getMapConfig env self hist).2.1 := by
    rw [hfirst]
  have hhit : Hit env2 (getMapConfig env self hist).2.1
      (getAffectedTables env self callback hist).2.2 mapConfig :=
    ⟨by rw [hmemo]; exact h.err_none, by rw [hmemo]; exact h.resolved,
      by rw [hmemo, hid]; exact hhas⟩
  have hcached : cachedResult env2 (getMapConfig env self hist).2.1
      (getAffectedTables env self callback hist).2.2 mapConfig = ⟨none, result⟩ := by
    simp only [cachedResult, missHist, hmemo, hid, hget]
  have hhist : hitHist env2 (getMapConfig env self hist).2.1
      (getAffectedTables env self callback hist).2.2 mapConfig =
      (getAffectedTables env self callback hist).2.2 ++
        [Call.hasAffectedTables (getMapConfig env self hist).2.1.rendererParams
           (env.mapConfigId mapConfig),
         Call.cacheGet (getMapConfig env self hist).2.1.rendererParams
           (env.mapConfigId mapConfig)] := by
    simp only [hitHist, hmemo, hid]
  have hown : (getMapConfig env2 (getMapConfig env self hist).2.1
      (getAffectedTables env self callback hist).2.2).2.1.owner = self.owner := by
    rw [hmemo]
    exact getMapConfig_owner env self hist
  have hrp : (getMapConfig env2 (getMapConfig env self hist).2.1
      (getAffectedTables env self callback hist).2.2).2.1.rendererParams =
      (getMapConfig env self hist).2.1.rendererParams := by
    rw [hmemo]
  have hsecond := getAffectedTables_hit env2 (getMapConfig env self hist).2.1 callback2
    (getAffectedTables env self callback hist).2.2 mapConfig hhit
  rw [hcached, hhist] at hsecond
  simp only [hmemo, hid, hget] at hsecond
  rw [hp]
  obtain ⟨g1, g2, g3⟩ := hsecond
  refine ⟨by rw [hfirst], by rw [hfirst]; simp, g1, g2, fun hv => ?_⟩
  obtain ⟨-, ⟨rest, hrest⟩, hconn⟩ := g3 hv
  rw [getMapConfig_owner] at hrest hconn
  refine ⟨⟨rest, by rw [hrest]; simp⟩, fun connection2 hc2 => ?_⟩
  have hval := getAffectedTables_on_hit callback2 hhit
  rw [hcached, hhist, hmemo, hid, returnCallback_value _ _ _ _ _ _ _ hv] at hval
  rw [hval]
  rw [← getMapConfig_owner env self hist] at hc2 ⊢
  obtain ⟨rest2, hrest2⟩ := queryAndFinish_queried env2 (getMapConfig env self hist).2.1
    ((getAffectedTables env self callback hist).2.2 ++
      [Call.hasAffectedTables (getMapConfig env self hist).2.1.rendererParams
         (env.mapConfigId mapConfig),
       Call.cacheGet (getMapConfig env self hist).2.1.rendererParams
         (env.mapConfigId mapConfig)])
    (getMapConfig env self hist).2.1.rendererParams (env.mapConfigId mapConfig)
    (callback2 ⟨none, result⟩) connection2 hc2
  exact ⟨rest2, by rw [hrest2]; simp⟩

theorem getAffectedTables_stored_witness :
    (getAffectedTables exampleEnv authProvider (fun _ => .undefined) []).1 =
      [⟨none, .arr [.str "public.t", .str "select 1"]⟩] ∧
    (getAffectedTables exampleEnv
        (getAffectedTables exampleEnv authProvider (fun _ => .undefined) []).2.1
        (fun _ => .undefined)
        (getAffectedTables exampleEnv authProvider (fun _ => .undefined) []).2.2).1 =
      [⟨none, .arr [.str "public.t", .str "select 1"]⟩] ∧
    ∃ rest, (getAffectedTables exampleEnv
        (getAffectedTables exampleEnv authProvider (fun _ => .undefined) []).2.1
        (fun _ => .bool true)
        (getAffectedTables exampleEnv authProvider (fun _ => .undefined) []).2.2).2.2 =
      (getAffectedTables exampleEnv authProvider (fun _ => .undefined) []).2.2 ++
        [Call.hasAffectedTables (.value (resolvedParams authProvider exampleDb)) "token1",
         Call.cacheGet (.value (resolvedParams authProvider exampleDb)) "token1",
         Call.getConnection "u1",
         Call.getAffectedTablesFromQuery (.str "connection") (.bool true)] ++ rest :=
  ⟨(getAffectedTables_stored exampleEnv exampleEnv authProvider (fun _ => .undefined)
      (fun _ => .undefined) [] ⟨exampleDoc, .obj [("ds", .nat 1)]⟩ "select 1"
      (.str "connection") (.arr [.str "public.t", .str "select 1"]) exampleMiss rfl rfl rfl rfl
      rfl).1,
    ((getAffectedTables_stored exampleEnv exampleEnv authProvider (fun _ => .undefined)
      (fun _ => .undefined) [] ⟨exampleDoc, .obj [("ds", .nat 1)]⟩ "select 1"
      (.str "connection") (.arr [.str "public.t", .str "select 1"]) exampleMiss rfl rfl rfl rfl
      rfl).2.2.2.1 rfl).1,
    ((getAffectedTables_stored exampleEnv exampleEnv authProvider (fun _ => .undefined)
      (fun _ => .bool true) [] ⟨exampleDoc, .obj [("ds", .nat 1)]⟩ "select 1"
      (.str "connection") (.arr [.str "public.t", .str "select 1"]) exampleMiss rfl rfl rfl rfl
      rfl).2.2.2.2 rfl).2 (.str "connection") rfl⟩
/-! ## Strings -/

theorem startsWithChars_iff (s pat : List Char) :
    startsWithChars s pat = true ↔ ∃ suf, s = pat ++ suf := by
  induction pat generalizing s with
  | nil => cases s <;> simp [startsWithChars]
  | cons d pat ih =>
    cases s with
    | nil => simp [startsWithChars]
    | cons c s =>
      simp only [startsWithChars, Bool.and_eq_true, beq_iff_eq, ih, List.cons_append,
        List.cons.injEq]
      constructor
      · rintro ⟨rfl, suf, rfl⟩
        exact ⟨suf, rfl, rfl⟩
      · rintro ⟨suf, rfl, rfl⟩
        exact ⟨rfl, suf, rfl⟩

theorem indexOfFrom_nonneg (pat s : List Char) (i : Nat)
    (h : ∃ pre suf, s = pre ++ pat ++ suf) : indexOfFrom pat s i ≠ -1 := by
  induction s generalizing i with
  | nil =>
    obtain ⟨pre, suf, h⟩ := h
    have hp : pat = [] := by
      have := congrArg List.length h
      simp at this
      exact List.eq_nil_of_length_eq_zero (by omega)
    subst hp
    simp only [indexOfFrom, startsWithChars, if_true]
    omega
  | cons c s ih =>
    simp only [indexOfFrom]
    split
    · omega
    · next hs =>
      obtain ⟨pre, suf, h⟩ := h
      cases pre with
      | nil =>
        exact absurd ((startsWithChars_iff _ _).2 ⟨suf, by simpa using h⟩) hs
      | cons p pre =>
        simp only [List.cons_append, List.cons.injEq] at h
        exact ih (i + 1) ⟨pre, suf, h.2⟩

theorem indexOfFrom_absent (pat s : List Char) (i : Nat)
    (h : ¬ ∃ pre suf, s = pre ++ pat ++ suf) : indexOfFrom pat s i = -1 := by
  induction s generalizing i with
  | nil =>
    simp only [indexOfFrom]
    split
    · next hs =>
      obtain ⟨suf, hsuf⟩ := (startsWithChars_iff _ _).1 hs
      exact absurd ⟨[], suf, by simpa using hsuf⟩ h
    · rfl
  | cons c s ih =>
    simp only [indexOfFrom]
    split
    · next hs =>
      obtain ⟨suf, hsuf⟩ := (startsWithChars_iff _ _).1 hs
      exact absurd ⟨[], suf, by simpa using hsuf⟩ h
    · apply ih
      rintro ⟨pre, suf, hps⟩
      exact h ⟨c :: pre, suf, by simp [hps]⟩

theorem indexOf_ne_iff (s pat : String) :
    (-1 : Int) ≠ indexOf s pat ↔ ∃ pre suf : String, s = pre ++ pat ++ suf := by
  constructor
  · intro h
    by_contra hn
    apply h
    symm
    apply indexOfFrom_absent
    rintro ⟨pre, suf, hps⟩
    exact hn ⟨String.mk pre, String.mk suf, String.ext (by simpa using hps)⟩
  · rintro ⟨pre, suf, rfl⟩
    intro h
    exact indexOfFrom_nonneg pat.toList _ 0 ⟨pre.toList, suf.toList, by simp⟩ h.symm

/-! ## The middleware and the controller: C25, C24 -/

/-- C25. `dbConnSetupMiddleware`: when `setDBConn` fails with an error whose message
contains `name not found`, the error is forwarded to `next` with `http_status` set to 404;
any other error is forwarded as it is; and on success `next` is called with no error after
`dbuser`, `dbpassword`, `dbhost` and `dbport` have been filled in from the environment, each
only where `setDBConn` left it unset. -/
theorem dbConnSetup_spec (setDBConn : String → JSObj → Option JSError × JSObj)
    (postgres : PostgresEnvironment) (user : String) :
    (∀ e db, setDBConn user JSObj.empty = (some e, db) →
      (∃ pre suf : String, e.message = pre ++ "name not found" ++ suf) →
      (dbConnSetupMiddleware setDBConn postgres user).err =
        some { e with http_status := some 404 }) ∧
    (∀ e db, setDBConn user JSObj.empty = (some e, db) →
      (¬ ∃ pre suf : String, e.message = pre ++ "name not found" ++ suf) →
      (dbConnSetupMiddleware setDBConn postgres user).err = some e) ∧
    (∀ db, setDBConn user JSObj.empty = (none, db) →
      (dbConnSetupMiddleware setDBConn postgres user).err = none ∧
      ∀ k, (dbConnSetupMiddleware setDBConn postgres user).db.get k =
        if (db.get k).isUndefined then
          (if k = "dbport" then postgres.port
            else if k = "dbhost" then postgres.host
            else if k = "dbpassword" then postgres.password
            else if k = "dbuser" then postgres.user
            else .undefined)
        else db.get k) := by
  refine ⟨fun e db h hc => ?_, fun e db h hc => ?_, fun db h => ?_⟩
  · have hi := (indexOf_ne_iff e.message "name not found").2 hc
    have hm : e.message ≠ "" := by
      rintro hm
      rw [hm] at hi
      exact hi (by decide)
    simp only [dbConnSetupMiddleware, h]
    rw [if_pos ⟨hm, hi⟩]
  · have hi : ¬ ((-1 : Int) ≠ indexOf e.message "name not found") :=
      fun hi => hc ((indexOf_ne_iff e.message "name not found").1 hi)
    simp only [dbConnSetupMiddleware, h]
    rw [if_neg (fun hh => hi hh.2)]
  · simp only [dbConnSetupMiddleware, h, _defaults, List.foldl_cons, List.foldl_nil, true_and]
    intro k
    rw [get_defaultsFrom _ (JSObj.nodup _)]
    have hget : ∀ o : JSObj, getEntry o.entries k = o.get k := fun _ => rfl
    simp only [hget, JSObj.get_set, JSObj.get_empty]
    simp only [eq_comm]

theorem dbConnSetup_spec_witness :
    (dbConnSetupMiddleware (fun _ db => (some ⟨"user name not found!", none⟩, db))
        ⟨.str "pg", .str "pw", .str "localhost", .nat 5432⟩ "u1").err =
      some ⟨"user name not found!", some 404⟩ ∧
    (dbConnSetupMiddleware (fun _ db => (some ⟨"timeout", some 500⟩, db))
        ⟨.str "pg", .str "pw", .str "localhost", .nat 5432⟩ "u1").err =
      some ⟨"timeout", some 500⟩ :=
  ⟨(dbConnSetup_spec (fun _ db => (some ⟨"user name not found!", none⟩, db))
      ⟨.str "pg", .str "pw", .str "localhost", .nat 5432⟩ "u1").1 _ JSObj.empty rfl
      ⟨"user ", "!", by decide⟩,
    (dbConnSetup_spec (fun _ db => (some ⟨"timeout", some 500⟩, db))
      ⟨.str "pg", .str "pw", .str "localhost", .nat 5432⟩ "u1").2.1 _ JSObj.empty rfl
      (fun h => (indexOf_ne_iff "timeout" "name not found").2 h (by decide))⟩

theorem empty_append_str (s : String) : "" ++ s = s :=
  String.ext (by simp)

theorem errMsgOf_of_message (err : JSError) (h : err.message ≠ "") :
    errMsgOf err = err.message := by
  simp only [errMsgOf, if_pos h, empty_append_str]

/-- C24, as the code has it. The status code of every MapController endpoint is the one
`findStatusCode` gives for the error. Layergroup creation sends the message of the error
verbatim; attributes sends it verbatim when the error has message text; the tile and layer
endpoint sends it verbatim only when the message does not match the mapnik pattern, and
the rewritten message otherwise. -/
theorem sendError_spec (findStatusCode : JSError → Nat) (err : JSError) :
    createError findStatusCode err = ⟨[err.message], findStatusCode err⟩ ∧
    (err.message ≠ "" →
      attributesError findStatusCode err = ⟨[err.message], findStatusCode err⟩) ∧
    (err.message ≠ "" → matchStyle err.message.toList = none →
      finalizeGetTileOrGrid findStatusCode err = ⟨[err.message], findStatusCode err⟩) ∧
    (err.message ≠ "" →
      finalizeGetTileOrGrid findStatusCode err =
        ⟨[rewriteStyleError err.message], findStatusCode err⟩) ∧
    (attributesError findStatusCode err).statusCode = findStatusCode err ∧
    (finalizeGetTileOrGrid findStatusCode err).statusCode = findStatusCode err := by
  refine ⟨rfl, fun h => ?_, fun h hm => ?_, fun h => ?_, rfl, rfl⟩
  · simp only [attributesError, errMsgOf_of_message err h]
  · simp only [finalizeGetTileOrGrid, errMsgOf_of_message err h, rewriteStyleError, hm,
      empty_append_str]
  · simp only [finalizeGetTileOrGrid, errMsgOf_of_message err h, empty_append_str]

theorem sendError_spec_witness :
    attributesError (fun e => e.http_status.getD 400) ⟨"Template not found", some 404⟩ =
      ⟨["Template not found"], 404⟩ ∧
    finalizeGetTileOrGrid (fun e => e.http_status.getD 400) ⟨"Template not found", some 404⟩ =
      ⟨["Template not found"], 404⟩ :=
  ⟨(sendError_spec (fun e => e.http_status.getD 400) ⟨"Template not found", some 404⟩).2.1
      (by decide),
    (sendError_spec (fun e => e.http_status.getD 400) ⟨"Template not found", some 404⟩).2.2.1
      (by decide) (by decide)⟩

/-- C24, counterexample. On the tile and layer endpoint an error whose message is
`syntax error in style 'layer0'` is not sent verbatim: the body holds
`style0: syntax error`. -/
theorem sendError_counterexample :
    (finalizeGetTileOrGrid (fun _ => 400) ⟨"syntax error in style 'layer0'", none⟩).errors =
      ["style0: syntax error"] ∧
    (finalizeGetTileOrGrid (fun _ => 400) ⟨"syntax error in style 'layer0'", none⟩).errors ≠
      [(⟨"syntax error in style 'layer0'", none⟩ : JSError).message] := by
  decide

/-! ## filter: C29 -/

theorem readPieces_literal (base : List Char) (hmeta : ∀ c ∈ base, isMetaChar c = false)
    (pending : Option Atom) :
    readPieces pending (base ++ ['.', '*']) =
      some (pending.toList.map Piece.once ++
        (base.map (fun c => Piece.once (.chr c)) ++ [⟨.any, true⟩])) := by
  induction base generalizing pending with
  | nil =>
    simp [readPieces]
  | cons c base ih =>
    have hc : isMetaChar c = false := hmeta c (List.mem_cons_self _ _)
    have hstar : c ≠ '*' := by
      rintro rfl
      exact absurd hc (by decide)
    have hdot : c ≠ '.' := by
      rintro rfl
      exact absurd hc (by decide)
    simp only [List.cons_append, readPieces, if_neg hstar, if_neg hdot, hc, Bool.false_eq_true,
      if_false, List.append_eq]
    rw [ih (fun d hd => hmeta d (List.mem_cons_of_mem _ hd))]
    simp

theorem matchStar_true (a : Atom) (s : List Char) : matchStar (fun _ => true) a s = true := by
  cases s <;> simp [matchStar]

theorem matchPieces_literal (base s : List Char) :
    matchPieces (base.map (fun c => Piece.once (.chr c)) ++ [⟨.any, true⟩]) s = true ↔
      ∃ rest, s = base ++ rest := by
  induction base generalizing s with
  | nil =>
    have hk : matchPieces [] = fun _ => true := by
      funext x
      simp [matchPieces]
    simp [matchPieces, hk, matchStar_true]
  | cons c base ih =>
    cases s with
    | nil => simp [matchPieces, Piece.once]
    | cons d t =>
      simp only [List.map_cons, List.cons_append, Piece.once, matchPieces, Atom.accepts,
        Bool.and_eq_true, beq_iff_eq, List.cons.injEq, List.append_eq]
      have ih2 := ih t
      simp only [Piece.once] at ih2
      rw [ih2]
      constructor
      · rintro ⟨rfl, rest, rfl⟩
        exact ⟨rest, rfl, rfl⟩
      · rintro ⟨rest, rfl, rfl⟩
        exact ⟨rfl, rest, rfl⟩

theorem compileRegex_base (base : String) (hmeta : ∀ c ∈ base.toList, isMetaChar c = false) :
    compileRegex ("^" ++ base ++ ".*").toList =
      some ⟨true, base.toList.map (fun c => Piece.once (.chr c)) ++ [⟨.any, true⟩]⟩ := by
  have h : ("^" ++ base ++ ".*").toList = '^' :: (base.toList ++ ['.', '*']) := by
    simp
  rw [h]
  simp only [compileRegex]
  rw [readPieces_literal base.toList hmeta none]
  simp

theorem filter_general (self : Provider) (base : String)
    (hb : createKey self true = .ok base)
    (hmeta : ∀ c ∈ base.toList, isMetaChar c = false) (key : Option String) :
    filter self key = .ok (some
      (match key with
        | some k =>
          k ≠ "" && matchPieces
            (base.toList.map (fun c => Piece.once (.chr c)) ++ [⟨.any, true⟩]) k.toList
        | none => false)) := by
  simp only [filter, hb, compileRegex_base base hmeta, Regex.test, if_true]

theorem filter_true_iff (self : Provider) (base : String)
    (hb : createKey self true = .ok base)
    (hmeta : ∀ c ∈ base.toList, isMetaChar c = false) (key : Option String) :
    filter self key = .ok (some true) ↔
      ∃ k, key = some k ∧ k ≠ "" ∧ ∃ rest : String, k = base ++ rest := by
  rw [filter_general self base hb hmeta key]
  cases key with
  | none => simp
  | some k =>
    simp only [Except.ok.injEq, Option.some.injEq, Bool.and_eq_true, decide_eq_true_eq,
      matchPieces_literal, exists_eq_left', ne_eq]
    constructor
    · rintro ⟨hk, rest, hr⟩
      exact ⟨hk, String.mk rest, String.ext (by simpa using hr)⟩
    · rintro ⟨hk, rest, hr⟩
      exact ⟨hk, rest.toList, by simp [hr]⟩

/-- C29. For every provider whose base key contains no regular-expression metacharacter,
`filter(key)` is truthy exactly when `key` is a non-empty string that starts with
`createKey(true)`, and falsy otherwise; in particular `filter(getKey())` is truthy, and
`filter` of an empty or a missing key is falsy. -/
theorem filter_spec (self : Provider) (base : String)
    (hb : createKey self true = .ok base)
    (hmeta : ∀ c ∈ base.toList, isMetaChar c = false) :
    (∀ key, filter self key = .ok (some true) ↔
      ∃ k, key = some k ∧ k ≠ "" ∧ ∃ rest : String, k = base ++ rest) ∧
    (∀ key, (¬ ∃ k, key = some k ∧ k ≠ "" ∧ ∃ rest : String, k = base ++ rest) →
      filter self key = .ok (some false)) ∧
    (∀ full, getKey self = .ok full → filter self (some full) = .ok (some true)) ∧
    filter self none = .ok (some false) ∧
    filter self (some "") = .ok (some false) := by
  have hb' := hb
  have hfalse : ∀ key, (¬ ∃ k, key = some k ∧ k ≠ "" ∧ ∃ rest : String, k = base ++ rest) →
      filter self key = .ok (some false) := by
    intro key hn
    obtain ⟨b, hbv⟩ : ∃ b, filter self key = .ok (some b) :=
      ⟨_, filter_general self base hb hmeta key⟩
    cases b with
    | false => exact hbv
    | true => exact absurd ((filter_true_iff self base hb hmeta key).1 hbv) hn
  refine ⟨filter_true_iff self base hb hmeta, hfalse, fun full hfull => ?_, ?_, ?_⟩
  · obtain ⟨hash, hh⟩ : ∃ hash, configHash self.config = .ok hash := by
      cases hc : configHash self.config with
      | error e => simp [createKey, hc] at hb
      | ok hash => exact ⟨hash, rfl⟩
    rw [createKey_general self hash hh] at hb
    rw [getKey_general self hash hh] at hfull
    injection hb with hb
    injection hfull with hfull
    refine (filter_true_iff self base hb' hmeta (some full)).2
      ⟨full, rfl, ?_, ":" ++ (paramText self.params "authToken" (self.authToken.getD "") ++ (":"
        ++ (paramText self.params "configHash" hash ++ (":"
        ++ ((self.params.get "format").toStr ++ (":"
        ++ (paramText self.params "layer" "" ++ (":"
        ++ paramText self.params "scale_factor" "1")))))))), ?_⟩
    · intro he
      have hl := congrArg String.length he
      rw [← hfull] at hl
      simp only [String.length_append] at hl
      have h1 : ":".length = 1 := rfl
      have h0 : "".length = 0 := rfl
      omega
    · rw [← hfull, ← hb]
      simp only [String.append_assoc]
  · exact hfalse none (by simp)
  · exact hfalse (some "") (by simp)

theorem example_not_prefixed :
    ¬ ∃ k, some "xdb:u1:t1" = some k ∧ k ≠ "" ∧ ∃ rest : String, k = "db:u1:t1" ++ rest := by
  rintro ⟨k, hk, -, rest, hr⟩
  injection hk with hk
  subst hk
  have h := congrArg (fun s => s.toList.head?) hr
  simp at h

theorem filter_spec_witness :
    createKey authProvider true = .ok "db:u1:t1" ∧
    filter authProvider (some "db:u1:t1:abc") = .ok (some true) ∧
    filter authProvider (some "xdb:u1:t1") = .ok (some false) ∧
    filter authProvider none = .ok (some false) :=
  ⟨by decide!,
    ((filter_spec authProvider "db:u1:t1" (by decide!) (by decide)).1 _).2
      ⟨"db:u1:t1:abc", rfl, by decide, ":abc", by decide⟩,
    (filter_spec authProvider "db:u1:t1" (by decide!) (by decide)).2.1 _ example_not_prefixed,
    (filter_spec authProvider "db:u1:t1" (by decide!) (by decide)).2.2.2.1⟩
/-! ## The rewrite of mapnik parsing errors: C30 -/

theorem matchStyleTail_eq (digits rest : List Char) (hne : digits ≠ [])
    (hd : ∀ c ∈ digits, isDigitChar c = true) :
    matchStyleTail (styleLiteral ++ digits ++ '\'' :: rest) = some digits := by
  have hs : startsWithChars (styleLiteral ++ digits ++ '\'' :: rest) styleLiteral = true :=
    (startsWithChars_iff _ _).2 ⟨digits ++ '\'' :: rest, by simp⟩
  have hdrop : (styleLiteral ++ digits ++ '\'' :: rest).drop styleLiteral.length =
      digits ++ '\'' :: rest := by
    rw [List.append_assoc, List.drop_left]
  have hq : isDigitChar '\'' = false := by decide
  have htake : (digits ++ '\'' :: rest).takeWhile isDigitChar = digits := by
    rw [List.takeWhile_append_of_pos hd]
    simp [List.takeWhile, hq]
  have hdropw : (digits ++ '\'' :: rest).dropWhile isDigitChar = '\'' :: rest := by
    rw [List.dropWhile_append_of_pos hd]
    simp [List.dropWhile, hq]
  simp only [matchStyleTail, hs, if_true, hdrop, htake, hdropw]
  cases digits with
  | nil => exact absurd rfl hne
  | cons d ds => rfl

theorem matchStyleTail_sound (t digits : List Char) (h : matchStyleTail t = some digits) :
    ∃ rest, digits ≠ [] ∧ (∀ c ∈ digits, isDigitChar c = true) ∧
      t = styleLiteral ++ digits ++ '\'' :: rest := by
  simp only [matchStyleTail] at h
  split at h
  · next hs =>
    obtain ⟨suf, rfl⟩ := (startsWithChars_iff _ _).1 hs
    rw [List.drop_left] at h
    split at h
    · next d ds r htk hdr =>
      injection h with h
      subst h
      refine ⟨r, List.cons_ne_nil _ _, ?_, ?_⟩
      · intro c hc
        rw [← htk] at hc
        exact (List.mem_takeWhile_imp hc)
      · rw [List.append_assoc, ← hdr, ← htk, List.takeWhile_append_dropWhile]
    · exact absurd h (by simp)
  · exact absurd h (by simp)

theorem styleOccurrence_iff (t : List Char) :
    StyleOccurrence t ↔ ∃ digits, matchStyleTail t = some digits := by
  constructor
  · rintro ⟨digits, rest, hne, hd, rfl⟩
    exact ⟨digits, matchStyleTail_eq digits rest hne hd⟩
  · rintro ⟨digits, h⟩
    obtain ⟨rest, hne, hd, ht⟩ := matchStyleTail_sound t digits h
    exact ⟨digits, rest, hne, hd, ht⟩

theorem matchStyleTail_none (t : List Char) (h : ¬ StyleOccurrence t) :
    matchStyleTail t = none := by
  cases hm : matchStyleTail t with
  | none => rfl
  | some d => exact absurd ((styleOccurrence_iff t).2 ⟨d, hm⟩) h

theorem tryLengths_none (s : List Char) (K : Nat)
    (h : ∀ k, k ≤ K → matchStyleTail (s.drop k) = none) : tryLengths s K = none := by
  induction K with
  | zero =>
    have h0 := h 0 (Nat.le_refl 0)
    simp only [List.drop_zero] at h0
    simp [tryLengths, h0]
  | succ K ih =>
    simp only [tryLengths, h (K + 1) (Nat.le_refl _)]
    exact ih fun k hk => h k (Nat.le_succ_of_le hk)

theorem tryLengths_some (s : List Char) (K k : Nat) (digits : List Char) (hk : k ≤ K)
    (hm : matchStyleTail (s.drop k) = some digits)
    (hlater : ∀ j, k < j → j ≤ K → matchStyleTail (s.drop j) = none) :
    tryLengths s K = some (s.take k, digits) := by
  induction K with
  | zero =>
    have hk0 : k = 0 := Nat.le_zero.1 hk
    subst hk0
    simp only [List.drop_zero] at hm
    simp [tryLengths, hm]
  | succ K ih =>
    rcases Nat.lt_or_ge k (K + 1) with hlt | hge
    · simp only [tryLengths, hlater (K + 1) hlt (Nat.le_refl _)]
      exact ih (Nat.le_of_lt_succ hlt) fun j hj hjK => hlater j hj (Nat.le_succ_of_le hjK)
    · have hkK : k = K + 1 := Nat.le_antisymm hk hge
      subst hkK
      simp only [tryLengths, hm]

theorem tryLengths_sound (s : List Char) (K : Nat) (text digits : List Char)
    (h : tryLengths s K = some (text, digits)) :
    ∃ k, k ≤ K ∧ text = s.take k ∧ matchStyleTail (s.drop k) = some digits := by
  induction K with
  | zero =>
    simp only [tryLengths, Option.map_eq_some'] at h
    obtain ⟨d, hd, hp⟩ := h
    injection hp with h1 h2
    subst h1 h2
    exact ⟨0, Nat.le_refl 0, by simp, by simpa using hd⟩
  | succ K ih =>
    simp only [tryLengths] at h
    split at h
    · next d hd =>
      injection h with h
      injection h with h1 h2
      subst h1 h2
      exact ⟨K + 1, Nat.le_refl _, rfl, hd⟩
    · obtain ⟨k, hk, ht, hm⟩ := ih h
      exact ⟨k, Nat.le_succ_of_le hk, ht, hm⟩

theorem matchStyle_here (s : List Char) (groups : List Char × List Char)
    (h : tryLengths s (lineLength s) = some groups) : matchStyle s = some groups := by
  cases s with
  | nil => simpa [matchStyle, lineLength] using h
  | cons c t => simp only [matchStyle, h]

theorem matchStyle_skip (before s : List Char)
    (h : ∀ pre suf, before = pre ++ suf → suf ≠ [] →
      tryLengths (suf ++ s) (lineLength (suf ++ s)) = none) :
    matchStyle (before ++ s) = matchStyle s := by
  induction before with
  | nil => rfl
  | cons c b ih =>
    have h0 := h [] (c :: b) rfl (List.cons_ne_nil _ _)
    simp only [List.cons_append] at h0
    simp only [List.cons_append, matchStyle, List.append_eq, h0]
    exact ih fun pre suf hb hne => h (c :: pre) suf (by simp [hb]) hne

theorem matchStyle_none (s : List Char)
    (h : ∀ pre suf, s = pre ++ suf → ¬ StyleOccurrence suf) : matchStyle s = none := by
  induction s with
  | nil =>
    have h0 := matchStyleTail_none [] (h [] [] rfl)
    simp [matchStyle, tryLengths, h0]
  | cons c t ih =>
    have h1 : tryLengths (c :: t) (lineLength (c :: t)) = none :=
      tryLengths_none _ _ fun k _ =>
        matchStyleTail_none _ (h ((c :: t).take k) ((c :: t).drop k)
          (List.take_append_drop k (c :: t)).symm)
    simp only [matchStyle, h1]
    exact ih fun pre suf hps => h (c :: pre) suf (by simp [hps])

theorem matchStyle_sound (s text digits : List Char)
    (h : matchStyle s = some (text, digits)) :
    ∃ pre suf, s = pre ++ suf ∧ tryLengths suf (lineLength suf) = some (text, digits) := by
  induction s with
  | nil => exact ⟨[], [], rfl, by simpa [matchStyle, lineLength] using h⟩
  | cons c t ih =>
    simp only [matchStyle] at h
    split at h
    · next g hg =>
      injection h with h
      subst h
      exact ⟨[], c :: t, rfl, hg⟩
    · obtain ⟨pre, suf, hps, ht⟩ := ih h
      exact ⟨c :: pre, suf, by simp [hps], ht⟩

theorem lineLength_append (text s : List Char)
    (h : ∀ c ∈ text, isLineTerminator c = false) :
    lineLength (text ++ s) = text.length + lineLength s := by
  simp only [lineLength]
  rw [List.takeWhile_append_of_pos (by simpa using h), List.length_append]

theorem lineLength_le_of_terminator (b s : List Char) (c : Char)
    (hc : isLineTerminator c = true) : lineLength (b ++ c :: s) ≤ b.length := by
  induction b with
  | nil => simp [lineLength, List.takeWhile, hc]
  | cons d b ih =>
    simp only [lineLength, List.cons_append, List.takeWhile] at ih ⊢
    split
    · simp only [List.length_cons]
      exact Nat.succ_le_succ ih
    · simp

theorem take_of_le_lineLength (s : List Char) (j : Nat) (hj : j ≤ lineLength s) :
    ∀ c ∈ s.take j, isLineTerminator c = false := by
  induction s generalizing j with
  | nil => simp
  | cons d s ih =>
    cases j with
    | zero => simp
    | succ j =>
      simp only [lineLength, List.takeWhile] at hj
      split at hj
      · next hd =>
        simp only [List.length_cons] at hj
        intro c hc
        simp only [List.take_succ_cons, List.mem_cons] at hc
        rcases hc with rfl | hc
        · simpa using hd
        · exact ih j (Nat.le_of_succ_le_succ hj) c hc
      · simp at hj

theorem lineLength_le_length (s : List Char) : lineLength s ≤ s.length := by
  simp only [lineLength]
  exact (List.takeWhile_sublist _).length_le

theorem matchStyle_last (before text digits rest : List Char) (hne : digits ≠ [])
    (hd : ∀ c ∈ digits, isDigitChar c = true)
    (htext : ∀ c ∈ text, isLineTerminator c = false)
    (hbefore : before = [] ∨ ∃ b c, before = b ++ [c] ∧ isLineTerminator c = true)
    (hfirst : ∀ pre suf, before = pre ++ suf → suf ≠ [] →
      ¬ StyleOccurrence (suf ++ (text ++ (styleLiteral ++ digits ++ '\'' :: rest))))
    (hlast : ∀ pre suf, text ++ (styleLiteral ++ digits ++ '\'' :: rest) = pre ++ suf →
      text.length < pre.length → (∀ c ∈ pre, isLineTerminator c = false) →
      ¬ StyleOccurrence suf) :
    matchStyle (before ++ (text ++ (styleLiteral ++ digits ++ '\'' :: rest))) =
      some (text, digits) := by
  rw [matchStyle_skip]
  · apply matchStyle_here
    have h := tryLengths_some (text ++ (styleLiteral ++ digits ++ '\'' :: rest))
      (lineLength (text ++ (styleLiteral ++ digits ++ '\'' :: rest))) text.length digits
      (by
        rw [lineLength_append text _ htext]
        exact Nat.le_add_right _ _)
      (by
        rw [List.drop_left]
        exact matchStyleTail_eq digits rest hne hd)
      (fun j hj hjl =>
        matchStyleTail_none _
          (hlast _ _ (List.take_append_drop j _).symm
            (by
              rw [List.length_take, Nat.min_eq_left
                (Nat.le_trans hjl (lineLength_le_length _))]
              exact hj)
            (take_of_le_lineLength _ j hjl)))
    rw [List.take_left] at h
    exact h
  · intro pre suf hps hsuf
    rcases hbefore with hnil | ⟨b, c, hbc, hc⟩
    · subst hnil
      have := congrArg List.length hps
      simp only [List.length_nil, List.length_append] at this
      exact absurd (List.eq_nil_of_length_eq_zero (by omega)) hsuf
    · rcases List.eq_nil_or_concat suf with hnil | ⟨suf', c', hsc⟩
      · exact absurd hnil hsuf
      · rw [List.concat_eq_append] at hsc
        subst hsc
        have hcc : c' = c := by
          rw [hbc, ← List.append_assoc] at hps
          have := List.append_inj_right' hps rfl
          simpa using this.symm
        subst hcc
        apply tryLengths_none
        intro k hk
        have hle : k ≤ suf'.length := by
          refine Nat.le_trans hk ?_
          have := lineLength_le_of_terminator suf'
            (text ++ (styleLiteral ++ digits ++ '\'' :: rest)) c' hc
          simpa [List.append_assoc] using this
        have hdrop : (suf' ++ [c'] ++ (text ++ (styleLiteral ++ digits ++ '\'' :: rest))).drop k
            = (suf'.drop k ++ [c']) ++ (text ++ (styleLiteral ++ digits ++ '\'' :: rest)) := by
          rw [List.append_assoc, List.drop_append_of_le_length hle]
          simp only [List.append_assoc]
        rw [hdrop]
        apply matchStyleTail_none
        apply hfirst (pre ++ suf'.take k) (suf'.drop k ++ [c'])
        · rw [hps, List.append_assoc, ← List.append_assoc (suf'.take k),
            List.take_append_drop]
        · simp

theorem mem_tails_of_append (s pre suf : List Char) (h : s = pre ++ suf) : suf ∈ s.tails := by
  rw [List.mem_tails, h]
  exact List.suffix_append pre suf

theorem rewriteStyleError_mk (msg text digits : List Char)
    (h : matchStyle msg = some (text, digits)) :
    rewriteStyleError (String.mk msg) = "style" ++ String.mk digits ++ ": " ++ String.mk text := by
  have hl : (String.mk msg).toList = msg := rfl
  simp only [rewriteStyleError, hl, h]

/-- C30. `finalizeGetTileOrGrid` rewrites mapnik parsing errors to start with the layer
number. A message `before ++ text ++ " in style 'layer" ++ N ++ "'" ++ rest`, where `N` is
one or more decimal digits, `text` is on one line and begins that line, no occurrence of
the pattern begins in `before`, and none begins later on the line of `text`, is sent as
`style<N>: <text>`: the text before the last occurrence on the line, with what follows it
discarded. A message with an occurrence is always rewritten to that shape, and a message
without one is sent unchanged. -/
theorem rewriteStyleError_spec :
    (∀ before text digits rest : List Char,
      digits ≠ [] → (∀ c ∈ digits, isDigitChar c = true) →
      (∀ c ∈ text, isLineTerminator c = false) →
      (before = [] ∨ ∃ b c, before = b ++ [c] ∧ isLineTerminator c = true) →
      (∀ pre suf, before = pre ++ suf → suf ≠ [] →
        ¬ StyleOccurrence (suf ++ (text ++ (styleLiteral ++ digits ++ '\'' :: rest)))) →
      (∀ pre suf, text ++ (styleLiteral ++ digits ++ '\'' :: rest) = pre ++ suf →
        text.length < pre.length → (∀ c ∈ pre, isLineTerminator c = false) →
        ¬ StyleOccurrence suf) →
      ∀ findStatusCode http_status,
        finalizeGetTileOrGrid findStatusCode
          ⟨String.mk (before ++ (text ++ (styleLiteral ++ digits ++ '\'' :: rest))),
            http_status⟩ =
          ⟨["style" ++ String.mk digits ++ ": " ++ String.mk text],
            findStatusCode ⟨String.mk
              (before ++ (text ++ (styleLiteral ++ digits ++ '\'' :: rest))), http_status⟩⟩) ∧
    (∀ msg : List Char, (∃ pre suf, msg = pre ++ suf ∧ StyleOccurrence suf) →
      ∃ before text digits rest,
        msg = before ++ (text ++ (styleLiteral ++ digits ++ '\'' :: rest)) ∧
        digits ≠ [] ∧ (∀ c ∈ digits, isDigitChar c = true) ∧
        (∀ c ∈ text, isLineTerminator c = false) ∧
        rewriteStyleError (String.mk msg) =
          "style" ++ String.mk digits ++ ": " ++ String.mk text) ∧
    (∀ msg : List Char, (∀ pre suf, msg = pre ++ suf → ¬ StyleOccurrence suf) →
      rewriteStyleError (String.mk msg) = String.mk msg ∧
      ∀ findStatusCode http_status, msg ≠ [] →
        finalizeGetTileOrGrid findStatusCode ⟨String.mk msg, http_status⟩ =
          ⟨[String.mk msg], findStatusCode ⟨String.mk msg, http_status⟩⟩) := by
  refine ⟨?_, ?_, ?_⟩
  · intro before text digits rest hne hd htext hbefore hfirst hlast findStatusCode http_status
    have hm := matchStyle_last before text digits rest hne hd htext hbefore hfirst hlast
    have hmsg : (String.mk (before ++ (text ++ (styleLiteral ++ digits ++ '\'' :: rest))))
        ≠ "" := by
      intro he
      have := congrArg String.length he
      simp [styleLiteral] at this
    simp only [finalizeGetTileOrGrid, errMsgOf, hmsg, ne_eq, not_false_eq_true, if_true,
      empty_append_str, rewriteStyleError_mk _ _ _ hm]
  · rintro msg ⟨pre, suf, hps, hocc⟩
    cases hm : matchStyle msg with
    | none =>
      exfalso
      obtain ⟨d, hd⟩ := (styleOccurrence_iff suf).1 hocc
      have hskip : ∀ (p s : List Char), matchStyle s ≠ none → matchStyle (p ++ s) ≠ none := by
        intro p s hs
        induction p with
        | nil => exact hs
        | cons c p ih =>
          simp only [List.cons_append, matchStyle, List.append_eq]
          split
          · simp
          · exact ih
      have hhere : matchStyle suf ≠ none := by
        have ht : tryLengths suf (lineLength suf) ≠ none := by
          intro hn
          have hall : ∀ K, tryLengths suf K = none → matchStyleTail suf = none := by
            intro K
            induction K with
            | zero =>
              intro h0
              cases hmt : matchStyleTail suf with
              | none => rfl
              | some x => simp [tryLengths, hmt] at h0
            | succ K ih =>
              intro h1
              simp only [tryLengths] at h1
              split at h1
              · exact absurd h1 (by simp)
              · exact ih h1
          rw [hall _ hn] at hd
          exact absurd hd (by simp)
        cases hg : tryLengths suf (lineLength suf) with
        | none => exact absurd hg ht
        | some g =>
          rw [matchStyle_here suf g hg]
          simp
      exact hskip pre suf hhere (hps ▸ hm)
    | some g =>
      obtain ⟨text, digits⟩ := g
      obtain ⟨before, s, hbs, ht⟩ := matchStyle_sound msg text digits hm
      obtain ⟨k, hk, htk, hmt⟩ := tryLengths_sound s _ text digits ht
      obtain ⟨rest, hne, hd, hdrop⟩ := matchStyleTail_sound _ digits hmt
      refine ⟨before, text, digits, rest, ?_, hne, hd, ?_, rewriteStyleError_mk _ _ _ hm⟩
      · rw [hbs, htk, ← hdrop, List.take_append_drop]
      · rw [htk]
        exact take_of_le_lineLength s k hk
  · intro msg hnone
    have hm := matchStyle_none msg hnone
    have hr : rewriteStyleError (String.mk msg) = String.mk msg := by
      have hl : (String.mk msg).toList = msg := rfl
      simp only [rewriteStyleError, hl, hm]
    refine ⟨hr, fun findStatusCode http_status hmsg => ?_⟩
    have hne : String.mk msg ≠ "" := by
      intro he
      apply hmsg
      have := congrArg String.toList he
      simpa using this
    simp only [finalizeGetTileOrGrid, errMsgOf, hne, ne_eq, not_false_eq_true, if_true,
      empty_append_str, hr]

theorem no_later_occurrence (s : List Char) (n : Nat)
    (h : ∀ suf ∈ s.tails, suf.length + n < s.length → matchStyleTail suf = none)
    (pre suf : List Char) (hps : s = pre ++ suf) (hn : n < pre.length) :
    ¬ StyleOccurrence suf := by
  intro hocc
  obtain ⟨d, hd⟩ := (styleOccurrence_iff suf).1 hocc
  have hlen : suf.length + n < s.length := by
    rw [hps, List.length_append]
    omega
  rw [h suf (mem_tails_of_append s pre suf hps) hlen] at hd
  exact absurd hd (by simp)

theorem rewriteStyleError_spec_witness :
    finalizeGetTileOrGrid (fun _ => 400)
      ⟨"a in style 'layer1' b in style 'layer22' c", none⟩ =
      ⟨["style22: a in style 'layer1' b"], 400⟩ :=
  rewriteStyleError_spec.1 [] "a in style 'layer1' b".toList "22".toList " c".toList
    (by decide) (by decide) (by decide) (Or.inl rfl)
    (fun pre suf hps hsuf => by
      cases pre <;> cases suf <;> simp at hps hsuf)
    (fun pre suf hps hn _ =>
      no_later_occurrence _ "a in style 'layer1' b".toList.length (by decide) pre suf hps hn)
    (fun _ => 400) none
end NamedMap
